import Mathlib

/-!
# nvgpu PMU firmware-ABI dispatch layer: a shallow embedding

Machine integers are natural numbers; a store into a field of width `w`, and the
passing of an argument of width `w`, reduce modulo `2^w`.  A `NULL` function pointer
is `none`.  Each function below carries the name of the C function it embeds
(`drivers/gpu/nvgpu/common/pmu/pmu_fw.c` unless said otherwise).
-/

namespace Nvgpu

/-! ## Integer conversions -/

/-- Conversion to `u8`. -/
def U8 (n : Nat) : Nat := n % 2 ^ 8

/-- Conversion to `u16`. -/
def U16 (n : Nat) : Nat := n % 2 ^ 16

/-- Conversion to `u32` (the `U32(x)` cast of the sources). -/
def U32 (n : Nat) : Nat := n % 2 ^ 32

/-- Modelled from the spec: `u64_lo32` of `nvgpu/utils.h`, which is not among the
sources; the low 32-bit half of a 64-bit value. -/
def u64_lo32 (n : Nat) : Nat := n % 2 ^ 32

/-- Modelled from the spec: `u64_hi32` of `nvgpu/utils.h`, which is not among the
sources; the high 32-bit half of a 64-bit value. -/
def u64_hi32 (n : Nat) : Nat := (n / 2 ^ 32) % 2 ^ 32

/-- The errno value `EINVAL`. -/
def EINVAL : Int := 22

/-! ## Power-gating engine-buffer-load commands

`struct pmu_pg_cmd` is a union; every accessor touches one member only, and the
embedding passes that member.  The member types are declared in headers that are
not among the sources; the fields are those the accessors name. -/

/-- Modelled from the spec: member `eng_buf_load_v0` of `struct pmu_pg_cmd`
(version 0 stores a pre-shifted 32-bit base address). -/
structure pmu_pg_cmd_eng_buf_load_v0 where
  cmd_type : Nat
  engine_id : Nat
  buf_idx : Nat
  pad : Nat
  buf_size : Nat
  dma_base : Nat
  dma_offset : Nat
  dma_idx : Nat
deriving DecidableEq, Repr

/-- Modelled from the spec: a 64-bit address split into a low and a high 32-bit word. -/
structure falc_u64 where
  lo : Nat
  hi : Nat
deriving DecidableEq, Repr

/-- Modelled from the spec: the `dma_desc` of the version 1 command (address words,
size and a separate DMA-index field). -/
structure pmu_dmem_desc_v1 where
  dma_addr : falc_u64
  dma_size : Nat
  dma_idx : Nat
deriving DecidableEq, Repr

/-- Modelled from the spec: member `eng_buf_load_v1` of `struct pmu_pg_cmd`. -/
structure pmu_pg_cmd_eng_buf_load_v1 where
  cmd_type : Nat
  engine_id : Nat
  buf_idx : Nat
  pad : Nat
  dma_desc : pmu_dmem_desc_v1
deriving DecidableEq, Repr

/-- Modelled from the spec: the `dma_desc` of the version 2 command (address words
and a combined params word whose high bits carry the DMA index). -/
structure flcn_mem_desc_v2 where
  address : falc_u64
  params : Nat
deriving DecidableEq, Repr

/-- Modelled from the spec: member `eng_buf_load_v2` of `struct pmu_pg_cmd`. -/
structure pmu_pg_cmd_eng_buf_load_v2 where
  cmd_type : Nat
  engine_id : Nat
  buf_idx : Nat
  pad : Nat
  dma_desc : flcn_mem_desc_v2
deriving DecidableEq, Repr

/-- The all-zero version 1 command. -/
def eng_buf_load_v1_zero : pmu_pg_cmd_eng_buf_load_v1 :=
  { cmd_type := 0, engine_id := 0, buf_idx := 0, pad := 0,
    dma_desc := { dma_addr := { lo := 0, hi := 0 }, dma_size := 0, dma_idx := 0 } }

/-- The all-zero version 2 command. -/
def eng_buf_load_v2_zero : pmu_pg_cmd_eng_buf_load_v2 :=
  { cmd_type := 0, engine_id := 0, buf_idx := 0, pad := 0,
    dma_desc := { address := { lo := 0, hi := 0 }, params := 0 } }

/-- Source: `pg->eng_buf_load_v0.buf_size = value;` with `u16 value`. -/
def pg_cmd_eng_buf_load_set_buf_size_v0 (pg : pmu_pg_cmd_eng_buf_load_v0) (value : Nat) :
    pmu_pg_cmd_eng_buf_load_v0 :=
  { pg with buf_size := U16 value }

/-- Source: `pg->eng_buf_load_v1.dma_desc.dma_size = value;` with `u16 value`. -/
def pg_cmd_eng_buf_load_set_buf_size_v1 (pg : pmu_pg_cmd_eng_buf_load_v1) (value : Nat) :
    pmu_pg_cmd_eng_buf_load_v1 :=
  { pg with dma_desc := { pg.dma_desc with dma_size := U16 value } }

/-- Source: `pg->eng_buf_load_v2.dma_desc.params = value;` with `u16 value`. -/
def pg_cmd_eng_buf_load_set_buf_size_v2 (pg : pmu_pg_cmd_eng_buf_load_v2) (value : Nat) :
    pmu_pg_cmd_eng_buf_load_v2 :=
  { pg with dma_desc := { pg.dma_desc with params := U16 value } }

/-- Source: `pg->eng_buf_load_v0.dma_base = (value >> 8);` with `u32 value`. -/
def pg_cmd_eng_buf_load_set_dma_base_v0 (pg : pmu_pg_cmd_eng_buf_load_v0) (value : Nat) :
    pmu_pg_cmd_eng_buf_load_v0 :=
  { pg with dma_base := U32 value >>> 8 }

/-- Source: `dma_addr.lo |= u64_lo32(value); dma_addr.hi |= u64_hi32(value);` with `u32 value`. -/
def pg_cmd_eng_buf_load_set_dma_base_v1 (pg : pmu_pg_cmd_eng_buf_load_v1) (value : Nat) :
    pmu_pg_cmd_eng_buf_load_v1 :=
  { pg with dma_desc := { pg.dma_desc with
      dma_addr := { lo := U32 (pg.dma_desc.dma_addr.lo ||| u64_lo32 (U32 value)),
                    hi := U32 (pg.dma_desc.dma_addr.hi ||| u64_hi32 (U32 value)) } } }

/-- Source: `address.lo = u64_lo32(value); address.hi = u64_lo32(value);` with `u32 value`. -/
def pg_cmd_eng_buf_load_set_dma_base_v2 (pg : pmu_pg_cmd_eng_buf_load_v2) (value : Nat) :
    pmu_pg_cmd_eng_buf_load_v2 :=
  { pg with dma_desc := { pg.dma_desc with
      address := { lo := u64_lo32 (U32 value), hi := u64_lo32 (U32 value) } } }

/-- Source: `pg->eng_buf_load_v0.dma_offset = value;` with `u8 value`. -/
def pg_cmd_eng_buf_load_set_dma_offset_v0 (pg : pmu_pg_cmd_eng_buf_load_v0) (value : Nat) :
    pmu_pg_cmd_eng_buf_load_v0 :=
  { pg with dma_offset := U8 value }

/-- Source: `pg->eng_buf_load_v1.dma_desc.dma_addr.lo |= value;` with `u8 value`. -/
def pg_cmd_eng_buf_load_set_dma_offset_v1 (pg : pmu_pg_cmd_eng_buf_load_v1) (value : Nat) :
    pmu_pg_cmd_eng_buf_load_v1 :=
  { pg with dma_desc := { pg.dma_desc with
      dma_addr := { pg.dma_desc.dma_addr with
        lo := U32 (pg.dma_desc.dma_addr.lo ||| U8 value) } } }

/-- Source: `address.lo |= u64_lo32(value); address.hi |= u64_lo32(value);` with `u8 value`. -/
def pg_cmd_eng_buf_load_set_dma_offset_v2 (pg : pmu_pg_cmd_eng_buf_load_v2) (value : Nat) :
    pmu_pg_cmd_eng_buf_load_v2 :=
  { pg with dma_desc := { pg.dma_desc with
      address := { lo := U32 (pg.dma_desc.address.lo ||| u64_lo32 (U8 value)),
                   hi := U32 (pg.dma_desc.address.hi ||| u64_lo32 (U8 value)) } } }

/-- Source: `pg->eng_buf_load_v0.dma_idx = value;` with `u8 value`. -/
def pg_cmd_eng_buf_load_set_dma_idx_v0 (pg : pmu_pg_cmd_eng_buf_load_v0) (value : Nat) :
    pmu_pg_cmd_eng_buf_load_v0 :=
  { pg with dma_idx := U8 value }

/-- Source: `pg->eng_buf_load_v1.dma_desc.dma_idx = value;` with `u8 value`. -/
def pg_cmd_eng_buf_load_set_dma_idx_v1 (pg : pmu_pg_cmd_eng_buf_load_v1) (value : Nat) :
    pmu_pg_cmd_eng_buf_load_v1 :=
  { pg with dma_desc := { pg.dma_desc with dma_idx := U8 value } }

/-- Source: `pg->eng_buf_load_v2.dma_desc.params |= (U32(value) << U32(24));` with `u8 value`. -/
def pg_cmd_eng_buf_load_set_dma_idx_v2 (pg : pmu_pg_cmd_eng_buf_load_v2) (value : Nat) :
    pmu_pg_cmd_eng_buf_load_v2 :=
  { pg with dma_desc := { pg.dma_desc with
      params := U32 (pg.dma_desc.params ||| U32 (U32 (U8 value) <<< U32 24)) } }

/-! ## Allocation records

`struct pmu_allocation_v1/v2/v3` are declared in headers that are not among the
sources.  The accessors name `alloc.dmem.size`, `alloc.dmem.offset` and `alloc.fb`. -/

/-- Modelled from the spec: the on-chip-memory region of an allocation record,
an offset and a size. -/
structure pmu_dmem where
  size : Nat
  offset : Nat
deriving DecidableEq, Repr

/-- Modelled from the spec: the `alloc` member of an allocation record; `fb` is the
frame-buffer descriptor, kept as its raw bytes. -/
structure pmu_alloc where
  dmem : pmu_dmem
  fb : List Nat
deriving DecidableEq, Repr

/-- Modelled from the spec: `struct pmu_allocation_v1`. -/
structure pmu_allocation_v1 where
  alloc : pmu_alloc
deriving DecidableEq, Repr

/-- Modelled from the spec: `struct pmu_allocation_v2`. -/
structure pmu_allocation_v2 where
  alloc : pmu_alloc
deriving DecidableEq, Repr

/-- Modelled from the spec: `struct pmu_allocation_v3`. -/
structure pmu_allocation_v3 where
  alloc : pmu_alloc
deriving DecidableEq, Repr

/-- Source: `pmu_a_ptr->alloc.dmem.size = size;` with `u16 size`. -/
def pmu_allocation_set_dmem_size_v3 (pmu_a_ptr : pmu_allocation_v3) (size : Nat) :
    pmu_allocation_v3 :=
  { pmu_a_ptr with alloc := { pmu_a_ptr.alloc with
      dmem := { pmu_a_ptr.alloc.dmem with size := U16 size } } }

/-- Source: `pmu_a_ptr->alloc.dmem.size = size;` with `u16 size`. -/
def pmu_allocation_set_dmem_size_v2 (pmu_a_ptr : pmu_allocation_v2) (size : Nat) :
    pmu_allocation_v2 :=
  { pmu_a_ptr with alloc := { pmu_a_ptr.alloc with
      dmem := { pmu_a_ptr.alloc.dmem with size := U16 size } } }

/-- Source: `pmu_a_ptr->alloc.dmem.size = size;` with `u16 size`. -/
def pmu_allocation_set_dmem_size_v1 (pmu_a_ptr : pmu_allocation_v1) (size : Nat) :
    pmu_allocation_v1 :=
  { pmu_a_ptr with alloc := { pmu_a_ptr.alloc with
      dmem := { pmu_a_ptr.alloc.dmem with size := U16 size } } }

/-- Source: `return pmu_a_ptr->alloc.dmem.size;` -/
def pmu_allocation_get_dmem_size_v3 (pmu_a_ptr : pmu_allocation_v3) : Nat :=
  pmu_a_ptr.alloc.dmem.size

/-- Source: `return pmu_a_ptr->alloc.dmem.size;` -/
def pmu_allocation_get_dmem_size_v2 (pmu_a_ptr : pmu_allocation_v2) : Nat :=
  pmu_a_ptr.alloc.dmem.size

/-- Source: `return pmu_a_ptr->alloc.dmem.size;` -/
def pmu_allocation_get_dmem_size_v1 (pmu_a_ptr : pmu_allocation_v1) : Nat :=
  pmu_a_ptr.alloc.dmem.size

/-- Source: `return pmu_a_ptr->alloc.dmem.offset;` -/
def pmu_allocation_get_dmem_offset_v3 (pmu_a_ptr : pmu_allocation_v3) : Nat :=
  pmu_a_ptr.alloc.dmem.offset

/-- Source: `return pmu_a_ptr->alloc.dmem.offset;` -/
def pmu_allocation_get_dmem_offset_v2 (pmu_a_ptr : pmu_allocation_v2) : Nat :=
  pmu_a_ptr.alloc.dmem.offset

/-- Source: `return pmu_a_ptr->alloc.dmem.offset;` -/
def pmu_allocation_get_dmem_offset_v1 (pmu_a_ptr : pmu_allocation_v1) : Nat :=
  pmu_a_ptr.alloc.dmem.offset

/-- Source: `pmu_a_ptr->alloc.dmem.offset = offset;` with `u32 offset`. -/
def pmu_allocation_set_dmem_offset_v3 (pmu_a_ptr : pmu_allocation_v3) (offset : Nat) :
    pmu_allocation_v3 :=
  { pmu_a_ptr with alloc := { pmu_a_ptr.alloc with
      dmem := { pmu_a_ptr.alloc.dmem with offset := U32 offset } } }

/-- Source: `pmu_a_ptr->alloc.dmem.offset = offset;` with `u32 offset`. -/
def pmu_allocation_set_dmem_offset_v2 (pmu_a_ptr : pmu_allocation_v2) (offset : Nat) :
    pmu_allocation_v2 :=
  { pmu_a_ptr with alloc := { pmu_a_ptr.alloc with
      dmem := { pmu_a_ptr.alloc.dmem with offset := U32 offset } } }

/-- Source: `pmu_a_ptr->alloc.dmem.offset = offset;` with `u32 offset`. -/
def pmu_allocation_set_dmem_offset_v1 (pmu_a_ptr : pmu_allocation_v1) (offset : Nat) :
    pmu_allocation_v1 :=
  { pmu_a_ptr with alloc := { pmu_a_ptr.alloc with
      dmem := { pmu_a_ptr.alloc.dmem with offset := U32 offset } } }

/-! ## Perfmon start commands

`struct pmu_perfmon_cmd` is a union; the accessors of version `n` touch member
`start_vn` only, and the embedding passes that member. -/

/-- Modelled from the spec: member `start_v1` of `struct pmu_perfmon_cmd`. -/
structure pmu_perfmon_cmd_start_v1 where
  cmd_type : Nat
  group_id : Nat
  state_id : Nat
  flags : Nat
  counter_alloc : pmu_allocation_v1
deriving DecidableEq, Repr

/-- Modelled from the spec: member `start_v2` of `struct pmu_perfmon_cmd`. -/
structure pmu_perfmon_cmd_start_v2 where
  cmd_type : Nat
  group_id : Nat
  state_id : Nat
  flags : Nat
  counter_alloc : pmu_allocation_v2
deriving DecidableEq, Repr

/-- Modelled from the spec: member `start_v3` of `struct pmu_perfmon_cmd`. -/
structure pmu_perfmon_cmd_start_v3 where
  cmd_type : Nat
  group_id : Nat
  state_id : Nat
  flags : Nat
  counter_alloc : pmu_allocation_v3
deriving DecidableEq, Repr

/-- Source: `start->cmd_type = value;` with `u8 value`. -/
def perfmon_start_set_cmd_type_v3 (start : pmu_perfmon_cmd_start_v3) (value : Nat) :
    pmu_perfmon_cmd_start_v3 :=
  { start with cmd_type := U8 value }

/-- Source: `start->cmd_type = value;` with `u8 value`. -/
def perfmon_start_set_cmd_type_v2 (start : pmu_perfmon_cmd_start_v2) (value : Nat) :
    pmu_perfmon_cmd_start_v2 :=
  { start with cmd_type := U8 value }

/-- Source: `start->cmd_type = value;` with `u8 value`. -/
def perfmon_start_set_cmd_type_v1 (start : pmu_perfmon_cmd_start_v1) (value : Nat) :
    pmu_perfmon_cmd_start_v1 :=
  { start with cmd_type := U8 value }

/-- Source: `start->group_id = value;` with `u8 value`. -/
def perfmon_start_set_group_id_v3 (start : pmu_perfmon_cmd_start_v3) (value : Nat) :
    pmu_perfmon_cmd_start_v3 :=
  { start with group_id := U8 value }

/-- Source: `start->group_id = value;` with `u8 value`. -/
def perfmon_start_set_group_id_v2 (start : pmu_perfmon_cmd_start_v2) (value : Nat) :
    pmu_perfmon_cmd_start_v2 :=
  { start with group_id := U8 value }

/-- Source: `start->group_id = value;` with `u8 value`. -/
def perfmon_start_set_group_id_v1 (start : pmu_perfmon_cmd_start_v1) (value : Nat) :
    pmu_perfmon_cmd_start_v1 :=
  { start with group_id := U8 value }

/-- Source: `start->state_id = value;` with `u8 value`. -/
def perfmon_start_set_state_id_v3 (start : pmu_perfmon_cmd_start_v3) (value : Nat) :
    pmu_perfmon_cmd_start_v3 :=
  { start with state_id := U8 value }

/-- Source: `start->state_id = value;` with `u8 value`. -/
def perfmon_start_set_state_id_v2 (start : pmu_perfmon_cmd_start_v2) (value : Nat) :
    pmu_perfmon_cmd_start_v2 :=
  { start with state_id := U8 value }

/-- Source: `start->state_id = value;` with `u8 value`. -/
def perfmon_start_set_state_id_v1 (start : pmu_perfmon_cmd_start_v1) (value : Nat) :
    pmu_perfmon_cmd_start_v1 :=
  { start with state_id := U8 value }

/-- Source: `start->flags = value;` with `u8 value`. -/
def perfmon_start_set_flags_v3 (start : pmu_perfmon_cmd_start_v3) (value : Nat) :
    pmu_perfmon_cmd_start_v3 :=
  { start with flags := U8 value }

/-- Source: `start->flags = value;` with `u8 value`. -/
def perfmon_start_set_flags_v2 (start : pmu_perfmon_cmd_start_v2) (value : Nat) :
    pmu_perfmon_cmd_start_v2 :=
  { start with flags := U8 value }

/-- Source: `start->flags = value;` with `u8 value`. -/
def perfmon_start_set_flags_v1 (start : pmu_perfmon_cmd_start_v1) (value : Nat) :
    pmu_perfmon_cmd_start_v1 :=
  { start with flags := U8 value }

/-- Source: `return start->flags;` -/
def perfmon_start_get_flags_v3 (start : pmu_perfmon_cmd_start_v3) : Nat :=
  start.flags

/-- Source: `return start->flags;` -/
def perfmon_start_get_flags_v2 (start : pmu_perfmon_cmd_start_v2) : Nat :=
  start.flags

/-- Source: `return start->flags;` -/
def perfmon_start_get_flags_v1 (start : pmu_perfmon_cmd_start_v1) : Nat :=
  start.flags

/-! ## The dispatch table

`struct pmu_v` (the type of `g->ops.pmu_ver`) is declared in a header that is not among
the sources.  Its entries are the function pointers `init_pmu_fw_ver_ops` assigns; an
entry holds the name of the accessor it points to, or `none` for `NULL`. -/

/-- The accessors of `pmu_fw.c`, in the order of their definition, followed by the
board-object and clock functions of other units that `init_pmu_fw_ver_ops` installs. -/
inductive pmu_fn where
  | pmu_perfmon_cntr_sz_v2
  | get_perfmon_cntr_ptr_v2
  | set_perfmon_cntr_ut_v2
  | set_perfmon_cntr_lt_v2
  | set_perfmon_cntr_valid_v2
  | set_perfmon_cntr_index_v2
  | set_perfmon_cntr_group_id_v2
  | set_pmu_cmdline_args_falctracedmabase_v4
  | pmu_cmdline_size_v4
  | set_pmu_cmdline_args_cpufreq_v4
  | set_pmu_cmdline_args_secure_mode_v4
  | set_pmu_cmdline_args_falctracesize_v4
  | set_pmu_cmdline_args_falctracedmaidx_v4
  | pmu_cmdline_size_v5
  | pmu_cmdline_size_v6
  | set_pmu_cmdline_args_cpufreq_v5
  | set_pmu_cmdline_args_secure_mode_v5
  | set_pmu_cmdline_args_falctracesize_v5
  | set_pmu_cmdline_args_falctracedmabase_v5
  | config_pmu_cmdline_args_super_surface_v6
  | set_pmu_cmdline_args_falctracedmaidx_v5
  | pmu_cmdline_size_v3
  | set_pmu_cmdline_args_cpufreq_v3
  | set_pmu_cmdline_args_secure_mode_v3
  | set_pmu_cmdline_args_falctracesize_v3
  | set_pmu_cmdline_args_falctracedmabase_v3
  | set_pmu_cmdline_args_falctracedmaidx_v3
  | get_pmu_cmdline_args_ptr_v4
  | get_pmu_cmdline_args_ptr_v3
  | get_pmu_cmdline_args_ptr_v5
  | get_pmu_allocation_size_v3
  | get_pmu_allocation_size_v2
  | get_pmu_allocation_size_v1
  | set_pmu_allocation_ptr_v3
  | set_pmu_allocation_ptr_v2
  | set_pmu_allocation_ptr_v1
  | pmu_allocation_set_dmem_size_v3
  | pmu_allocation_set_dmem_size_v2
  | pmu_allocation_set_dmem_size_v1
  | pmu_allocation_get_dmem_size_v3
  | pmu_allocation_get_dmem_size_v2
  | pmu_allocation_get_dmem_size_v1
  | pmu_allocation_get_dmem_offset_v3
  | pmu_allocation_get_dmem_offset_v2
  | pmu_allocation_get_dmem_offset_v1
  | pmu_allocation_get_dmem_offset_addr_v3
  | pmu_allocation_get_fb_addr_v3
  | pmu_allocation_get_fb_size_v3
  | pmu_allocation_get_dmem_offset_addr_v2
  | pmu_allocation_get_dmem_offset_addr_v1
  | pmu_allocation_set_dmem_offset_v3
  | pmu_allocation_set_dmem_offset_v2
  | pmu_allocation_set_dmem_offset_v1
  | get_pmu_msg_pmu_init_msg_ptr_v5
  | get_pmu_msg_pmu_init_msg_ptr_v4
  | get_pmu_msg_pmu_init_msg_ptr_v3
  | get_pmu_init_msg_pmu_sw_mg_off_v5
  | get_pmu_init_msg_pmu_sw_mg_off_v4
  | get_pmu_init_msg_pmu_sw_mg_off_v3
  | get_pmu_init_msg_pmu_sw_mg_size_v5
  | get_pmu_init_msg_pmu_sw_mg_size_v4
  | get_pmu_init_msg_pmu_sw_mg_size_v3
  | get_pmu_msg_pmu_init_msg_ptr_v1
  | get_pmu_init_msg_pmu_sw_mg_off_v1
  | get_pmu_init_msg_pmu_sw_mg_size_v1
  | get_pmu_perfmon_cmd_start_size_v3
  | get_pmu_perfmon_cmd_start_size_v2
  | get_pmu_perfmon_cmd_start_size_v1
  | get_perfmon_cmd_start_offsetofvar_v3
  | get_perfmon_cmd_start_offsetofvar_v2
  | get_perfmon_cmd_start_offsetofvar_v1
  | get_pmu_perfmon_cmd_init_size_v3
  | get_pmu_perfmon_cmd_init_size_v2
  | get_pmu_perfmon_cmd_init_size_v1
  | get_perfmon_cmd_init_offsetofvar_v3
  | get_perfmon_cmd_init_offsetofvar_v2
  | get_perfmon_cmd_init_offsetofvar_v1
  | perfmon_start_set_cmd_type_v3
  | perfmon_start_set_cmd_type_v2
  | perfmon_start_set_cmd_type_v1
  | perfmon_start_set_group_id_v3
  | perfmon_start_set_group_id_v2
  | perfmon_start_set_group_id_v1
  | perfmon_start_set_state_id_v3
  | perfmon_start_set_state_id_v2
  | perfmon_start_set_state_id_v1
  | perfmon_start_set_flags_v3
  | perfmon_start_set_flags_v2
  | perfmon_start_set_flags_v1
  | perfmon_start_get_flags_v3
  | perfmon_start_get_flags_v2
  | perfmon_start_get_flags_v1
  | perfmon_cmd_init_set_sample_buffer_v3
  | perfmon_cmd_init_set_sample_buffer_v2
  | perfmon_cmd_init_set_sample_buffer_v1
  | perfmon_cmd_init_set_dec_cnt_v3
  | perfmon_cmd_init_set_dec_cnt_v2
  | perfmon_cmd_init_set_dec_cnt_v1
  | perfmon_cmd_init_set_base_cnt_id_v3
  | perfmon_cmd_init_set_base_cnt_id_v2
  | perfmon_cmd_init_set_base_cnt_id_v1
  | perfmon_cmd_init_set_samp_period_us_v3
  | perfmon_cmd_init_set_samp_period_us_v2
  | perfmon_cmd_init_set_samp_period_us_v1
  | perfmon_cmd_init_set_num_cnt_v3
  | perfmon_cmd_init_set_num_cnt_v2
  | perfmon_cmd_init_set_num_cnt_v1
  | perfmon_cmd_init_set_mov_avg_v3
  | perfmon_cmd_init_set_mov_avg_v2
  | perfmon_cmd_init_set_mov_avg_v1
  | get_pmu_init_msg_pmu_queue_params_v1
  | get_pmu_init_msg_pmu_queue_params_v4
  | get_pmu_init_msg_pmu_queue_params_v5
  | get_pmu_init_msg_pmu_queue_params_v3
  | get_pmu_sequence_in_alloc_ptr_v3
  | get_pmu_sequence_in_alloc_ptr_v1
  | get_pmu_sequence_out_alloc_ptr_v3
  | get_pmu_sequence_out_alloc_ptr_v1
  | pg_cmd_eng_buf_load_size_v0
  | pg_cmd_eng_buf_load_size_v1
  | pg_cmd_eng_buf_load_size_v2
  | pg_cmd_eng_buf_load_set_cmd_type_v0
  | pg_cmd_eng_buf_load_set_cmd_type_v1
  | pg_cmd_eng_buf_load_set_cmd_type_v2
  | pg_cmd_eng_buf_load_set_engine_id_v0
  | pg_cmd_eng_buf_load_set_engine_id_v1
  | pg_cmd_eng_buf_load_set_engine_id_v2
  | pg_cmd_eng_buf_load_set_buf_idx_v0
  | pg_cmd_eng_buf_load_set_buf_idx_v1
  | pg_cmd_eng_buf_load_set_buf_idx_v2
  | pg_cmd_eng_buf_load_set_pad_v0
  | pg_cmd_eng_buf_load_set_pad_v1
  | pg_cmd_eng_buf_load_set_pad_v2
  | pg_cmd_eng_buf_load_set_buf_size_v0
  | pg_cmd_eng_buf_load_set_buf_size_v1
  | pg_cmd_eng_buf_load_set_buf_size_v2
  | pg_cmd_eng_buf_load_set_dma_base_v0
  | pg_cmd_eng_buf_load_set_dma_base_v1
  | pg_cmd_eng_buf_load_set_dma_base_v2
  | pg_cmd_eng_buf_load_set_dma_offset_v0
  | pg_cmd_eng_buf_load_set_dma_offset_v1
  | pg_cmd_eng_buf_load_set_dma_offset_v2
  | pg_cmd_eng_buf_load_set_dma_idx_v0
  | pg_cmd_eng_buf_load_set_dma_idx_v1
  | pg_cmd_eng_buf_load_set_dma_idx_v2
  | boardobjgrp_pmucmd_construct_impl_v1
  | boardobjgrp_pmuset_impl_v1
  | boardobjgrp_pmugetstatus_impl_v1
  | is_boardobjgrp_pmucmd_id_valid_v1
  | nvgpu_clk_get_vbios_clk_domain_gv10x
  | nvgpu_clk_avfs_get_vin_cal_fuse_v20
  | nvgpu_clk_vf_change_inject_data_fill_gv10x
  | nvgpu_clk_set_boot_fll_clk_gv10x
  | boardobjgrp_pmucmd_construct_impl
  | boardobjgrp_pmuset_impl
  | boardobjgrp_pmugetstatus_impl
  | is_boardobjgrp_pmucmd_id_valid_v0
  | nvgpu_clk_get_vbios_clk_domain_gp10x
  | nvgpu_clk_avfs_get_vin_cal_fuse_v10
  | nvgpu_clk_vf_change_inject_data_fill_gp10x
deriving DecidableEq, Repr

/-- Modelled from the spec: member `boardobj` of `struct pmu_v`. -/
structure pmu_v_boardobj where
  boardobjgrp_pmucmd_construct_impl : Option pmu_fn
  boardobjgrp_pmuset_impl : Option pmu_fn
  boardobjgrp_pmugetstatus_impl : Option pmu_fn
  is_boardobjgrp_pmucmd_id_valid : Option pmu_fn
deriving DecidableEq, Repr

/-- Modelled from the spec: member `clk` of `struct pmu_v`. -/
structure pmu_v_clk where
  get_vbios_clk_domain : Option pmu_fn
  clk_avfs_get_vin_cal_data : Option pmu_fn
  clk_vf_change_inject_data_fill : Option pmu_fn
  clk_set_boot_clk : Option pmu_fn
deriving DecidableEq, Repr

/-- Modelled from the spec: `struct pmu_v`, the AbiBundle; one entry per accessor
operation, in the order in which `init_pmu_fw_ver_ops` first assigns them. -/
structure pmu_v where
  pg_cmd_eng_buf_load_size : Option pmu_fn
  pg_cmd_eng_buf_load_set_cmd_type : Option pmu_fn
  pg_cmd_eng_buf_load_set_engine_id : Option pmu_fn
  pg_cmd_eng_buf_load_set_buf_idx : Option pmu_fn
  pg_cmd_eng_buf_load_set_pad : Option pmu_fn
  pg_cmd_eng_buf_load_set_buf_size : Option pmu_fn
  pg_cmd_eng_buf_load_set_dma_base : Option pmu_fn
  pg_cmd_eng_buf_load_set_dma_offset : Option pmu_fn
  pg_cmd_eng_buf_load_set_dma_idx : Option pmu_fn
  get_perfmon_cntr_ptr : Option pmu_fn
  set_perfmon_cntr_ut : Option pmu_fn
  set_perfmon_cntr_lt : Option pmu_fn
  set_perfmon_cntr_valid : Option pmu_fn
  set_perfmon_cntr_index : Option pmu_fn
  set_perfmon_cntr_group_id : Option pmu_fn
  get_perfmon_cntr_sz : Option pmu_fn
  get_pmu_cmdline_args_size : Option pmu_fn
  set_pmu_cmdline_args_cpu_freq : Option pmu_fn
  set_pmu_cmdline_args_secure_mode : Option pmu_fn
  set_pmu_cmdline_args_trace_size : Option pmu_fn
  set_pmu_cmdline_args_trace_dma_base : Option pmu_fn
  set_pmu_cmdline_args_trace_dma_idx : Option pmu_fn
  get_pmu_cmdline_args_ptr : Option pmu_fn
  get_pmu_allocation_struct_size : Option pmu_fn
  set_pmu_allocation_ptr : Option pmu_fn
  pmu_allocation_set_dmem_size : Option pmu_fn
  pmu_allocation_get_dmem_size : Option pmu_fn
  pmu_allocation_get_dmem_offset : Option pmu_fn
  pmu_allocation_get_dmem_offset_addr : Option pmu_fn
  pmu_allocation_set_dmem_offset : Option pmu_fn
  get_pmu_init_msg_pmu_queue_params : Option pmu_fn
  get_pmu_msg_pmu_init_msg_ptr : Option pmu_fn
  get_pmu_init_msg_pmu_sw_mg_off : Option pmu_fn
  get_pmu_init_msg_pmu_sw_mg_size : Option pmu_fn
  get_pmu_perfmon_cmd_start_size : Option pmu_fn
  get_perfmon_cmd_start_offsetofvar : Option pmu_fn
  perfmon_start_set_cmd_type : Option pmu_fn
  perfmon_start_set_group_id : Option pmu_fn
  perfmon_start_set_state_id : Option pmu_fn
  perfmon_start_set_flags : Option pmu_fn
  perfmon_start_get_flags : Option pmu_fn
  get_pmu_perfmon_cmd_init_size : Option pmu_fn
  get_perfmon_cmd_init_offsetofvar : Option pmu_fn
  perfmon_cmd_init_set_sample_buffer : Option pmu_fn
  perfmon_cmd_init_set_dec_cnt : Option pmu_fn
  perfmon_cmd_init_set_base_cnt_id : Option pmu_fn
  perfmon_cmd_init_set_samp_period_us : Option pmu_fn
  perfmon_cmd_init_set_num_cnt : Option pmu_fn
  perfmon_cmd_init_set_mov_avg : Option pmu_fn
  get_pmu_seq_in_a_ptr : Option pmu_fn
  get_pmu_seq_out_a_ptr : Option pmu_fn
  config_pmu_cmdline_args_super_surface : Option pmu_fn
  pmu_allocation_get_fb_addr : Option pmu_fn
  pmu_allocation_get_fb_size : Option pmu_fn
  boardobj : pmu_v_boardobj
  clk : pmu_v_clk
deriving DecidableEq, Repr

/-- The names of the entries of `struct pmu_v`. -/
inductive pmu_slot where
  | pg_cmd_eng_buf_load_size
  | pg_cmd_eng_buf_load_set_cmd_type
  | pg_cmd_eng_buf_load_set_engine_id
  | pg_cmd_eng_buf_load_set_buf_idx
  | pg_cmd_eng_buf_load_set_pad
  | pg_cmd_eng_buf_load_set_buf_size
  | pg_cmd_eng_buf_load_set_dma_base
  | pg_cmd_eng_buf_load_set_dma_offset
  | pg_cmd_eng_buf_load_set_dma_idx
  | get_perfmon_cntr_ptr
  | set_perfmon_cntr_ut
  | set_perfmon_cntr_lt
  | set_perfmon_cntr_valid
  | set_perfmon_cntr_index
  | set_perfmon_cntr_group_id
  | get_perfmon_cntr_sz
  | get_pmu_cmdline_args_size
  | set_pmu_cmdline_args_cpu_freq
  | set_pmu_cmdline_args_secure_mode
  | set_pmu_cmdline_args_trace_size
  | set_pmu_cmdline_args_trace_dma_base
  | set_pmu_cmdline_args_trace_dma_idx
  | get_pmu_cmdline_args_ptr
  | get_pmu_allocation_struct_size
  | set_pmu_allocation_ptr
  | pmu_allocation_set_dmem_size
  | pmu_allocation_get_dmem_size
  | pmu_allocation_get_dmem_offset
  | pmu_allocation_get_dmem_offset_addr
  | pmu_allocation_set_dmem_offset
  | get_pmu_init_msg_pmu_queue_params
  | get_pmu_msg_pmu_init_msg_ptr
  | get_pmu_init_msg_pmu_sw_mg_off
  | get_pmu_init_msg_pmu_sw_mg_size
  | get_pmu_perfmon_cmd_start_size
  | get_perfmon_cmd_start_offsetofvar
  | perfmon_start_set_cmd_type
  | perfmon_start_set_group_id
  | perfmon_start_set_state_id
  | perfmon_start_set_flags
  | perfmon_start_get_flags
  | get_pmu_perfmon_cmd_init_size
  | get_perfmon_cmd_init_offsetofvar
  | perfmon_cmd_init_set_sample_buffer
  | perfmon_cmd_init_set_dec_cnt
  | perfmon_cmd_init_set_base_cnt_id
  | perfmon_cmd_init_set_samp_period_us
  | perfmon_cmd_init_set_num_cnt
  | perfmon_cmd_init_set_mov_avg
  | get_pmu_seq_in_a_ptr
  | get_pmu_seq_out_a_ptr
  | config_pmu_cmdline_args_super_surface
  | pmu_allocation_get_fb_addr
  | pmu_allocation_get_fb_size
  | boardobj_boardobjgrp_pmucmd_construct_impl
  | boardobj_boardobjgrp_pmuset_impl
  | boardobj_boardobjgrp_pmugetstatus_impl
  | boardobj_is_boardobjgrp_pmucmd_id_valid
  | clk_get_vbios_clk_domain
  | clk_clk_avfs_get_vin_cal_data
  | clk_clk_vf_change_inject_data_fill
  | clk_clk_set_boot_clk
deriving DecidableEq, Repr

/-- The entry of the dispatch table `pv` named by `s`. -/
def pmu_v.entry (pv : pmu_v) : pmu_slot → Option pmu_fn
  | .pg_cmd_eng_buf_load_size => pv.pg_cmd_eng_buf_load_size
  | .pg_cmd_eng_buf_load_set_cmd_type => pv.pg_cmd_eng_buf_load_set_cmd_type
  | .pg_cmd_eng_buf_load_set_engine_id => pv.pg_cmd_eng_buf_load_set_engine_id
  | .pg_cmd_eng_buf_load_set_buf_idx => pv.pg_cmd_eng_buf_load_set_buf_idx
  | .pg_cmd_eng_buf_load_set_pad => pv.pg_cmd_eng_buf_load_set_pad
  | .pg_cmd_eng_buf_load_set_buf_size => pv.pg_cmd_eng_buf_load_set_buf_size
  | .pg_cmd_eng_buf_load_set_dma_base => pv.pg_cmd_eng_buf_load_set_dma_base
  | .pg_cmd_eng_buf_load_set_dma_offset => pv.pg_cmd_eng_buf_load_set_dma_offset
  | .pg_cmd_eng_buf_load_set_dma_idx => pv.pg_cmd_eng_buf_load_set_dma_idx
  | .get_perfmon_cntr_ptr => pv.get_perfmon_cntr_ptr
  | .set_perfmon_cntr_ut => pv.set_perfmon_cntr_ut
  | .set_perfmon_cntr_lt => pv.set_perfmon_cntr_lt
  | .set_perfmon_cntr_valid => pv.set_perfmon_cntr_valid
  | .set_perfmon_cntr_index => pv.set_perfmon_cntr_index
  | .set_perfmon_cntr_group_id => pv.set_perfmon_cntr_group_id
  | .get_perfmon_cntr_sz => pv.get_perfmon_cntr_sz
  | .get_pmu_cmdline_args_size => pv.get_pmu_cmdline_args_size
  | .set_pmu_cmdline_args_cpu_freq => pv.set_pmu_cmdline_args_cpu_freq
  | .set_pmu_cmdline_args_secure_mode => pv.set_pmu_cmdline_args_secure_mode
  | .set_pmu_cmdline_args_trace_size => pv.set_pmu_cmdline_args_trace_size
  | .set_pmu_cmdline_args_trace_dma_base => pv.set_pmu_cmdline_args_trace_dma_base
  | .set_pmu_cmdline_args_trace_dma_idx => pv.set_pmu_cmdline_args_trace_dma_idx
  | .get_pmu_cmdline_args_ptr => pv.get_pmu_cmdline_args_ptr
  | .get_pmu_allocation_struct_size => pv.get_pmu_allocation_struct_size
  | .set_pmu_allocation_ptr => pv.set_pmu_allocation_ptr
  | .pmu_allocation_set_dmem_size => pv.pmu_allocation_set_dmem_size
  | .pmu_allocation_get_dmem_size => pv.pmu_allocation_get_dmem_size
  | .pmu_allocation_get_dmem_offset => pv.pmu_allocation_get_dmem_offset
  | .pmu_allocation_get_dmem_offset_addr => pv.pmu_allocation_get_dmem_offset_addr
  | .pmu_allocation_set_dmem_offset => pv.pmu_allocation_set_dmem_offset
  | .get_pmu_init_msg_pmu_queue_params => pv.get_pmu_init_msg_pmu_queue_params
  | .get_pmu_msg_pmu_init_msg_ptr => pv.get_pmu_msg_pmu_init_msg_ptr
  | .get_pmu_init_msg_pmu_sw_mg_off => pv.get_pmu_init_msg_pmu_sw_mg_off
  | .get_pmu_init_msg_pmu_sw_mg_size => pv.get_pmu_init_msg_pmu_sw_mg_size
  | .get_pmu_perfmon_cmd_start_size => pv.get_pmu_perfmon_cmd_start_size
  | .get_perfmon_cmd_start_offsetofvar => pv.get_perfmon_cmd_start_offsetofvar
  | .perfmon_start_set_cmd_type => pv.perfmon_start_set_cmd_type
  | .perfmon_start_set_group_id => pv.perfmon_start_set_group_id
  | .perfmon_start_set_state_id => pv.perfmon_start_set_state_id
  | .perfmon_start_set_flags => pv.perfmon_start_set_flags
  | .perfmon_start_get_flags => pv.perfmon_start_get_flags
  | .get_pmu_perfmon_cmd_init_size => pv.get_pmu_perfmon_cmd_init_size
  | .get_perfmon_cmd_init_offsetofvar => pv.get_perfmon_cmd_init_offsetofvar
  | .perfmon_cmd_init_set_sample_buffer => pv.perfmon_cmd_init_set_sample_buffer
  | .perfmon_cmd_init_set_dec_cnt => pv.perfmon_cmd_init_set_dec_cnt
  | .perfmon_cmd_init_set_base_cnt_id => pv.perfmon_cmd_init_set_base_cnt_id
  | .perfmon_cmd_init_set_samp_period_us => pv.perfmon_cmd_init_set_samp_period_us
  | .perfmon_cmd_init_set_num_cnt => pv.perfmon_cmd_init_set_num_cnt
  | .perfmon_cmd_init_set_mov_avg => pv.perfmon_cmd_init_set_mov_avg
  | .get_pmu_seq_in_a_ptr => pv.get_pmu_seq_in_a_ptr
  | .get_pmu_seq_out_a_ptr => pv.get_pmu_seq_out_a_ptr
  | .config_pmu_cmdline_args_super_surface => pv.config_pmu_cmdline_args_super_surface
  | .pmu_allocation_get_fb_addr => pv.pmu_allocation_get_fb_addr
  | .pmu_allocation_get_fb_size => pv.pmu_allocation_get_fb_size
  | .boardobj_boardobjgrp_pmucmd_construct_impl => pv.boardobj.boardobjgrp_pmucmd_construct_impl
  | .boardobj_boardobjgrp_pmuset_impl => pv.boardobj.boardobjgrp_pmuset_impl
  | .boardobj_boardobjgrp_pmugetstatus_impl => pv.boardobj.boardobjgrp_pmugetstatus_impl
  | .boardobj_is_boardobjgrp_pmucmd_id_valid => pv.boardobj.is_boardobjgrp_pmucmd_id_valid
  | .clk_get_vbios_clk_domain => pv.clk.get_vbios_clk_domain
  | .clk_clk_avfs_get_vin_cal_data => pv.clk.clk_avfs_get_vin_cal_data
  | .clk_clk_vf_change_inject_data_fill => pv.clk.clk_vf_change_inject_data_fill
  | .clk_clk_set_boot_clk => pv.clk.clk_set_boot_clk

/-- The dispatch table of a zero-allocated device: every entry is `NULL`. -/
def pmu_v_zero : pmu_v :=
  { pg_cmd_eng_buf_load_size := none,
    pg_cmd_eng_buf_load_set_cmd_type := none,
    pg_cmd_eng_buf_load_set_engine_id := none,
    pg_cmd_eng_buf_load_set_buf_idx := none,
    pg_cmd_eng_buf_load_set_pad := none,
    pg_cmd_eng_buf_load_set_buf_size := none,
    pg_cmd_eng_buf_load_set_dma_base := none,
    pg_cmd_eng_buf_load_set_dma_offset := none,
    pg_cmd_eng_buf_load_set_dma_idx := none,
    get_perfmon_cntr_ptr := none,
    set_perfmon_cntr_ut := none,
    set_perfmon_cntr_lt := none,
    set_perfmon_cntr_valid := none,
    set_perfmon_cntr_index := none,
    set_perfmon_cntr_group_id := none,
    get_perfmon_cntr_sz := none,
    get_pmu_cmdline_args_size := none,
    set_pmu_cmdline_args_cpu_freq := none,
    set_pmu_cmdline_args_secure_mode := none,
    set_pmu_cmdline_args_trace_size := none,
    set_pmu_cmdline_args_trace_dma_base := none,
    set_pmu_cmdline_args_trace_dma_idx := none,
    get_pmu_cmdline_args_ptr := none,
    get_pmu_allocation_struct_size := none,
    set_pmu_allocation_ptr := none,
    pmu_allocation_set_dmem_size := none,
    pmu_allocation_get_dmem_size := none,
    pmu_allocation_get_dmem_offset := none,
    pmu_allocation_get_dmem_offset_addr := none,
    pmu_allocation_set_dmem_offset := none,
    get_pmu_init_msg_pmu_queue_params := none,
    get_pmu_msg_pmu_init_msg_ptr := none,
    get_pmu_init_msg_pmu_sw_mg_off := none,
    get_pmu_init_msg_pmu_sw_mg_size := none,
    get_pmu_perfmon_cmd_start_size := none,
    get_perfmon_cmd_start_offsetofvar := none,
    perfmon_start_set_cmd_type := none,
    perfmon_start_set_group_id := none,
    perfmon_start_set_state_id := none,
    perfmon_start_set_flags := none,
    perfmon_start_get_flags := none,
    get_pmu_perfmon_cmd_init_size := none,
    get_perfmon_cmd_init_offsetofvar := none,
    perfmon_cmd_init_set_sample_buffer := none,
    perfmon_cmd_init_set_dec_cnt := none,
    perfmon_cmd_init_set_base_cnt_id := none,
    perfmon_cmd_init_set_samp_period_us := none,
    perfmon_cmd_init_set_num_cnt := none,
    perfmon_cmd_init_set_mov_avg := none,
    get_pmu_seq_in_a_ptr := none,
    get_pmu_seq_out_a_ptr := none,
    config_pmu_cmdline_args_super_surface := none,
    pmu_allocation_get_fb_addr := none,
    pmu_allocation_get_fb_size := none,
    boardobj := { boardobjgrp_pmucmd_construct_impl := none, boardobjgrp_pmuset_impl := none, boardobjgrp_pmugetstatus_impl := none, is_boardobjgrp_pmucmd_id_valid := none },
    clk := { get_vbios_clk_domain := none, clk_avfs_get_vin_cal_data := none, clk_vf_change_inject_data_fill := none, clk_set_boot_clk := none } }


/-! ## Device state -/

/-- Modelled from the spec: `struct pmu_perfmon_counter_v2`, the perfmon counter
record of the PMU; the fields are those the `_v2` setters name. -/
structure pmu_perfmon_counter_v2 where
  index : Nat
  group_id : Nat
  valid : Nat
  upper_threshold : Nat
  lower_threshold : Nat
deriving DecidableEq, Repr

/-- Modelled from the spec: `struct pmu_cmdline_args_v3`; the fields are those the
`_v3` setters name. -/
structure pmu_cmdline_args_v3 where
  cpu_freq_hz : Nat
  secure_mode : Nat
  falc_trace_size : Nat
  falc_trace_dma_base : Nat
  falc_trace_dma_idx : Nat
deriving DecidableEq, Repr

/-- Modelled from the spec: the `dma_addr` member of `struct pmu_cmdline_args_v4`. -/
structure pmu_cmdline_args_v4_dma_addr where
  dma_base : Nat
  dma_base1 : Nat
  dma_offset : Nat
deriving DecidableEq, Repr

/-- Modelled from the spec: `struct pmu_cmdline_args_v4`; the fields are those the
`_v4` setters name. -/
structure pmu_cmdline_args_v4 where
  cpu_freq_hz : Nat
  secure_mode : Nat
  falc_trace_size : Nat
  falc_trace_dma_idx : Nat
  dma_addr : pmu_cmdline_args_v4_dma_addr
deriving DecidableEq, Repr

/-- Modelled from the spec: `struct pmu_cmdline_args_v5`; the fields are those the
`_v5` setters assign directly (the trace buffer is described by an external call). -/
structure pmu_cmdline_args_v5 where
  cpu_freq_hz : Nat
  secure_mode : Nat
deriving DecidableEq, Repr

/-- Modelled from the spec: a firmware blob handed out by the external loader
(`struct nvgpu_firmware`), identified by `handle`; `app_version` is the version tag
in the descriptor (`struct pmu_ucode_desc`) that the blob's data starts with. -/
structure nvgpu_firmware where
  handle : Nat
  app_version : Nat
deriving DecidableEq, Repr

/-- Modelled from the spec: the part of `struct nvgpu_pmu` that the functions of
`pmu_fw.c` read and write; the three firmware pointers are `none` when `NULL`, and
`remove_support` is `true` when it points to `nvgpu_remove_pmu_support`, `false` when
it is `NULL`. -/
structure nvgpu_pmu where
  perfmon_counter_v2 : pmu_perfmon_counter_v2
  args_v3 : pmu_cmdline_args_v3
  args_v4 : pmu_cmdline_args_v4
  args_v5 : pmu_cmdline_args_v5
  trace_buf_gpu_va : Nat
  fw_image : Option nvgpu_firmware
  fw_desc : Option nvgpu_firmware
  fw_sig : Option nvgpu_firmware
  remove_support : Bool
deriving DecidableEq, Repr

/-- Modelled from the spec: the capability flags of `nvgpu/enabled.h` that the PMU
unit reads and writes. -/
inductive nvgpu_flag where
  | NVGPU_PMU_ZBC_SAVE
  | NVGPU_SEC_PRIVSECURITY
  | NVGPU_PMU_PERFMON
deriving DecidableEq, Repr

/-- Modelled from the spec: the flag store behind `nvgpu_is_enabled` and
`nvgpu_set_enabled`, one boolean per flag. -/
structure nvgpu_enabled_flags where
  pmu_zbc_save : Bool
  sec_privsecurity : Bool
  pmu_perfmon : Bool
deriving DecidableEq, Repr

/-- Modelled from the spec: `nvgpu_is_enabled(g, flag)` of `nvgpu/enabled.h`. -/
def nvgpu_is_enabled (e : nvgpu_enabled_flags) : nvgpu_flag → Bool
  | .NVGPU_PMU_ZBC_SAVE => e.pmu_zbc_save
  | .NVGPU_SEC_PRIVSECURITY => e.sec_privsecurity
  | .NVGPU_PMU_PERFMON => e.pmu_perfmon

/-- Modelled from the spec: `nvgpu_set_enabled(g, flag, state)` of `nvgpu/enabled.h`. -/
def nvgpu_set_enabled (e : nvgpu_enabled_flags) (flag : nvgpu_flag) (state : Bool) :
    nvgpu_enabled_flags :=
  match flag with
  | .NVGPU_PMU_ZBC_SAVE => { e with pmu_zbc_save := state }
  | .NVGPU_SEC_PRIVSECURITY => { e with sec_privsecurity := state }
  | .NVGPU_PMU_PERFMON => { e with pmu_perfmon := state }

/-- Modelled from the spec: member `ops` of `struct gk20a`, restricted to the
version-dependent dispatch table `pmu_ver`. -/
structure gpu_ops where
  pmu_ver : pmu_v
deriving DecidableEq, Repr

/-- Modelled from the spec: the part of `struct gk20a` that the PMU unit reads and
writes, together with the PMU it owns (`gk20a_from_pmu(pmu)` is the device `g`
whose `pmu` field is `pmu`). -/
structure gk20a where
  ops : gpu_ops
  pmu_ver_cmd_id_zbc_table_update : Nat
  enabled_flags : nvgpu_enabled_flags
  support_ls_pmu : Bool
  can_elpg : Bool
  elpg_enabled : Bool
  aelpg_enabled : Bool
  pmu : nvgpu_pmu
deriving DecidableEq, Repr

/-- A zero-allocated PMU. -/
def nvgpu_pmu_zero : nvgpu_pmu :=
  { perfmon_counter_v2 :=
      { index := 0, group_id := 0, valid := 0, upper_threshold := 0, lower_threshold := 0 },
    args_v3 := { cpu_freq_hz := 0, secure_mode := 0, falc_trace_size := 0,
                 falc_trace_dma_base := 0, falc_trace_dma_idx := 0 },
    args_v4 := { cpu_freq_hz := 0, secure_mode := 0, falc_trace_size := 0,
                 falc_trace_dma_idx := 0,
                 dma_addr := { dma_base := 0, dma_base1 := 0, dma_offset := 0 } },
    args_v5 := { cpu_freq_hz := 0, secure_mode := 0 },
    trace_buf_gpu_va := 0,
    fw_image := none, fw_desc := none, fw_sig := none,
    remove_support := false }

/-- A zero-allocated device: empty dispatch table, every flag and counter cleared. -/
def gk20a_zero : gk20a :=
  { ops := { pmu_ver := pmu_v_zero },
    pmu_ver_cmd_id_zbc_table_update := 0,
    enabled_flags := { pmu_zbc_save := false, sec_privsecurity := false, pmu_perfmon := false },
    support_ls_pmu := false, can_elpg := false, elpg_enabled := false, aelpg_enabled := false,
    pmu := nvgpu_pmu_zero }

/-! ## Accessors on the PMU state -/

/-- Source: `pmu->perfmon_counter_v2.upper_threshold = ut;` with `u16 ut`. -/
def set_perfmon_cntr_ut_v2 (pmu : nvgpu_pmu) (ut : Nat) : nvgpu_pmu :=
  { pmu with perfmon_counter_v2 := { pmu.perfmon_counter_v2 with upper_threshold := U16 ut } }

/-- Source: `pmu->perfmon_counter_v2.lower_threshold = lt;` with `u16 lt`. -/
def set_perfmon_cntr_lt_v2 (pmu : nvgpu_pmu) (lt : Nat) : nvgpu_pmu :=
  { pmu with perfmon_counter_v2 := { pmu.perfmon_counter_v2 with lower_threshold := U16 lt } }

/-- Source: `pmu->perfmon_counter_v2.valid = valid;` with `u8 valid`. -/
def set_perfmon_cntr_valid_v2 (pmu : nvgpu_pmu) (valid : Nat) : nvgpu_pmu :=
  { pmu with perfmon_counter_v2 := { pmu.perfmon_counter_v2 with valid := U8 valid } }

/-- Source: `pmu->perfmon_counter_v2.index = index;` with `u8 index`. -/
def set_perfmon_cntr_index_v2 (pmu : nvgpu_pmu) (index : Nat) : nvgpu_pmu :=
  { pmu with perfmon_counter_v2 := { pmu.perfmon_counter_v2 with index := U8 index } }

/-- Source: `pmu->perfmon_counter_v2.group_id = gid;` with `u8 gid`. -/
def set_perfmon_cntr_group_id_v2 (pmu : nvgpu_pmu) (gid : Nat) : nvgpu_pmu :=
  { pmu with perfmon_counter_v2 := { pmu.perfmon_counter_v2 with group_id := U8 gid } }

/-- Source: `pmu->args_v4.secure_mode = val;` with `u8 val`. -/
def set_pmu_cmdline_args_secure_mode_v4 (pmu : nvgpu_pmu) (val : Nat) : nvgpu_pmu :=
  { pmu with args_v4 := { pmu.args_v4 with secure_mode := U8 val } }

/-- Source: `pmu->args_v5.secure_mode = val;` with `u8 val`. -/
def set_pmu_cmdline_args_secure_mode_v5 (pmu : nvgpu_pmu) (val : Nat) : nvgpu_pmu :=
  { pmu with args_v5 := { pmu.args_v5 with secure_mode := U8 val } }

/-- Source: `pmu->args_v3.secure_mode = val;` with `u8 val`. -/
def set_pmu_cmdline_args_secure_mode_v3 (pmu : nvgpu_pmu) (val : Nat) : nvgpu_pmu :=
  { pmu with args_v3 := { pmu.args_v3 with secure_mode := U8 val } }

/-- A call `fp(pmu, value)` through a dispatch-table entry of type
`void (*)(struct nvgpu_pmu *, u8)`.  The call is defined when the entry points to
one of the accessors of that type; through `NULL`, or through a pointer to a
function of another type, the program has no defined behaviour (`none`). -/
def call_pmu_u8 (fp : Option pmu_fn) (pmu : nvgpu_pmu) (value : Nat) : Option nvgpu_pmu :=
  match fp with
  | some .set_perfmon_cntr_valid_v2 => some (set_perfmon_cntr_valid_v2 pmu value)
  | some .set_perfmon_cntr_index_v2 => some (set_perfmon_cntr_index_v2 pmu value)
  | some .set_perfmon_cntr_group_id_v2 => some (set_perfmon_cntr_group_id_v2 pmu value)
  | some .set_pmu_cmdline_args_secure_mode_v4 =>
      some (set_pmu_cmdline_args_secure_mode_v4 pmu value)
  | some .set_pmu_cmdline_args_secure_mode_v5 =>
      some (set_pmu_cmdline_args_secure_mode_v5 pmu value)
  | some .set_pmu_cmdline_args_secure_mode_v3 =>
      some (set_pmu_cmdline_args_secure_mode_v3 pmu value)
  | _ => none

/-! ## Version selection -/

/-- Source: `#define APP_VERSION_TU10X 25622342U` -/
def APP_VERSION_TU10X : Nat := 25622342

/-- Source: `#define APP_VERSION_GV11B 25005711U` -/
def APP_VERSION_GV11B : Nat := 25005711

/-- Source: `#define APP_VERSION_GV10X 25633490U` -/
def APP_VERSION_GV10X : Nat := 25633490

/-- Source: `#define APP_VERSION_GP10X 24076634U` -/
def APP_VERSION_GP10X : Nat := 24076634

/-- Source: `#define APP_VERSION_GP10B 23782727U` -/
def APP_VERSION_GP10B : Nat := 23782727

/-- Source: `#define APP_VERSION_GM20B 20490253U` -/
def APP_VERSION_GM20B : Nat := 20490253

/-- Source: `case APP_VERSION_GP10B:` of the switch in `init_pmu_fw_ver_ops`. -/
def init_pmu_fw_ver_ops_GP10B (g : gk20a) : gk20a :=
  { g with
    ops := { g.ops with pmu_ver := { g.ops.pmu_ver with
      pg_cmd_eng_buf_load_size := some .pg_cmd_eng_buf_load_size_v1,
      pg_cmd_eng_buf_load_set_cmd_type := some .pg_cmd_eng_buf_load_set_cmd_type_v1,
      pg_cmd_eng_buf_load_set_engine_id := some .pg_cmd_eng_buf_load_set_engine_id_v1,
      pg_cmd_eng_buf_load_set_buf_idx := some .pg_cmd_eng_buf_load_set_buf_idx_v1,
      pg_cmd_eng_buf_load_set_pad := some .pg_cmd_eng_buf_load_set_pad_v1,
      pg_cmd_eng_buf_load_set_buf_size := some .pg_cmd_eng_buf_load_set_buf_size_v1,
      pg_cmd_eng_buf_load_set_dma_base := some .pg_cmd_eng_buf_load_set_dma_base_v1,
      pg_cmd_eng_buf_load_set_dma_offset := some .pg_cmd_eng_buf_load_set_dma_offset_v1,
      pg_cmd_eng_buf_load_set_dma_idx := some .pg_cmd_eng_buf_load_set_dma_idx_v1,
      get_perfmon_cntr_ptr := some .get_perfmon_cntr_ptr_v2,
      set_perfmon_cntr_ut := some .set_perfmon_cntr_ut_v2,
      set_perfmon_cntr_lt := some .set_perfmon_cntr_lt_v2,
      set_perfmon_cntr_valid := some .set_perfmon_cntr_valid_v2,
      set_perfmon_cntr_index := some .set_perfmon_cntr_index_v2,
      set_perfmon_cntr_group_id := some .set_perfmon_cntr_group_id_v2,
      get_perfmon_cntr_sz := some .pmu_perfmon_cntr_sz_v2,
      get_pmu_cmdline_args_size := some .pmu_cmdline_size_v4,
      set_pmu_cmdline_args_cpu_freq := some .set_pmu_cmdline_args_cpufreq_v4,
      set_pmu_cmdline_args_secure_mode := some .set_pmu_cmdline_args_secure_mode_v4,
      set_pmu_cmdline_args_trace_size := some .set_pmu_cmdline_args_falctracesize_v4,
      set_pmu_cmdline_args_trace_dma_base := some .set_pmu_cmdline_args_falctracedmabase_v4,
      set_pmu_cmdline_args_trace_dma_idx := some .set_pmu_cmdline_args_falctracedmaidx_v4,
      get_pmu_cmdline_args_ptr := some .get_pmu_cmdline_args_ptr_v4,
      get_pmu_allocation_struct_size := some .get_pmu_allocation_size_v2,
      set_pmu_allocation_ptr := some .set_pmu_allocation_ptr_v2,
      pmu_allocation_set_dmem_size := some .pmu_allocation_set_dmem_size_v2,
      pmu_allocation_get_dmem_size := some .pmu_allocation_get_dmem_size_v2,
      pmu_allocation_get_dmem_offset := some .pmu_allocation_get_dmem_offset_v2,
      pmu_allocation_get_dmem_offset_addr := some .pmu_allocation_get_dmem_offset_addr_v2,
      pmu_allocation_set_dmem_offset := some .pmu_allocation_set_dmem_offset_v2,
      get_pmu_init_msg_pmu_queue_params := some .get_pmu_init_msg_pmu_queue_params_v1,
      get_pmu_msg_pmu_init_msg_ptr := some .get_pmu_msg_pmu_init_msg_ptr_v1,
      get_pmu_init_msg_pmu_sw_mg_off := some .get_pmu_init_msg_pmu_sw_mg_off_v1,
      get_pmu_init_msg_pmu_sw_mg_size := some .get_pmu_init_msg_pmu_sw_mg_size_v1,
      get_pmu_perfmon_cmd_start_size := some .get_pmu_perfmon_cmd_start_size_v2,
      get_perfmon_cmd_start_offsetofvar := some .get_perfmon_cmd_start_offsetofvar_v2,
      perfmon_start_set_cmd_type := some .perfmon_start_set_cmd_type_v2,
      perfmon_start_set_group_id := some .perfmon_start_set_group_id_v2,
      perfmon_start_set_state_id := some .perfmon_start_set_state_id_v2,
      perfmon_start_set_flags := some .perfmon_start_set_flags_v2,
      perfmon_start_get_flags := some .perfmon_start_get_flags_v2,
      get_pmu_perfmon_cmd_init_size := some .get_pmu_perfmon_cmd_init_size_v2,
      get_perfmon_cmd_init_offsetofvar := some .get_perfmon_cmd_init_offsetofvar_v2,
      perfmon_cmd_init_set_sample_buffer := some .perfmon_cmd_init_set_sample_buffer_v2,
      perfmon_cmd_init_set_dec_cnt := some .perfmon_cmd_init_set_dec_cnt_v2,
      perfmon_cmd_init_set_base_cnt_id := some .perfmon_cmd_init_set_base_cnt_id_v2,
      perfmon_cmd_init_set_samp_period_us := some .perfmon_cmd_init_set_samp_period_us_v2,
      perfmon_cmd_init_set_num_cnt := some .perfmon_cmd_init_set_num_cnt_v2,
      perfmon_cmd_init_set_mov_avg := some .perfmon_cmd_init_set_mov_avg_v2,
      get_pmu_seq_in_a_ptr := some .get_pmu_sequence_in_alloc_ptr_v1,
      get_pmu_seq_out_a_ptr := some .get_pmu_sequence_out_alloc_ptr_v1 } },
    pmu_ver_cmd_id_zbc_table_update := 16,
    enabled_flags := nvgpu_set_enabled g.enabled_flags .NVGPU_PMU_ZBC_SAVE true }

/-- Source: `case APP_VERSION_GV11B: case APP_VERSION_GV10X: case APP_VERSION_TU10X:` of the
switch in `init_pmu_fw_ver_ops`, with its nested tests on `app_version`. -/
def init_pmu_fw_ver_ops_GV11B_GV10X_TU10X (g : gk20a) (app_version : Nat) : gk20a :=
  let g1 : gk20a :=
    { g with
      ops := { g.ops with pmu_ver := { g.ops.pmu_ver with
        pg_cmd_eng_buf_load_size := some .pg_cmd_eng_buf_load_size_v2,
        pg_cmd_eng_buf_load_set_cmd_type := some .pg_cmd_eng_buf_load_set_cmd_type_v2,
        pg_cmd_eng_buf_load_set_engine_id := some .pg_cmd_eng_buf_load_set_engine_id_v2,
        pg_cmd_eng_buf_load_set_buf_idx := some .pg_cmd_eng_buf_load_set_buf_idx_v2,
        pg_cmd_eng_buf_load_set_pad := some .pg_cmd_eng_buf_load_set_pad_v2,
        pg_cmd_eng_buf_load_set_buf_size := some .pg_cmd_eng_buf_load_set_buf_size_v2,
        pg_cmd_eng_buf_load_set_dma_base := some .pg_cmd_eng_buf_load_set_dma_base_v2,
        pg_cmd_eng_buf_load_set_dma_offset := some .pg_cmd_eng_buf_load_set_dma_offset_v2,
        pg_cmd_eng_buf_load_set_dma_idx := some .pg_cmd_eng_buf_load_set_dma_idx_v2,
        get_perfmon_cntr_ptr := some .get_perfmon_cntr_ptr_v2,
        set_perfmon_cntr_ut := some .set_perfmon_cntr_ut_v2,
        set_perfmon_cntr_lt := some .set_perfmon_cntr_lt_v2,
        set_perfmon_cntr_valid := some .set_perfmon_cntr_valid_v2,
        set_perfmon_cntr_index := some .set_perfmon_cntr_index_v2,
        set_perfmon_cntr_group_id := some .set_perfmon_cntr_group_id_v2,
        get_perfmon_cntr_sz := some .pmu_perfmon_cntr_sz_v2,
        get_pmu_cmdline_args_size := some .pmu_cmdline_size_v6,
        set_pmu_cmdline_args_cpu_freq := some .set_pmu_cmdline_args_cpufreq_v5,
        set_pmu_cmdline_args_secure_mode := some .set_pmu_cmdline_args_secure_mode_v5,
        set_pmu_cmdline_args_trace_size := some .set_pmu_cmdline_args_falctracesize_v5,
        set_pmu_cmdline_args_trace_dma_base := some .set_pmu_cmdline_args_falctracedmabase_v5,
        set_pmu_cmdline_args_trace_dma_idx := some .set_pmu_cmdline_args_falctracedmaidx_v5,
        config_pmu_cmdline_args_super_surface := some .config_pmu_cmdline_args_super_surface_v6,
        get_pmu_cmdline_args_ptr := some .get_pmu_cmdline_args_ptr_v5,
        get_pmu_allocation_struct_size := some .get_pmu_allocation_size_v3,
        set_pmu_allocation_ptr := some .set_pmu_allocation_ptr_v3,
        pmu_allocation_set_dmem_size := some .pmu_allocation_set_dmem_size_v3,
        pmu_allocation_get_dmem_size := some .pmu_allocation_get_dmem_size_v3,
        pmu_allocation_get_dmem_offset := some .pmu_allocation_get_dmem_offset_v3,
        pmu_allocation_get_dmem_offset_addr := some .pmu_allocation_get_dmem_offset_addr_v3,
        pmu_allocation_set_dmem_offset := some .pmu_allocation_set_dmem_offset_v3,
        pmu_allocation_get_fb_addr := some .pmu_allocation_get_fb_addr_v3,
        pmu_allocation_get_fb_size := some .pmu_allocation_get_fb_size_v3 } },
      pmu_ver_cmd_id_zbc_table_update := 16,
      enabled_flags := nvgpu_set_enabled g.enabled_flags .NVGPU_PMU_ZBC_SAVE false }
  let g2 : gk20a :=
    if app_version = APP_VERSION_GV10X ∨ app_version = APP_VERSION_TU10X then
      let g21 : gk20a :=
        { g1 with
          ops := { g1.ops with pmu_ver := { g1.ops.pmu_ver with
            get_pmu_init_msg_pmu_queue_params := some .get_pmu_init_msg_pmu_queue_params_v5,
            get_pmu_msg_pmu_init_msg_ptr := some .get_pmu_msg_pmu_init_msg_ptr_v5,
            get_pmu_init_msg_pmu_sw_mg_off := some .get_pmu_init_msg_pmu_sw_mg_off_v5,
            get_pmu_init_msg_pmu_sw_mg_size := some .get_pmu_init_msg_pmu_sw_mg_size_v5,
            boardobj := { g1.ops.pmu_ver.boardobj with
              boardobjgrp_pmucmd_construct_impl := some .boardobjgrp_pmucmd_construct_impl_v1,
              boardobjgrp_pmuset_impl := some .boardobjgrp_pmuset_impl_v1,
              boardobjgrp_pmugetstatus_impl := some .boardobjgrp_pmugetstatus_impl_v1,
              is_boardobjgrp_pmucmd_id_valid := some .is_boardobjgrp_pmucmd_id_valid_v1 },
            clk := { g1.ops.pmu_ver.clk with
              get_vbios_clk_domain := some .nvgpu_clk_get_vbios_clk_domain_gv10x,
              clk_avfs_get_vin_cal_data := some .nvgpu_clk_avfs_get_vin_cal_fuse_v20,
              clk_vf_change_inject_data_fill := some .nvgpu_clk_vf_change_inject_data_fill_gv10x } } } }
      if app_version = APP_VERSION_GV10X then
        { g21 with ops := { g21.ops with pmu_ver := { g21.ops.pmu_ver with
            clk := { g21.ops.pmu_ver.clk with
              clk_set_boot_clk := some .nvgpu_clk_set_boot_fll_clk_gv10x } } } }
      else
        { g21 with ops := { g21.ops with pmu_ver := { g21.ops.pmu_ver with
            clk := { g21.ops.pmu_ver.clk with clk_set_boot_clk := none } } } }
    else
      { g1 with
        ops := { g1.ops with pmu_ver := { g1.ops.pmu_ver with
          get_pmu_init_msg_pmu_queue_params := some .get_pmu_init_msg_pmu_queue_params_v4,
          get_pmu_msg_pmu_init_msg_ptr := some .get_pmu_msg_pmu_init_msg_ptr_v4,
          get_pmu_init_msg_pmu_sw_mg_off := some .get_pmu_init_msg_pmu_sw_mg_off_v4,
          get_pmu_init_msg_pmu_sw_mg_size := some .get_pmu_init_msg_pmu_sw_mg_size_v4 } } }
  { g2 with
    ops := { g2.ops with pmu_ver := { g2.ops.pmu_ver with
      get_pmu_perfmon_cmd_start_size := some .get_pmu_perfmon_cmd_start_size_v3,
      get_perfmon_cmd_start_offsetofvar := some .get_perfmon_cmd_start_offsetofvar_v3,
      perfmon_start_set_cmd_type := some .perfmon_start_set_cmd_type_v3,
      perfmon_start_set_group_id := some .perfmon_start_set_group_id_v3,
      perfmon_start_set_state_id := some .perfmon_start_set_state_id_v3,
      perfmon_start_set_flags := some .perfmon_start_set_flags_v3,
      perfmon_start_get_flags := some .perfmon_start_get_flags_v3,
      get_pmu_perfmon_cmd_init_size := some .get_pmu_perfmon_cmd_init_size_v3,
      get_perfmon_cmd_init_offsetofvar := some .get_perfmon_cmd_init_offsetofvar_v3,
      perfmon_cmd_init_set_sample_buffer := some .perfmon_cmd_init_set_sample_buffer_v3,
      perfmon_cmd_init_set_dec_cnt := some .perfmon_cmd_init_set_dec_cnt_v3,
      perfmon_cmd_init_set_base_cnt_id := some .perfmon_cmd_init_set_base_cnt_id_v3,
      perfmon_cmd_init_set_samp_period_us := some .perfmon_cmd_init_set_samp_period_us_v3,
      perfmon_cmd_init_set_num_cnt := some .perfmon_cmd_init_set_num_cnt_v3,
      perfmon_cmd_init_set_mov_avg := some .perfmon_cmd_init_set_mov_avg_v3,
      get_pmu_seq_in_a_ptr := some .get_pmu_sequence_in_alloc_ptr_v3,
      get_pmu_seq_out_a_ptr := some .get_pmu_sequence_out_alloc_ptr_v3 } } }

/-- Source: `case APP_VERSION_GP10X:` of the switch in `init_pmu_fw_ver_ops`. -/
def init_pmu_fw_ver_ops_GP10X (g : gk20a) : gk20a :=
  { g with
    ops := { g.ops with pmu_ver := { g.ops.pmu_ver with
      pg_cmd_eng_buf_load_size := some .pg_cmd_eng_buf_load_size_v2,
      pg_cmd_eng_buf_load_set_cmd_type := some .pg_cmd_eng_buf_load_set_cmd_type_v2,
      pg_cmd_eng_buf_load_set_engine_id := some .pg_cmd_eng_buf_load_set_engine_id_v2,
      pg_cmd_eng_buf_load_set_buf_idx := some .pg_cmd_eng_buf_load_set_buf_idx_v2,
      pg_cmd_eng_buf_load_set_pad := some .pg_cmd_eng_buf_load_set_pad_v2,
      pg_cmd_eng_buf_load_set_buf_size := some .pg_cmd_eng_buf_load_set_buf_size_v2,
      pg_cmd_eng_buf_load_set_dma_base := some .pg_cmd_eng_buf_load_set_dma_base_v2,
      pg_cmd_eng_buf_load_set_dma_offset := some .pg_cmd_eng_buf_load_set_dma_offset_v2,
      pg_cmd_eng_buf_load_set_dma_idx := some .pg_cmd_eng_buf_load_set_dma_idx_v2,
      get_perfmon_cntr_ptr := some .get_perfmon_cntr_ptr_v2,
      set_perfmon_cntr_ut := some .set_perfmon_cntr_ut_v2,
      set_perfmon_cntr_lt := some .set_perfmon_cntr_lt_v2,
      set_perfmon_cntr_valid := some .set_perfmon_cntr_valid_v2,
      set_perfmon_cntr_index := some .set_perfmon_cntr_index_v2,
      set_perfmon_cntr_group_id := some .set_perfmon_cntr_group_id_v2,
      get_perfmon_cntr_sz := some .pmu_perfmon_cntr_sz_v2,
      get_pmu_cmdline_args_size := some .pmu_cmdline_size_v5,
      set_pmu_cmdline_args_cpu_freq := some .set_pmu_cmdline_args_cpufreq_v5,
      set_pmu_cmdline_args_secure_mode := some .set_pmu_cmdline_args_secure_mode_v5,
      set_pmu_cmdline_args_trace_size := some .set_pmu_cmdline_args_falctracesize_v5,
      set_pmu_cmdline_args_trace_dma_base := some .set_pmu_cmdline_args_falctracedmabase_v5,
      set_pmu_cmdline_args_trace_dma_idx := some .set_pmu_cmdline_args_falctracedmaidx_v5,
      get_pmu_cmdline_args_ptr := some .get_pmu_cmdline_args_ptr_v5,
      get_pmu_allocation_struct_size := some .get_pmu_allocation_size_v3,
      set_pmu_allocation_ptr := some .set_pmu_allocation_ptr_v3,
      pmu_allocation_set_dmem_size := some .pmu_allocation_set_dmem_size_v3,
      pmu_allocation_get_dmem_size := some .pmu_allocation_get_dmem_size_v3,
      pmu_allocation_get_dmem_offset := some .pmu_allocation_get_dmem_offset_v3,
      pmu_allocation_get_dmem_offset_addr := some .pmu_allocation_get_dmem_offset_addr_v3,
      pmu_allocation_set_dmem_offset := some .pmu_allocation_set_dmem_offset_v3,
      pmu_allocation_get_fb_addr := some .pmu_allocation_get_fb_addr_v3,
      pmu_allocation_get_fb_size := some .pmu_allocation_get_fb_size_v3,
      get_pmu_init_msg_pmu_queue_params := some .get_pmu_init_msg_pmu_queue_params_v3,
      get_pmu_msg_pmu_init_msg_ptr := some .get_pmu_msg_pmu_init_msg_ptr_v3,
      get_pmu_init_msg_pmu_sw_mg_off := some .get_pmu_init_msg_pmu_sw_mg_off_v3,
      get_pmu_init_msg_pmu_sw_mg_size := some .get_pmu_init_msg_pmu_sw_mg_size_v3,
      get_pmu_perfmon_cmd_start_size := some .get_pmu_perfmon_cmd_start_size_v3,
      get_perfmon_cmd_start_offsetofvar := some .get_perfmon_cmd_start_offsetofvar_v3,
      perfmon_start_set_cmd_type := some .perfmon_start_set_cmd_type_v3,
      perfmon_start_set_group_id := some .perfmon_start_set_group_id_v3,
      perfmon_start_set_state_id := some .perfmon_start_set_state_id_v3,
      perfmon_start_set_flags := some .perfmon_start_set_flags_v3,
      perfmon_start_get_flags := some .perfmon_start_get_flags_v3,
      get_pmu_perfmon_cmd_init_size := some .get_pmu_perfmon_cmd_init_size_v3,
      get_perfmon_cmd_init_offsetofvar := some .get_perfmon_cmd_init_offsetofvar_v3,
      perfmon_cmd_init_set_sample_buffer := some .perfmon_cmd_init_set_sample_buffer_v3,
      perfmon_cmd_init_set_dec_cnt := some .perfmon_cmd_init_set_dec_cnt_v3,
      perfmon_cmd_init_set_base_cnt_id := some .perfmon_cmd_init_set_base_cnt_id_v3,
      perfmon_cmd_init_set_samp_period_us := some .perfmon_cmd_init_set_samp_period_us_v3,
      perfmon_cmd_init_set_num_cnt := some .perfmon_cmd_init_set_num_cnt_v3,
      perfmon_cmd_init_set_mov_avg := some .perfmon_cmd_init_set_mov_avg_v3,
      get_pmu_seq_in_a_ptr := some .get_pmu_sequence_in_alloc_ptr_v3,
      get_pmu_seq_out_a_ptr := some .get_pmu_sequence_out_alloc_ptr_v3,
      boardobj := { g.ops.pmu_ver.boardobj with
        boardobjgrp_pmucmd_construct_impl := some .boardobjgrp_pmucmd_construct_impl,
        boardobjgrp_pmuset_impl := some .boardobjgrp_pmuset_impl,
        boardobjgrp_pmugetstatus_impl := some .boardobjgrp_pmugetstatus_impl,
        is_boardobjgrp_pmucmd_id_valid := some .is_boardobjgrp_pmucmd_id_valid_v0 },
      clk := { g.ops.pmu_ver.clk with
        get_vbios_clk_domain := some .nvgpu_clk_get_vbios_clk_domain_gp10x,
        clk_avfs_get_vin_cal_data := some .nvgpu_clk_avfs_get_vin_cal_fuse_v10,
        clk_vf_change_inject_data_fill := some .nvgpu_clk_vf_change_inject_data_fill_gp10x } } },
    pmu_ver_cmd_id_zbc_table_update := 16,
    enabled_flags := nvgpu_set_enabled g.enabled_flags .NVGPU_PMU_ZBC_SAVE true }

/-- Source: `case APP_VERSION_GM20B:` of the switch in `init_pmu_fw_ver_ops`. -/
def init_pmu_fw_ver_ops_GM20B (g : gk20a) : gk20a :=
  { g with
    ops := { g.ops with pmu_ver := { g.ops.pmu_ver with
      pg_cmd_eng_buf_load_size := some .pg_cmd_eng_buf_load_size_v0,
      pg_cmd_eng_buf_load_set_cmd_type := some .pg_cmd_eng_buf_load_set_cmd_type_v0,
      pg_cmd_eng_buf_load_set_engine_id := some .pg_cmd_eng_buf_load_set_engine_id_v0,
      pg_cmd_eng_buf_load_set_buf_idx := some .pg_cmd_eng_buf_load_set_buf_idx_v0,
      pg_cmd_eng_buf_load_set_pad := some .pg_cmd_eng_buf_load_set_pad_v0,
      pg_cmd_eng_buf_load_set_buf_size := some .pg_cmd_eng_buf_load_set_buf_size_v0,
      pg_cmd_eng_buf_load_set_dma_base := some .pg_cmd_eng_buf_load_set_dma_base_v0,
      pg_cmd_eng_buf_load_set_dma_offset := some .pg_cmd_eng_buf_load_set_dma_offset_v0,
      pg_cmd_eng_buf_load_set_dma_idx := some .pg_cmd_eng_buf_load_set_dma_idx_v0,
      get_perfmon_cntr_ptr := some .get_perfmon_cntr_ptr_v2,
      set_perfmon_cntr_ut := some .set_perfmon_cntr_ut_v2,
      set_perfmon_cntr_lt := some .set_perfmon_cntr_lt_v2,
      set_perfmon_cntr_valid := some .set_perfmon_cntr_valid_v2,
      set_perfmon_cntr_index := some .set_perfmon_cntr_index_v2,
      set_perfmon_cntr_group_id := some .set_perfmon_cntr_group_id_v2,
      get_perfmon_cntr_sz := some .pmu_perfmon_cntr_sz_v2,
      get_pmu_cmdline_args_size := some .pmu_cmdline_size_v3,
      set_pmu_cmdline_args_cpu_freq := some .set_pmu_cmdline_args_cpufreq_v3,
      set_pmu_cmdline_args_secure_mode := some .set_pmu_cmdline_args_secure_mode_v3,
      set_pmu_cmdline_args_trace_size := some .set_pmu_cmdline_args_falctracesize_v3,
      set_pmu_cmdline_args_trace_dma_base := some .set_pmu_cmdline_args_falctracedmabase_v3,
      set_pmu_cmdline_args_trace_dma_idx := some .set_pmu_cmdline_args_falctracedmaidx_v3,
      get_pmu_cmdline_args_ptr := some .get_pmu_cmdline_args_ptr_v3,
      get_pmu_allocation_struct_size := some .get_pmu_allocation_size_v1,
      set_pmu_allocation_ptr := some .set_pmu_allocation_ptr_v1,
      pmu_allocation_set_dmem_size := some .pmu_allocation_set_dmem_size_v1,
      pmu_allocation_get_dmem_size := some .pmu_allocation_get_dmem_size_v1,
      pmu_allocation_get_dmem_offset := some .pmu_allocation_get_dmem_offset_v1,
      pmu_allocation_get_dmem_offset_addr := some .pmu_allocation_get_dmem_offset_addr_v1,
      pmu_allocation_set_dmem_offset := some .pmu_allocation_set_dmem_offset_v1,
      get_pmu_init_msg_pmu_queue_params := some .get_pmu_init_msg_pmu_queue_params_v1,
      get_pmu_msg_pmu_init_msg_ptr := some .get_pmu_msg_pmu_init_msg_ptr_v1,
      get_pmu_init_msg_pmu_sw_mg_off := some .get_pmu_init_msg_pmu_sw_mg_off_v1,
      get_pmu_init_msg_pmu_sw_mg_size := some .get_pmu_init_msg_pmu_sw_mg_size_v1,
      get_pmu_perfmon_cmd_start_size := some .get_pmu_perfmon_cmd_start_size_v1,
      get_perfmon_cmd_start_offsetofvar := some .get_perfmon_cmd_start_offsetofvar_v1,
      perfmon_start_set_cmd_type := some .perfmon_start_set_cmd_type_v1,
      perfmon_start_set_group_id := some .perfmon_start_set_group_id_v1,
      perfmon_start_set_state_id := some .perfmon_start_set_state_id_v1,
      perfmon_start_set_flags := some .perfmon_start_set_flags_v1,
      perfmon_start_get_flags := some .perfmon_start_get_flags_v1,
      get_pmu_perfmon_cmd_init_size := some .get_pmu_perfmon_cmd_init_size_v1,
      get_perfmon_cmd_init_offsetofvar := some .get_perfmon_cmd_init_offsetofvar_v1,
      perfmon_cmd_init_set_sample_buffer := some .perfmon_cmd_init_set_sample_buffer_v1,
      perfmon_cmd_init_set_dec_cnt := some .perfmon_cmd_init_set_dec_cnt_v1,
      perfmon_cmd_init_set_base_cnt_id := some .perfmon_cmd_init_set_base_cnt_id_v1,
      perfmon_cmd_init_set_samp_period_us := some .perfmon_cmd_init_set_samp_period_us_v1,
      perfmon_cmd_init_set_num_cnt := some .perfmon_cmd_init_set_num_cnt_v1,
      perfmon_cmd_init_set_mov_avg := some .perfmon_cmd_init_set_mov_avg_v1,
      get_pmu_seq_in_a_ptr := some .get_pmu_sequence_in_alloc_ptr_v1,
      get_pmu_seq_out_a_ptr := some .get_pmu_sequence_out_alloc_ptr_v1 } },
    pmu_ver_cmd_id_zbc_table_update := 16,
    enabled_flags := nvgpu_set_enabled g.enabled_flags .NVGPU_PMU_ZBC_SAVE true }


/-- The `switch (app_version)` of `init_pmu_fw_ver_ops`: the device after the
selected case, and the value of `err` (`0`, or `-EINVAL` from `default:`). -/
def init_pmu_fw_ver_ops_switch (g : gk20a) (app_version : Nat) : gk20a × Int :=
  if app_version = APP_VERSION_GP10B then
    (init_pmu_fw_ver_ops_GP10B g, 0)
  else if app_version = APP_VERSION_GV11B ∨ app_version = APP_VERSION_GV10X ∨
      app_version = APP_VERSION_TU10X then
    (init_pmu_fw_ver_ops_GV11B_GV10X_TU10X g app_version, 0)
  else if app_version = APP_VERSION_GP10X then
    (init_pmu_fw_ver_ops_GP10X g, 0)
  else if app_version = APP_VERSION_GM20B then
    (init_pmu_fw_ver_ops_GM20B g, 0)
  else
    (g, -EINVAL)

/-- The function `init_pmu_fw_ver_ops(pmu, app_version)`, on the device `g` that owns
`pmu`; `app_version` is a `u32`.  After the switch, whatever case was taken, it runs
`pv->set_perfmon_cntr_index(pmu, 3)` and
`pv->set_perfmon_cntr_group_id(pmu, PMU_DOMAIN_GROUP_PSTATE)` through the table and
returns `err`.  The macro `PMU_DOMAIN_GROUP_PSTATE` is defined in a header that is
not among the sources and is a parameter.  The result is `none` when one of the two
calls has no defined behaviour. -/
def init_pmu_fw_ver_ops (PMU_DOMAIN_GROUP_PSTATE : Nat) (g : gk20a) (app_version : Nat) :
    Option (gk20a × Int) :=
  let r := init_pmu_fw_ver_ops_switch g app_version
  match call_pmu_u8 r.1.ops.pmu_ver.set_perfmon_cntr_index r.1.pmu 3 with
  | none => none
  | some pmu1 =>
    match call_pmu_u8 r.1.ops.pmu_ver.set_perfmon_cntr_group_id pmu1
        PMU_DOMAIN_GROUP_PSTATE with
    | none => none
    | some pmu2 => some ({ r.1 with pmu := pmu2 }, r.2)

/-- The six firmware version tags that `init_pmu_fw_ver_ops` has a case for. -/
def supported_app_version (app_version : Nat) : Prop :=
  app_version = APP_VERSION_GM20B ∨ app_version = APP_VERSION_GP10B ∨
  app_version = APP_VERSION_GP10X ∨ app_version = APP_VERSION_GV11B ∨
  app_version = APP_VERSION_GV10X ∨ app_version = APP_VERSION_TU10X

instance (app_version : Nat) : Decidable (supported_app_version app_version) := by
  unfold supported_app_version; infer_instance

/-! ## Command-line argument setters -/

/-- Source: `pmu->args_v4.cpu_freq_hz = freq;` with `u32 freq`. -/
def set_pmu_cmdline_args_cpufreq_v4 (pmu : nvgpu_pmu) (freq : Nat) : nvgpu_pmu :=
  { pmu with args_v4 := { pmu.args_v4 with cpu_freq_hz := U32 freq } }

/-- Source: `pmu->args_v5.cpu_freq_hz = 204000000;` with `u32 freq`, which the body
does not use. -/
def set_pmu_cmdline_args_cpufreq_v5 (pmu : nvgpu_pmu) (_freq : Nat) : nvgpu_pmu :=
  { pmu with args_v5 := { pmu.args_v5 with cpu_freq_hz := 204000000 } }

/-- Source: `pmu->args_v3.cpu_freq_hz = freq;` with `u32 freq`. -/
def set_pmu_cmdline_args_cpufreq_v3 (pmu : nvgpu_pmu) (freq : Nat) : nvgpu_pmu :=
  { pmu with args_v3 := { pmu.args_v3 with cpu_freq_hz := U32 freq } }

/-! ## Init-message queue parameters

The init-message records and the queue identifiers are declared in headers that are
not among the sources.  The identifiers are parameters; the records carry the fields
the accessors name, the two tables as lists (a read outside a table has no defined
behaviour, `none`). -/

/-- Modelled from the spec: the queue role ids and the table rows they map to; the
macros are defined in a header that is not among the sources. -/
structure pmu_queue_ids where
  PMU_COMMAND_QUEUE_HPQ : Nat
  PMU_COMMAND_QUEUE_LPQ : Nat
  PMU_MESSAGE_QUEUE : Nat
  PMU_QUEUE_HPQ_IDX_FOR_V3 : Nat
  PMU_QUEUE_LPQ_IDX_FOR_V3 : Nat
  PMU_QUEUE_MSG_IDX_FOR_V3 : Nat
  PMU_QUEUE_MSG_IDX_FOR_V5 : Nat
deriving DecidableEq, Repr

/-- Modelled from the spec: `struct pmu_init_msg_pmu_v3`. -/
structure pmu_init_msg_pmu_v3 where
  queue_index : List Nat
  queue_size : List Nat
  queue_offset : Nat
  sw_managed_area_offset : Nat
  sw_managed_area_size : Nat
deriving DecidableEq, Repr

/-- Modelled from the spec: `struct pmu_init_msg_pmu_v4`. -/
structure pmu_init_msg_pmu_v4 where
  queue_index : List Nat
  queue_size : List Nat
  queue_offset : Nat
  sw_managed_area_offset : Nat
  sw_managed_area_size : Nat
deriving DecidableEq, Repr

/-- Modelled from the spec: `struct pmu_init_msg_pmu_v5`. -/
structure pmu_init_msg_pmu_v5 where
  queue_index : List Nat
  queue_size : List Nat
  queue_offset : Nat
  sw_managed_area_offset : Nat
  sw_managed_area_size : Nat
deriving DecidableEq, Repr

/-- The three `u32` cells `*index`, `*offset`, `*size` that the queue-parameter
accessors write through their pointer arguments. -/
structure pmu_queue_params where
  index : Nat
  offset : Nat
  size : Nat
deriving DecidableEq, Repr

/-- Source: `if (id == PMU_COMMAND_QUEUE_HPQ) { id = PMU_QUEUE_HPQ_IDX_FOR_V3; } else if
(id == PMU_COMMAND_QUEUE_LPQ) { id = PMU_QUEUE_LPQ_IDX_FOR_V3; } else if
(id == PMU_MESSAGE_QUEUE) { id = PMU_QUEUE_MSG_IDX_FOR_V3; } else { return; }`, the head
of the version 3 and of the version 4 accessor: the new value of `id`, or `none`
for the `return`. -/
def queue_params_row_v3 (c : pmu_queue_ids) (id : Nat) : Option Nat :=
  if id = c.PMU_COMMAND_QUEUE_HPQ then some c.PMU_QUEUE_HPQ_IDX_FOR_V3
  else if id = c.PMU_COMMAND_QUEUE_LPQ then some c.PMU_QUEUE_LPQ_IDX_FOR_V3
  else if id = c.PMU_MESSAGE_QUEUE then some c.PMU_QUEUE_MSG_IDX_FOR_V3
  else none

/-- Source: the head of the version 5 accessor, which differs from the version 3 one
in `id = PMU_QUEUE_MSG_IDX_FOR_V5;` for the message queue. -/
def queue_params_row_v5 (c : pmu_queue_ids) (id : Nat) : Option Nat :=
  if id = c.PMU_COMMAND_QUEUE_HPQ then some c.PMU_QUEUE_HPQ_IDX_FOR_V3
  else if id = c.PMU_COMMAND_QUEUE_LPQ then some c.PMU_QUEUE_LPQ_IDX_FOR_V3
  else if id = c.PMU_MESSAGE_QUEUE then some c.PMU_QUEUE_MSG_IDX_FOR_V5
  else none

/-- Source: `for (i = 0 ; i < id; i++) { current_ptr += init->queue_size[i]; }` with
`u32 current_ptr = 0`: the value of `current_ptr` after `id` rounds of the loop. -/
def queue_params_current_ptr (queue_size : List Nat) : Nat → Option Nat
  | 0 => some 0
  | i + 1 =>
    match queue_params_current_ptr queue_size i, queue_size[i]? with
    | some current_ptr, some sz => some (U32 (current_ptr + sz))
    | _, _ => none

/-- Source: `*index = init->queue_index[id]; *size = init->queue_size[id];
if (id != 0U) { for ... } *offset = init->queue_offset + current_ptr;`, the tail that
the version 3, 4 and 5 accessors share word for word. -/
def queue_params_of_row (queue_index queue_size : List Nat) (queue_offset id : Nat) :
    Option pmu_queue_params :=
  match queue_index[id]?, queue_size[id]?,
      (if id ≠ 0 then queue_params_current_ptr queue_size id else some 0) with
  | some ix, some sz, some current_ptr =>
      some { index := U32 ix, size := U32 sz, offset := U32 (queue_offset + current_ptr) }
  | _, _, _ => none

/-- The function `get_pmu_init_msg_pmu_queue_params_v4(id, pmu_init_msg, index, offset,
size)`; `out` holds the cells behind the three pointers at entry, the result holds
them at exit. -/
def get_pmu_init_msg_pmu_queue_params_v4 (c : pmu_queue_ids) (id : Nat)
    (init : pmu_init_msg_pmu_v4) (out : pmu_queue_params) : Option pmu_queue_params :=
  match queue_params_row_v3 c id with
  | none => some out
  | some id => queue_params_of_row init.queue_index init.queue_size init.queue_offset id

/-- The function `get_pmu_init_msg_pmu_queue_params_v5(id, pmu_init_msg, index, offset,
size)`. -/
def get_pmu_init_msg_pmu_queue_params_v5 (c : pmu_queue_ids) (id : Nat)
    (init : pmu_init_msg_pmu_v5) (out : pmu_queue_params) : Option pmu_queue_params :=
  match queue_params_row_v5 c id with
  | none => some out
  | some id => queue_params_of_row init.queue_index init.queue_size init.queue_offset id

/-- The function `get_pmu_init_msg_pmu_queue_params_v3(id, pmu_init_msg, index, offset,
size)`. -/
def get_pmu_init_msg_pmu_queue_params_v3 (c : pmu_queue_ids) (id : Nat)
    (init : pmu_init_msg_pmu_v3) (out : pmu_queue_params) : Option pmu_queue_params :=
  match queue_params_row_v3 c id with
  | none => some out
  | some id => queue_params_of_row init.queue_index init.queue_size init.queue_offset id

/-- A sample assignment of the queue ids and rows, on which the accessors are
evaluated: command queues 0 and 1, message queue 4; rows 0, 1, 2, and row 3 for the
version 5 message queue. -/
def pmu_queue_ids_sample : pmu_queue_ids :=
  { PMU_COMMAND_QUEUE_HPQ := 0, PMU_COMMAND_QUEUE_LPQ := 1, PMU_MESSAGE_QUEUE := 4,
    PMU_QUEUE_HPQ_IDX_FOR_V3 := 0, PMU_QUEUE_LPQ_IDX_FOR_V3 := 1,
    PMU_QUEUE_MSG_IDX_FOR_V3 := 2, PMU_QUEUE_MSG_IDX_FOR_V5 := 3 }

/-! ## Engine reset (`drivers/gpu/nvgpu/common/pmu/pmu.c`)

The register-level operations are external collaborators.  The embedding records
every call to one of them, in order, and keeps the one piece of engine state they
share: whether the engine is in reset. -/

/-- The errno value `ETIMEDOUT`. -/
def ETIMEDOUT : Int := 110

/-- The calls that `pmu.c` makes to the hardware-access layer. -/
inductive pmu_hw_call where
  | reset_engine (enable : Bool)
  | nvgpu_cg_slcg_pmu_load_enable
  | nvgpu_cg_blcg_pmu_load_enable
  | nvgpu_falcon_mem_scrub_wait
  | is_engine_in_reset
  | pmu_enable_irq (enable : Bool)
  | nvgpu_falcon_wait_idle
deriving DecidableEq, Repr

/-- Modelled from the spec: the PMU engine as `pmu.c` sees it, whether it is in
reset and the calls made to it so far, oldest first. -/
structure pmu_engine where
  in_reset : Bool
  calls : List pmu_hw_call
deriving DecidableEq, Repr

/-- Modelled from the spec: what the two bounded waits on the falcon `pmu->flcn`
return, `0` for success. -/
structure pmu_falcon where
  mem_scrub_wait : Int
  wait_idle : Int
deriving DecidableEq, Repr

/-- A call to the hardware-access layer that leaves the reset state alone. -/
def pmu_hw_log (e : pmu_engine) (c : pmu_hw_call) : pmu_engine :=
  { e with calls := e.calls ++ [c] }

/-- Modelled from the spec: `g->ops.pmu.reset_engine(g, enable)`; `true` brings the
engine out of reset, `false` puts and keeps it in reset. -/
def reset_engine (e : pmu_engine) (enable : Bool) : pmu_engine :=
  { in_reset := !enable, calls := e.calls ++ [.reset_engine enable] }

/-- The function `pmu_enable_hw(pmu, enable)`: the engine afterwards and `err`. -/
def pmu_enable_hw (flcn : pmu_falcon) (e : pmu_engine) (enable : Bool) : pmu_engine × Int :=
  if enable then
    let e1 := reset_engine e true
    let e2 := pmu_hw_log e1 .nvgpu_cg_slcg_pmu_load_enable
    let e3 := pmu_hw_log e2 .nvgpu_cg_blcg_pmu_load_enable
    let e4 := pmu_hw_log e3 .nvgpu_falcon_mem_scrub_wait
    if flcn.mem_scrub_wait ≠ 0 then
      (reset_engine e4 false, -ETIMEDOUT)
    else
      (e4, 0)
  else
    (reset_engine e false, 0)

/-- The function `pmu_enable(pmu, enable)`.  `CONFIG_NVGPU_LS_PMU` is the build
option that guards the call of `pmu_enable_irq`. -/
def pmu_enable (CONFIG_NVGPU_LS_PMU : Bool) (flcn : pmu_falcon) (e : pmu_engine)
    (enable : Bool) : pmu_engine × Int :=
  if !enable then
    let e1 := pmu_hw_log e .is_engine_in_reset
    if !e.in_reset then
      let e2 := if CONFIG_NVGPU_LS_PMU then pmu_hw_log e1 (.pmu_enable_irq false) else e1
      pmu_enable_hw flcn e2 false
    else
      (e1, 0)
  else
    let r := pmu_enable_hw flcn e true
    if r.2 ≠ 0 then
      r
    else
      (pmu_hw_log r.1 .nvgpu_falcon_wait_idle, flcn.wait_idle)

/-- The function `nvgpu_pmu_reset(g)`. -/
def nvgpu_pmu_reset (CONFIG_NVGPU_LS_PMU : Bool) (flcn : pmu_falcon) (e : pmu_engine) :
    pmu_engine × Int :=
  let d := pmu_enable CONFIG_NVGPU_LS_PMU flcn e false
  if d.2 ≠ 0 then
    d
  else
    pmu_enable CONFIG_NVGPU_LS_PMU flcn d.1 true

/-! ## Firmware load

The loader `nvgpu_request_firmware` is an external collaborator, a parameter that
maps a blob name to the blob, or to `none` for `NULL`.  The embedding records the
requests, the releases and the call of `init_pmu_fw_ver_ops`, in order. -/

/-- The errno value `ENOENT`. -/
def ENOENT : Int := 2

/-- Source: `#define NVGPU_PMU_NS_UCODE_IMAGE "gpmu_ucode.bin"` -/
def NVGPU_PMU_NS_UCODE_IMAGE : String := "gpmu_ucode.bin"

/-- Source: `#define NVGPU_PMU_UCODE_IMAGE "gpmu_ucode_image.bin"` -/
def NVGPU_PMU_UCODE_IMAGE : String := "gpmu_ucode_image.bin"

/-- Source: `#define NVGPU_PMU_UCODE_DESC "gpmu_ucode_desc.bin"` -/
def NVGPU_PMU_UCODE_DESC : String := "gpmu_ucode_desc.bin"

/-- Source: `#define NVGPU_PMU_UCODE_SIG "pmu_sig.bin"` -/
def NVGPU_PMU_UCODE_SIG : String := "pmu_sig.bin"

/-- The calls that `init_pmu_ucode` makes. -/
inductive pmu_ucode_call where
  | nvgpu_request_firmware (fw_name : String)
  | nvgpu_release_firmware (fw : Option nvgpu_firmware)
  | init_pmu_fw_ver_ops (app_version : Nat)
deriving DecidableEq, Repr

/-- The blob names requested in a sequence of calls, in order. -/
def requested_names (calls : List pmu_ucode_call) : List String :=
  calls.filterMap fun c =>
    match c with
    | .nvgpu_request_firmware fw_name => some fw_name
    | _ => none

/-- The version tags passed to `init_pmu_fw_ver_ops` in a sequence of calls, in order. -/
def selected_tags (calls : List pmu_ucode_call) : List Nat :=
  calls.filterMap fun c =>
    match c with
    | .init_pmu_fw_ver_ops app_version => some app_version
    | _ => none

/-- Source: `err = init_pmu_fw_ver_ops(pmu, desc->app_version); if (err != 0) { goto
release_sig; } goto exit;` and the labels `release_sig:`, `release_desc:`,
`release_img_fw:`, `exit:`, the tail of `init_pmu_ucode` that both load modes reach.
The result is the calls made and, unless the selection has no defined behaviour, the
device and `err`. -/
def init_pmu_ucode_select (G : Nat) (g : gk20a) (calls : List pmu_ucode_call)
    (app_version : Nat) : List pmu_ucode_call × Option (gk20a × Int) :=
  let calls1 := calls ++ [.init_pmu_fw_ver_ops app_version]
  match init_pmu_fw_ver_ops G g app_version with
  | none => (calls1, none)
  | some (g1, err) =>
    if err ≠ 0 then
      (calls1 ++ [.nvgpu_release_firmware g1.pmu.fw_sig,
                  .nvgpu_release_firmware g1.pmu.fw_desc,
                  .nvgpu_release_firmware g1.pmu.fw_image], some (g1, err))
    else
      (calls1, some (g1, err))

/-- The function `init_pmu_ucode(pmu)`, on the device `g` that owns `pmu`. -/
def init_pmu_ucode (G : Nat) (nvgpu_request_firmware : String → Option nvgpu_firmware)
    (g : gk20a) : List pmu_ucode_call × Option (gk20a × Int) :=
  if g.pmu.fw_image ≠ none then
    ([], some (g, 0))
  else if !nvgpu_is_enabled g.enabled_flags .NVGPU_SEC_PRIVSECURITY then
    let g1 : gk20a :=
      { g with pmu := { g.pmu with
          fw_image := nvgpu_request_firmware NVGPU_PMU_NS_UCODE_IMAGE } }
    let calls1 : List pmu_ucode_call := [.nvgpu_request_firmware NVGPU_PMU_NS_UCODE_IMAGE]
    match g1.pmu.fw_image with
    | none => (calls1, some (g1, 0))
    | some fw_image => init_pmu_ucode_select G g1 calls1 fw_image.app_version
  else
    let g1 : gk20a :=
      { g with pmu := { g.pmu with fw_image := nvgpu_request_firmware NVGPU_PMU_UCODE_IMAGE } }
    let calls1 : List pmu_ucode_call := [.nvgpu_request_firmware NVGPU_PMU_UCODE_IMAGE]
    match g1.pmu.fw_image with
    | none => (calls1, some (g1, -ENOENT))
    | some _ =>
      let g2 : gk20a :=
        { g1 with pmu := { g1.pmu with
            fw_desc := nvgpu_request_firmware NVGPU_PMU_UCODE_DESC } }
      let calls2 := calls1 ++ [.nvgpu_request_firmware NVGPU_PMU_UCODE_DESC]
      match g2.pmu.fw_desc with
      | none => (calls2 ++ [.nvgpu_release_firmware g2.pmu.fw_image], some (g2, -ENOENT))
      | some fw_desc =>
        let g3 : gk20a :=
          { g2 with pmu := { g2.pmu with
              fw_sig := nvgpu_request_firmware NVGPU_PMU_UCODE_SIG } }
        let calls3 := calls2 ++ [.nvgpu_request_firmware NVGPU_PMU_UCODE_SIG]
        match g3.pmu.fw_sig with
        | none =>
            (calls3 ++ [.nvgpu_release_firmware g3.pmu.fw_desc,
                        .nvgpu_release_firmware g3.pmu.fw_image], some (g3, -ENOENT))
        | some _ => init_pmu_ucode_select G g3 calls3 fw_desc.app_version

/-- A loader that finds every blob: blob `1` with the GM20B tag for the non-secure
image, and blobs `2`, `3`, `4` for the secure image, descriptor (GP10B tag) and
signature. -/
def firmware_store_sample (fw_name : String) : Option nvgpu_firmware :=
  if fw_name = NVGPU_PMU_NS_UCODE_IMAGE then some ⟨1, APP_VERSION_GM20B⟩
  else if fw_name = NVGPU_PMU_UCODE_IMAGE then some ⟨2, 0⟩
  else if fw_name = NVGPU_PMU_UCODE_DESC then some ⟨3, APP_VERSION_GP10B⟩
  else if fw_name = NVGPU_PMU_UCODE_SIG then some ⟨4, 0⟩
  else none

/-- A zero-allocated device whose `pmu->fw_image` already points to a blob. -/
def gk20a_image_loaded : gk20a :=
  { gk20a_zero with pmu := { nvgpu_pmu_zero with fw_image := some ⟨9, 0⟩ } }

/-- A zero-allocated device with the `NVGPU_SEC_PRIVSECURITY` flag set. -/
def gk20a_zero_secure : gk20a :=
  { gk20a_zero with
    enabled_flags := nvgpu_set_enabled gk20a_zero.enabled_flags .NVGPU_SEC_PRIVSECURITY true }

/-- A loader that finds the secure image (blob `2`) and descriptor (blob `3`) but no
signature. -/
def firmware_store_no_sig (fw_name : String) : Option nvgpu_firmware :=
  if fw_name = NVGPU_PMU_UCODE_IMAGE then some ⟨2, 0⟩
  else if fw_name = NVGPU_PMU_UCODE_DESC then some ⟨3, APP_VERSION_GP10B⟩
  else none

/-- A loader that finds every blob, with the unsupported version tag `7` in the
non-secure image and in the secure descriptor. -/
def firmware_store_bad_tag (fw_name : String) : Option nvgpu_firmware :=
  if fw_name = NVGPU_PMU_NS_UCODE_IMAGE then some ⟨1, 7⟩
  else if fw_name = NVGPU_PMU_UCODE_IMAGE then some ⟨2, 0⟩
  else if fw_name = NVGPU_PMU_UCODE_DESC then some ⟨3, 7⟩
  else if fw_name = NVGPU_PMU_UCODE_SIG then some ⟨4, 0⟩
  else none

/-- A device with a freshly allocated PMU (no firmware pointer set) whose dispatch
table holds the bundle of an earlier GM20B selection. -/
def gk20a_reloaded : gk20a :=
  init_pmu_fw_ver_ops_GM20B gk20a_zero

/-- The device `gk20a_reloaded` with the `NVGPU_SEC_PRIVSECURITY` flag set. -/
def gk20a_reloaded_secure : gk20a :=
  { gk20a_reloaded with
    enabled_flags :=
      nvgpu_set_enabled gk20a_reloaded.enabled_flags .NVGPU_SEC_PRIVSECURITY true }

/-! ## Early initialisation

`is_pmu_supported`, the mutex primitives, the allocator and
`nvgpu_pmu_rtos_early_init` are external collaborators: what they return is a
parameter, and the embedding records the calls, in order. -/

/-- The errno value `ENOMEM`. -/
def ENOMEM : Int := 12

/-- The five locks of the PMU that `nvgpu_early_init_pmu_sw` initialises:
`pmu_pg.elpg_mutex`, `pmu_pg.pg_mutex`, `isr_mutex`, `pmu_copy_lock`, `pmu_seq_lock`. -/
inductive pmu_mutex where
  | elpg_mutex
  | pg_mutex
  | isr_mutex
  | pmu_copy_lock
  | pmu_seq_lock
deriving DecidableEq, Repr

/-- The calls that the two early-initialisation functions make; a call of
`init_pmu_ucode` carries the calls made inside it. -/
inductive pmu_init_call where
  | is_pmu_supported
  | nvgpu_mutex_init (m : pmu_mutex)
  | nvgpu_mutex_destroy (m : pmu_mutex)
  | init_pmu_ucode (calls : List pmu_ucode_call)
  | nvgpu_kzalloc
  | nvgpu_pmu_rtos_early_init
deriving DecidableEq, Repr

/-- Modelled from the spec: what the external collaborators of
`nvgpu_early_init_pmu_sw` answer: the HAL query `g->ops.pmu.is_pmu_supported(g)`, the
result of `nvgpu_mutex_init` on each lock, the firmware loader, and the macro
`PMU_DOMAIN_GROUP_PSTATE`. -/
structure pmu_init_env where
  is_pmu_supported : Bool
  nvgpu_mutex_init : pmu_mutex → Int
  nvgpu_request_firmware : String → Option nvgpu_firmware
  PMU_DOMAIN_GROUP_PSTATE : Nat

/-- Source: the block `g->support_ls_pmu = false; g->can_elpg = false;
g->elpg_enabled = false; g->aelpg_enabled = false;
nvgpu_set_enabled(g, NVGPU_PMU_PERFMON, false);` that both early-initialisation
functions run when the PMU is not supported. -/
def disable_ls_pmu_checkers (g : gk20a) : gk20a :=
  { g with
    support_ls_pmu := false,
    can_elpg := false,
    elpg_enabled := false,
    aelpg_enabled := false,
    enabled_flags := nvgpu_set_enabled g.enabled_flags .NVGPU_PMU_PERFMON false }

/-- Source: the label `fail_elpg:` of `nvgpu_early_init_pmu_sw` and what follows it. -/
def fail_elpg : List pmu_init_call := [.nvgpu_mutex_destroy .elpg_mutex]

/-- Source: the label `fail_pg:` of `nvgpu_early_init_pmu_sw` and what follows it. -/
def fail_pg : List pmu_init_call := .nvgpu_mutex_destroy .pg_mutex :: fail_elpg

/-- Source: the label `fail_isr:` of `nvgpu_early_init_pmu_sw` and what follows it. -/
def fail_isr : List pmu_init_call := .nvgpu_mutex_destroy .isr_mutex :: fail_pg

/-- Source: the label `fail_pmu_copy:` of `nvgpu_early_init_pmu_sw` and what follows
it. -/
def fail_pmu_copy : List pmu_init_call := .nvgpu_mutex_destroy .pmu_copy_lock :: fail_isr

/-- Source: the label `fail_seq_lock:` of `nvgpu_early_init_pmu_sw` and what follows
it. -/
def fail_seq_lock : List pmu_init_call :=
  .nvgpu_mutex_destroy .pmu_seq_lock :: fail_pmu_copy

/-- The function `nvgpu_early_init_pmu_sw(g, pmu)` of `pmu_fw.c`, on the device `g`
that owns `pmu`: the calls made and, unless the version selection inside
`init_pmu_ucode` has no defined behaviour, the device and `err`. -/
def nvgpu_early_init_pmu_sw (env : pmu_init_env) (g : gk20a) :
    List pmu_init_call × Option (gk20a × Int) :=
  if !g.support_ls_pmu then
    ([], some (g, 0))
  else if !env.is_pmu_supported then
    ([.is_pmu_supported], some (disable_ls_pmu_checkers g, 0))
  else
    let c1 : List pmu_init_call := [.is_pmu_supported, .nvgpu_mutex_init .elpg_mutex]
    if env.nvgpu_mutex_init .elpg_mutex ≠ 0 then
      (c1, some (g, env.nvgpu_mutex_init .elpg_mutex))
    else
      let c2 := c1 ++ [.nvgpu_mutex_init .pg_mutex]
      if env.nvgpu_mutex_init .pg_mutex ≠ 0 then
        (c2 ++ fail_elpg, some (g, env.nvgpu_mutex_init .pg_mutex))
      else
        let c3 := c2 ++ [.nvgpu_mutex_init .isr_mutex]
        if env.nvgpu_mutex_init .isr_mutex ≠ 0 then
          (c3 ++ fail_pg, some (g, env.nvgpu_mutex_init .isr_mutex))
        else
          let c4 := c3 ++ [.nvgpu_mutex_init .pmu_copy_lock]
          if env.nvgpu_mutex_init .pmu_copy_lock ≠ 0 then
            (c4 ++ fail_isr, some (g, env.nvgpu_mutex_init .pmu_copy_lock))
          else
            let c5 := c4 ++ [.nvgpu_mutex_init .pmu_seq_lock]
            if env.nvgpu_mutex_init .pmu_seq_lock ≠ 0 then
              (c5 ++ fail_pmu_copy, some (g, env.nvgpu_mutex_init .pmu_seq_lock))
            else
              let u := init_pmu_ucode env.PMU_DOMAIN_GROUP_PSTATE
                env.nvgpu_request_firmware g
              let c6 := c5 ++ [.init_pmu_ucode u.1]
              match u.2 with
              | none => (c6, none)
              | some (g1, err) =>
                if err ≠ 0 then
                  (c6 ++ fail_seq_lock, some (g1, err))
                else
                  (c6, some ({ g1 with pmu := { g1.pmu with remove_support := true } }, err))

/-- The outcome of `nvgpu_pmu_early_init`: the calls made, the device, the cell
`*pmu_p` and `err`. -/
structure pmu_early_init_result where
  calls : List pmu_init_call
  g : gk20a
  pmu_p : Option nvgpu_pmu
  err : Int

/-- The function `nvgpu_pmu_early_init(g, pmu_p)` of `pmu.c`; `pmu_p` is the cell
`*pmu_p` (`none` for `NULL`), `kzalloc_ok` tells whether `nvgpu_kzalloc` succeeds,
`is_pmu_supported` what the HAL query answers, and `rtos` is
`nvgpu_pmu_rtos_early_init`, which is defined outside the sources and is called when
`CONFIG_NVGPU_LS_PMU` is set. -/
def nvgpu_pmu_early_init (CONFIG_NVGPU_LS_PMU kzalloc_ok is_pmu_supported : Bool)
    (rtos : gk20a → nvgpu_pmu → gk20a × nvgpu_pmu × Int)
    (g : gk20a) (pmu_p : Option nvgpu_pmu) : pmu_early_init_result :=
  match pmu_p with
  | some pmu => { calls := [], g := g, pmu_p := some pmu, err := 0 }
  | none =>
    if !kzalloc_ok then
      { calls := [.nvgpu_kzalloc], g := g, pmu_p := none, err := -ENOMEM }
    else
      let pmu := nvgpu_pmu_zero
      if !g.support_ls_pmu then
        { calls := [.nvgpu_kzalloc], g := g, pmu_p := some pmu, err := 0 }
      else if !is_pmu_supported then
        { calls := [.nvgpu_kzalloc, .is_pmu_supported],
          g := disable_ls_pmu_checkers g, pmu_p := some pmu, err := 0 }
      else if CONFIG_NVGPU_LS_PMU then
        let r := rtos g pmu
        { calls := [.nvgpu_kzalloc, .is_pmu_supported, .nvgpu_pmu_rtos_early_init],
          g := r.1, pmu_p := some r.2.1, err := r.2.2 }
      else
        { calls := [.nvgpu_kzalloc, .is_pmu_supported], g := g, pmu_p := some pmu,
          err := 0 }

/-- The five capability flags that the early initialisation clears on unsupported
hardware are not raised from `g` to `r`: each one that is set in `r` was set in `g`. -/
def ls_pmu_flags_not_raised (g r : gk20a) : Prop :=
  (r.support_ls_pmu = true → g.support_ls_pmu = true) ∧
  (r.can_elpg = true → g.can_elpg = true) ∧
  (r.elpg_enabled = true → g.elpg_enabled = true) ∧
  (r.aelpg_enabled = true → g.aelpg_enabled = true) ∧
  (nvgpu_is_enabled r.enabled_flags .NVGPU_PMU_PERFMON = true →
    nvgpu_is_enabled g.enabled_flags .NVGPU_PMU_PERFMON = true)

/-- A sample environment: unsupported hardware, every lock initialises, the sample
firmware store. -/
def pmu_init_env_unsupported : pmu_init_env :=
  { is_pmu_supported := false,
    nvgpu_mutex_init := fun _ => 0,
    nvgpu_request_firmware := firmware_store_sample,
    PMU_DOMAIN_GROUP_PSTATE := 0 }

/-- A zero-allocated device with every LS-PMU capability flag set. -/
def gk20a_ls_pmu : gk20a :=
  { gk20a_zero with
    support_ls_pmu := true, can_elpg := true, elpg_enabled := true, aelpg_enabled := true,
    enabled_flags := nvgpu_set_enabled gk20a_zero.enabled_flags .NVGPU_PMU_PERFMON true }

/-- The values of the five LS-PMU capability flags of a device: `support_ls_pmu`,
`can_elpg`, `elpg_enabled`, `aelpg_enabled` and `NVGPU_PMU_PERFMON`. -/
def ls_pmu_flags (g : gk20a) : Bool × Bool × Bool × Bool × Bool :=
  (g.support_ls_pmu, g.can_elpg, g.elpg_enabled, g.aelpg_enabled,
    nvgpu_is_enabled g.enabled_flags .NVGPU_PMU_PERFMON)

/-- A stand-in for `nvgpu_pmu_rtos_early_init` that changes nothing and returns `0`. -/
def rtos_early_init_sample (g : gk20a) (pmu : nvgpu_pmu) : gk20a × nvgpu_pmu × Int :=
  (g, pmu, 0)

/-! ## Record families and versions -/

/-- The record families of the ABI accessor set whose accessors come in several
versions: engine-buffer-load commands, allocation records, init-message records,
perfmon commands and command-line argument blocks. -/
inductive pmu_family where
  | eng_buf_load
  | allocation
  | init_msg
  | perfmon_cmd
  | cmdline
deriving DecidableEq, Repr

/-- The version of an accessor: the number after `_v` that ends its name in the
sources, `none` for a name without one. -/
def pmu_fn.version : pmu_fn → Option Nat
  | .pmu_perfmon_cntr_sz_v2 => some 2
  | .get_perfmon_cntr_ptr_v2 => some 2
  | .set_perfmon_cntr_ut_v2 => some 2
  | .set_perfmon_cntr_lt_v2 => some 2
  | .set_perfmon_cntr_valid_v2 => some 2
  | .set_perfmon_cntr_index_v2 => some 2
  | .set_perfmon_cntr_group_id_v2 => some 2
  | .set_pmu_cmdline_args_falctracedmabase_v4 => some 4
  | .pmu_cmdline_size_v4 => some 4
  | .set_pmu_cmdline_args_cpufreq_v4 => some 4
  | .set_pmu_cmdline_args_secure_mode_v4 => some 4
  | .set_pmu_cmdline_args_falctracesize_v4 => some 4
  | .set_pmu_cmdline_args_falctracedmaidx_v4 => some 4
  | .pmu_cmdline_size_v5 => some 5
  | .pmu_cmdline_size_v6 => some 6
  | .set_pmu_cmdline_args_cpufreq_v5 => some 5
  | .set_pmu_cmdline_args_secure_mode_v5 => some 5
  | .set_pmu_cmdline_args_falctracesize_v5 => some 5
  | .set_pmu_cmdline_args_falctracedmabase_v5 => some 5
  | .config_pmu_cmdline_args_super_surface_v6 => some 6
  | .set_pmu_cmdline_args_falctracedmaidx_v5 => some 5
  | .pmu_cmdline_size_v3 => some 3
  | .set_pmu_cmdline_args_cpufreq_v3 => some 3
  | .set_pmu_cmdline_args_secure_mode_v3 => some 3
  | .set_pmu_cmdline_args_falctracesize_v3 => some 3
  | .set_pmu_cmdline_args_falctracedmabase_v3 => some 3
  | .set_pmu_cmdline_args_falctracedmaidx_v3 => some 3
  | .get_pmu_cmdline_args_ptr_v4 => some 4
  | .get_pmu_cmdline_args_ptr_v3 => some 3
  | .get_pmu_cmdline_args_ptr_v5 => some 5
  | .get_pmu_allocation_size_v3 => some 3
  | .get_pmu_allocation_size_v2 => some 2
  | .get_pmu_allocation_size_v1 => some 1
  | .set_pmu_allocation_ptr_v3 => some 3
  | .set_pmu_allocation_ptr_v2 => some 2
  | .set_pmu_allocation_ptr_v1 => some 1
  | .pmu_allocation_set_dmem_size_v3 => some 3
  | .pmu_allocation_set_dmem_size_v2 => some 2
  | .pmu_allocation_set_dmem_size_v1 => some 1
  | .pmu_allocation_get_dmem_size_v3 => some 3
  | .pmu_allocation_get_dmem_size_v2 => some 2
  | .pmu_allocation_get_dmem_size_v1 => some 1
  | .pmu_allocation_get_dmem_offset_v3 => some 3
  | .pmu_allocation_get_dmem_offset_v2 => some 2
  | .pmu_allocation_get_dmem_offset_v1 => some 1
  | .pmu_allocation_get_dmem_offset_addr_v3 => some 3
  | .pmu_allocation_get_fb_addr_v3 => some 3
  | .pmu_allocation_get_fb_size_v3 => some 3
  | .pmu_allocation_get_dmem_offset_addr_v2 => some 2
  | .pmu_allocation_get_dmem_offset_addr_v1 => some 1
  | .pmu_allocation_set_dmem_offset_v3 => some 3
  | .pmu_allocation_set_dmem_offset_v2 => some 2
  | .pmu_allocation_set_dmem_offset_v1 => some 1
  | .get_pmu_msg_pmu_init_msg_ptr_v5 => some 5
  | .get_pmu_msg_pmu_init_msg_ptr_v4 => some 4
  | .get_pmu_msg_pmu_init_msg_ptr_v3 => some 3
  | .get_pmu_init_msg_pmu_sw_mg_off_v5 => some 5
  | .get_pmu_init_msg_pmu_sw_mg_off_v4 => some 4
  | .get_pmu_init_msg_pmu_sw_mg_off_v3 => some 3
  | .get_pmu_init_msg_pmu_sw_mg_size_v5 => some 5
  | .get_pmu_init_msg_pmu_sw_mg_size_v4 => some 4
  | .get_pmu_init_msg_pmu_sw_mg_size_v3 => some 3
  | .get_pmu_msg_pmu_init_msg_ptr_v1 => some 1
  | .get_pmu_init_msg_pmu_sw_mg_off_v1 => some 1
  | .get_pmu_init_msg_pmu_sw_mg_size_v1 => some 1
  | .get_pmu_perfmon_cmd_start_size_v3 => some 3
  | .get_pmu_perfmon_cmd_start_size_v2 => some 2
  | .get_pmu_perfmon_cmd_start_size_v1 => some 1
  | .get_perfmon_cmd_start_offsetofvar_v3 => some 3
  | .get_perfmon_cmd_start_offsetofvar_v2 => some 2
  | .get_perfmon_cmd_start_offsetofvar_v1 => some 1
  | .get_pmu_perfmon_cmd_init_size_v3 => some 3
  | .get_pmu_perfmon_cmd_init_size_v2 => some 2
  | .get_pmu_perfmon_cmd_init_size_v1 => some 1
  | .get_perfmon_cmd_init_offsetofvar_v3 => some 3
  | .get_perfmon_cmd_init_offsetofvar_v2 => some 2
  | .get_perfmon_cmd_init_offsetofvar_v1 => some 1
  | .perfmon_start_set_cmd_type_v3 => some 3
  | .perfmon_start_set_cmd_type_v2 => some 2
  | .perfmon_start_set_cmd_type_v1 => some 1
  | .perfmon_start_set_group_id_v3 => some 3
  | .perfmon_start_set_group_id_v2 => some 2
  | .perfmon_start_set_group_id_v1 => some 1
  | .perfmon_start_set_state_id_v3 => some 3
  | .perfmon_start_set_state_id_v2 => some 2
  | .perfmon_start_set_state_id_v1 => some 1
  | .perfmon_start_set_flags_v3 => some 3
  | .perfmon_start_set_flags_v2 => some 2
  | .perfmon_start_set_flags_v1 => some 1
  | .perfmon_start_get_flags_v3 => some 3
  | .perfmon_start_get_flags_v2 => some 2
  | .perfmon_start_get_flags_v1 => some 1
  | .perfmon_cmd_init_set_sample_buffer_v3 => some 3
  | .perfmon_cmd_init_set_sample_buffer_v2 => some 2
  | .perfmon_cmd_init_set_sample_buffer_v1 => some 1
  | .perfmon_cmd_init_set_dec_cnt_v3 => some 3
  | .perfmon_cmd_init_set_dec_cnt_v2 => some 2
  | .perfmon_cmd_init_set_dec_cnt_v1 => some 1
  | .perfmon_cmd_init_set_base_cnt_id_v3 => some 3
  | .perfmon_cmd_init_set_base_cnt_id_v2 => some 2
  | .perfmon_cmd_init_set_base_cnt_id_v1 => some 1
  | .perfmon_cmd_init_set_samp_period_us_v3 => some 3
  | .perfmon_cmd_init_set_samp_period_us_v2 => some 2
  | .perfmon_cmd_init_set_samp_period_us_v1 => some 1
  | .perfmon_cmd_init_set_num_cnt_v3 => some 3
  | .perfmon_cmd_init_set_num_cnt_v2 => some 2
  | .perfmon_cmd_init_set_num_cnt_v1 => some 1
  | .perfmon_cmd_init_set_mov_avg_v3 => some 3
  | .perfmon_cmd_init_set_mov_avg_v2 => some 2
  | .perfmon_cmd_init_set_mov_avg_v1 => some 1
  | .get_pmu_init_msg_pmu_queue_params_v1 => some 1
  | .get_pmu_init_msg_pmu_queue_params_v4 => some 4
  | .get_pmu_init_msg_pmu_queue_params_v5 => some 5
  | .get_pmu_init_msg_pmu_queue_params_v3 => some 3
  | .get_pmu_sequence_in_alloc_ptr_v3 => some 3
  | .get_pmu_sequence_in_alloc_ptr_v1 => some 1
  | .get_pmu_sequence_out_alloc_ptr_v3 => some 3
  | .get_pmu_sequence_out_alloc_ptr_v1 => some 1
  | .pg_cmd_eng_buf_load_size_v0 => some 0
  | .pg_cmd_eng_buf_load_size_v1 => some 1
  | .pg_cmd_eng_buf_load_size_v2 => some 2
  | .pg_cmd_eng_buf_load_set_cmd_type_v0 => some 0
  | .pg_cmd_eng_buf_load_set_cmd_type_v1 => some 1
  | .pg_cmd_eng_buf_load_set_cmd_type_v2 => some 2
  | .pg_cmd_eng_buf_load_set_engine_id_v0 => some 0
  | .pg_cmd_eng_buf_load_set_engine_id_v1 => some 1
  | .pg_cmd_eng_buf_load_set_engine_id_v2 => some 2
  | .pg_cmd_eng_buf_load_set_buf_idx_v0 => some 0
  | .pg_cmd_eng_buf_load_set_buf_idx_v1 => some 1
  | .pg_cmd_eng_buf_load_set_buf_idx_v2 => some 2
  | .pg_cmd_eng_buf_load_set_pad_v0 => some 0
  | .pg_cmd_eng_buf_load_set_pad_v1 => some 1
  | .pg_cmd_eng_buf_load_set_pad_v2 => some 2
  | .pg_cmd_eng_buf_load_set_buf_size_v0 => some 0
  | .pg_cmd_eng_buf_load_set_buf_size_v1 => some 1
  | .pg_cmd_eng_buf_load_set_buf_size_v2 => some 2
  | .pg_cmd_eng_buf_load_set_dma_base_v0 => some 0
  | .pg_cmd_eng_buf_load_set_dma_base_v1 => some 1
  | .pg_cmd_eng_buf_load_set_dma_base_v2 => some 2
  | .pg_cmd_eng_buf_load_set_dma_offset_v0 => some 0
  | .pg_cmd_eng_buf_load_set_dma_offset_v1 => some 1
  | .pg_cmd_eng_buf_load_set_dma_offset_v2 => some 2
  | .pg_cmd_eng_buf_load_set_dma_idx_v0 => some 0
  | .pg_cmd_eng_buf_load_set_dma_idx_v1 => some 1
  | .pg_cmd_eng_buf_load_set_dma_idx_v2 => some 2
  | .boardobjgrp_pmucmd_construct_impl_v1 => some 1
  | .boardobjgrp_pmuset_impl_v1 => some 1
  | .boardobjgrp_pmugetstatus_impl_v1 => some 1
  | .is_boardobjgrp_pmucmd_id_valid_v1 => some 1
  | .nvgpu_clk_avfs_get_vin_cal_fuse_v20 => some 20
  | .is_boardobjgrp_pmucmd_id_valid_v0 => some 0
  | .nvgpu_clk_avfs_get_vin_cal_fuse_v10 => some 10
  | _ => none

/-- The record family that an entry of the dispatch table serves: the family of the
record that the installed accessors read, write or return.  The two sequence entries
`get_pmu_seq_in_a_ptr` and `get_pmu_seq_out_a_ptr` return the allocation record of a
sequence and belong to the allocation family; `none` for the perfmon-counter,
board-object and clock entries. -/
def pmu_slot.family : pmu_slot → Option pmu_family
  | .pg_cmd_eng_buf_load_size => some .eng_buf_load
  | .pg_cmd_eng_buf_load_set_cmd_type => some .eng_buf_load
  | .pg_cmd_eng_buf_load_set_engine_id => some .eng_buf_load
  | .pg_cmd_eng_buf_load_set_buf_idx => some .eng_buf_load
  | .pg_cmd_eng_buf_load_set_pad => some .eng_buf_load
  | .pg_cmd_eng_buf_load_set_buf_size => some .eng_buf_load
  | .pg_cmd_eng_buf_load_set_dma_base => some .eng_buf_load
  | .pg_cmd_eng_buf_load_set_dma_offset => some .eng_buf_load
  | .pg_cmd_eng_buf_load_set_dma_idx => some .eng_buf_load
  | .get_pmu_cmdline_args_size => some .cmdline
  | .set_pmu_cmdline_args_cpu_freq => some .cmdline
  | .set_pmu_cmdline_args_secure_mode => some .cmdline
  | .set_pmu_cmdline_args_trace_size => some .cmdline
  | .set_pmu_cmdline_args_trace_dma_base => some .cmdline
  | .set_pmu_cmdline_args_trace_dma_idx => some .cmdline
  | .get_pmu_cmdline_args_ptr => some .cmdline
  | .get_pmu_allocation_struct_size => some .allocation
  | .set_pmu_allocation_ptr => some .allocation
  | .pmu_allocation_set_dmem_size => some .allocation
  | .pmu_allocation_get_dmem_size => some .allocation
  | .pmu_allocation_get_dmem_offset => some .allocation
  | .pmu_allocation_get_dmem_offset_addr => some .allocation
  | .pmu_allocation_set_dmem_offset => some .allocation
  | .get_pmu_init_msg_pmu_queue_params => some .init_msg
  | .get_pmu_msg_pmu_init_msg_ptr => some .init_msg
  | .get_pmu_init_msg_pmu_sw_mg_off => some .init_msg
  | .get_pmu_init_msg_pmu_sw_mg_size => some .init_msg
  | .get_pmu_perfmon_cmd_start_size => some .perfmon_cmd
  | .get_perfmon_cmd_start_offsetofvar => some .perfmon_cmd
  | .perfmon_start_set_cmd_type => some .perfmon_cmd
  | .perfmon_start_set_group_id => some .perfmon_cmd
  | .perfmon_start_set_state_id => some .perfmon_cmd
  | .perfmon_start_set_flags => some .perfmon_cmd
  | .perfmon_start_get_flags => some .perfmon_cmd
  | .get_pmu_perfmon_cmd_init_size => some .perfmon_cmd
  | .get_perfmon_cmd_init_offsetofvar => some .perfmon_cmd
  | .perfmon_cmd_init_set_sample_buffer => some .perfmon_cmd
  | .perfmon_cmd_init_set_dec_cnt => some .perfmon_cmd
  | .perfmon_cmd_init_set_base_cnt_id => some .perfmon_cmd
  | .perfmon_cmd_init_set_samp_period_us => some .perfmon_cmd
  | .perfmon_cmd_init_set_num_cnt => some .perfmon_cmd
  | .perfmon_cmd_init_set_mov_avg => some .perfmon_cmd
  | .config_pmu_cmdline_args_super_surface => some .cmdline
  | .pmu_allocation_get_fb_addr => some .allocation
  | .pmu_allocation_get_fb_size => some .allocation
  | .get_pmu_seq_in_a_ptr => some .allocation
  | .get_pmu_seq_out_a_ptr => some .allocation
  | _ => none

/-! ## Condition wait (`drivers/gpu/nvgpu/include/nvgpu/posix/cond.h`)

The macro `NVGPU_COND_WAIT(c, condition, timeout_ms)` waits on a condition variable.
What other threads do is a parameter: the value that `condition` has each time the
macro evaluates it, and what each wait returns. -/

/-- The `struct timespec` of the C library: seconds and nanoseconds. -/
structure timespec where
  tv_sec : Int
  tv_nsec : Int
deriving DecidableEq, Repr

/-- Modelled from the spec: the surroundings of one use of `NVGPU_COND_WAIT`:
`condition n` is the value of `condition` at its evaluation number `n` (from `0`),
`pthread_cond_wait` is what the untimed wait returns, `pthread_cond_timedwait ts n`
what timed wait number `n` returns for the deadline `ts`, and `clock_gettime` is the
time that `clock_gettime(CLOCK_REALTIME, &ts)` stores. -/
structure cond_wait_env where
  condition : Nat → Bool
  pthread_cond_wait : Int
  pthread_cond_timedwait : timespec → Nat → Int
  clock_gettime : timespec

/-- The text written for the macro parameter `timeout_ms`.  The macro pastes it
without parentheses, so what `timeout_ms / 1000` and `timeout_ms % 1000` mean depends
on its shape: `term t` is a single term of value `t` (a literal, a name, a
parenthesised expression, or a product or quotient of these), `plus p t` is the text
`P + T` and `minus p t` the text `P - T`, where `P` is an expression of value `p`
and `T` is a last term of value `t`.  Arguments whose top-level operator binds
looser than `+` are not covered. -/
inductive cond_wait_arg where
  | term (t : Nat)
  | plus (p : Int) (t : Nat)
  | minus (p : Int) (t : Nat)
deriving DecidableEq, Repr

/-- The value of the argument, which is also what the pasted `timeout_ms == 0`
compares with `0` (`==` binds looser than `+` and `-`). -/
def cond_wait_arg.value : cond_wait_arg → Int
  | .term t => t
  | .plus p t => p + t
  | .minus p t => p - t

/-- The value of the pasted text `timeout_ms / 1000`: `/` binds tighter than `+` and
`-`, so after `P + T` it divides the last term only. -/
def cond_wait_arg.div_1000 : cond_wait_arg → Int
  | .term t => (t / 1000 : Nat)
  | .plus p t => p + (t / 1000 : Nat)
  | .minus p t => p - (t / 1000 : Nat)

/-- The value of the pasted text `timeout_ms % 1000`, as it stands inside the
parentheses of `(timeout_ms % 1000) * 1000000`. -/
def cond_wait_arg.mod_1000 : cond_wait_arg → Int
  | .term t => (t % 1000 : Nat)
  | .plus p t => p + (t % 1000 : Nat)
  | .minus p t => p - (t % 1000 : Nat)

/-- Source: `ts.tv_sec += timeout_ms / 1000; ts.tv_nsec += (timeout_ms % 1000) *
1000000; if (ts.tv_nsec >= 1000000000) { ts.tv_sec += 1; ts.tv_nsec %= 1000000000; }`,
on the time `ts` that `clock_gettime` stored, with the argument text pasted for
`timeout_ms`. -/
def cond_wait_deadline (ts : timespec) (timeout_ms : cond_wait_arg) : timespec :=
  let ts1 : timespec :=
    { tv_sec := ts.tv_sec + timeout_ms.div_1000,
      tv_nsec := ts.tv_nsec + timeout_ms.mod_1000 * 1000000 }
  if ts1.tv_nsec ≥ 1000000000 then
    { tv_sec := ts1.tv_sec + 1, tv_nsec := ts1.tv_nsec % 1000000000 }
  else
    ts1

/-- Source: `while (!(condition) && ret == 0) { ret = pthread_cond_timedwait(&(c)->cond,
&(c)->mutex.lock.mutex, &ts); }`, entered with `n` evaluations of `condition` and `n`
waits behind it and the current `ret`; at most `fuel` evaluations of the loop test
are made.  The result is `ret` and the number of waits made, or `none` when the loop
is still running after `fuel` tests. -/
def cond_wait_loop (env : cond_wait_env) (ts : timespec) : Nat → Nat → Int → Option (Int × Nat)
  | 0, _, _ => none
  | fuel + 1, n, ret =>
    if (!env.condition n && ret == 0) = true then
      cond_wait_loop env ts fuel (n + 1) (env.pthread_cond_timedwait ts n)
    else
      some (ret, n)

/-- The macro `NVGPU_COND_WAIT(c, condition, timeout_ms)` between
`nvgpu_mutex_acquire` and `nvgpu_mutex_release`, with the argument text `timeout_ms`
pasted: the value `ret` of the statement expression and the number of waits made. -/
def NVGPU_COND_WAIT (env : cond_wait_env) (timeout_ms : cond_wait_arg) (fuel : Nat) :
    Option (Int × Nat) :=
  if timeout_ms.value = 0 then
    some (env.pthread_cond_wait, 1)
  else
    cond_wait_loop env (cond_wait_deadline env.clock_gettime timeout_ms) fuel 0 0

/-- A use of the macro in which `condition` never holds, the first two timed waits
wake up with `0` and the third reports the timeout code `110`. -/
def cond_wait_env_timeout : cond_wait_env :=
  { condition := fun _ => false,
    pthread_cond_wait := 0,
    pthread_cond_timedwait := fun _ n => if n < 2 then 0 else 110,
    clock_gettime := ⟨100, 999000000⟩ }

/-- Modelled from the spec: the value of the enumerator `COUNTER_ALLOC` and, for the
perfmon start and init command structs of versions 1, 2 and 3, the byte offset
`offsetof(struct S, counter_alloc)`; all are fixed by headers that are not among the
sources. -/
structure perfmon_cmd_decls where
  COUNTER_ALLOC : Int
  offsetof_start_v1_counter_alloc : Nat
  offsetof_start_v2_counter_alloc : Nat
  offsetof_start_v3_counter_alloc : Nat
  offsetof_init_v1_counter_alloc : Nat
  offsetof_init_v2_counter_alloc : Nat
  offsetof_init_v3_counter_alloc : Nat
deriving DecidableEq, Repr

/-- The function `get_perfmon_cmd_start_offsetofvar_v3(field, offset)`: `int status
= 0; switch (field) { case COUNTER_ALLOC: *offset = (u32)offsetof(struct
pmu_perfmon_cmd_start_v3, counter_alloc); break; default: status = -EINVAL; } return
status;`.  The argument `offset` is the cell `*offset` at entry; the result is
`status` and the cell at exit. -/
def get_perfmon_cmd_start_offsetofvar_v3 (d : perfmon_cmd_decls) (field : Int)
    (offset : Nat) : Int × Nat :=
  let status : Int := 0
  if field = d.COUNTER_ALLOC then
    (status, U32 d.offsetof_start_v3_counter_alloc)
  else
    (-EINVAL, offset)

/-- The function `get_perfmon_cmd_start_offsetofvar_v2(field, offset)`, the same
with `struct pmu_perfmon_cmd_start_v2`. -/
def get_perfmon_cmd_start_offsetofvar_v2 (d : perfmon_cmd_decls) (field : Int)
    (offset : Nat) : Int × Nat :=
  let status : Int := 0
  if field = d.COUNTER_ALLOC then
    (status, U32 d.offsetof_start_v2_counter_alloc)
  else
    (-EINVAL, offset)

/-- The function `get_perfmon_cmd_start_offsetofvar_v1(field, offset)`, the same
with `struct pmu_perfmon_cmd_start_v1`. -/
def get_perfmon_cmd_start_offsetofvar_v1 (d : perfmon_cmd_decls) (field : Int)
    (offset : Nat) : Int × Nat :=
  let status : Int := 0
  if field = d.COUNTER_ALLOC then
    (status, U32 d.offsetof_start_v1_counter_alloc)
  else
    (-EINVAL, offset)

/-- The function `get_perfmon_cmd_init_offsetofvar_v3(field, offset)`, the same with
`struct pmu_perfmon_cmd_init_v3`. -/
def get_perfmon_cmd_init_offsetofvar_v3 (d : perfmon_cmd_decls) (field : Int)
    (offset : Nat) : Int × Nat :=
  let status : Int := 0
  if field = d.COUNTER_ALLOC then
    (status, U32 d.offsetof_init_v3_counter_alloc)
  else
    (-EINVAL, offset)

/-- The function `get_perfmon_cmd_init_offsetofvar_v2(field, offset)`, the same with
`struct pmu_perfmon_cmd_init_v2`. -/
def get_perfmon_cmd_init_offsetofvar_v2 (d : perfmon_cmd_decls) (field : Int)
    (offset : Nat) : Int × Nat :=
  let status : Int := 0
  if field = d.COUNTER_ALLOC then
    (status, U32 d.offsetof_init_v2_counter_alloc)
  else
    (-EINVAL, offset)

/-- The function `get_perfmon_cmd_init_offsetofvar_v1(field, offset)`, the same with
`struct pmu_perfmon_cmd_init_v1`. -/
def get_perfmon_cmd_init_offsetofvar_v1 (d : perfmon_cmd_decls) (field : Int)
    (offset : Nat) : Int × Nat :=
  let status : Int := 0
  if field = d.COUNTER_ALLOC then
    (status, U32 d.offsetof_init_v1_counter_alloc)
  else
    (-EINVAL, offset)

/-- Offsets that fit the `u32` cell `*offset`, as every offset inside a command
struct does. -/
def perfmon_cmd_decls.fits (d : perfmon_cmd_decls) : Prop :=
  d.offsetof_start_v1_counter_alloc < 2 ^ 32 ∧ d.offsetof_start_v2_counter_alloc < 2 ^ 32 ∧
  d.offsetof_start_v3_counter_alloc < 2 ^ 32 ∧ d.offsetof_init_v1_counter_alloc < 2 ^ 32 ∧
  d.offsetof_init_v2_counter_alloc < 2 ^ 32 ∧ d.offsetof_init_v3_counter_alloc < 2 ^ 32

/-- A sample of the declarations: `COUNTER_ALLOC = 0`, start offsets 4, init
offsets 8. -/
def perfmon_cmd_decls_sample : perfmon_cmd_decls :=
  { COUNTER_ALLOC := 0,
    offsetof_start_v1_counter_alloc := 4,
    offsetof_start_v2_counter_alloc := 4,
    offsetof_start_v3_counter_alloc := 4,
    offsetof_init_v1_counter_alloc := 8,
    offsetof_init_v2_counter_alloc := 8,
    offsetof_init_v3_counter_alloc := 8 }

/-- The five locks in the order in which `nvgpu_early_init_pmu_sw` initialises
them. -/
def pmu_mutex_order : List pmu_mutex :=
  [.elpg_mutex, .pg_mutex, .isr_mutex, .pmu_copy_lock, .pmu_seq_lock]

/-- Collaborators of `nvgpu_early_init_pmu_sw` on supported hardware whose third
lock initialisation, that of `isr_mutex`, fails with `-12`; every blob is found. -/
def pmu_init_env_isr_fails : pmu_init_env :=
  { is_pmu_supported := true,
    nvgpu_mutex_init := fun m => if m = .isr_mutex then -12 else 0,
    nvgpu_request_firmware := firmware_store_sample,
    PMU_DOMAIN_GROUP_PSTATE := 0 }

/-- Collaborators of `nvgpu_early_init_pmu_sw` on supported hardware whose lock
initialisations succeed and whose loader finds no signature blob. -/
def pmu_init_env_no_sig : pmu_init_env :=
  { is_pmu_supported := true,
    nvgpu_mutex_init := fun _ => 0,
    nvgpu_request_firmware := firmware_store_no_sig,
    PMU_DOMAIN_GROUP_PSTATE := 0 }

/-! ## Theorems -/

/-! ### Arithmetic helpers -/

theorem U8_of_lt {n : Nat} (h : n < 2 ^ 8) : U8 n = n := Nat.mod_eq_of_lt h

theorem U16_of_lt {n : Nat} (h : n < 2 ^ 16) : U16 n = n := Nat.mod_eq_of_lt h

theorem U32_of_lt {n : Nat} (h : n < 2 ^ 32) : U32 n = n := Nat.mod_eq_of_lt h

/-- An index shifted left by 24 and OR-ed over a word below `2^24` adds up. -/
theorem or_shiftLeft_24 (s i : Nat) (hs : s < 2 ^ 24) :
    s ||| (i <<< 24) = s + i * 2 ^ 24 := by
  rw [Nat.shiftLeft_eq, Nat.or_comm, Nat.mul_comm i, ← Nat.mul_add_lt_is_or hs i]
  omega

/-! ### Engine-buffer-load accessors -/

/-- C6: the version 0 `set_dma_base` stores exactly `x >> 8`, that is `x / 256` rounded
down, in `dma_base` for every 32-bit `x`, and leaves every other field of the
command as it was. -/
theorem pg_cmd_eng_buf_load_set_dma_base_v0_shift (pg : pmu_pg_cmd_eng_buf_load_v0)
    (x : Nat) (hx : x < 2 ^ 32) :
    pg_cmd_eng_buf_load_set_dma_base_v0 pg x = { pg with dma_base := x >>> 8 } ∧
      (pg_cmd_eng_buf_load_set_dma_base_v0 pg x).dma_base = x / 256 := by
  simp [pg_cmd_eng_buf_load_set_dma_base_v0, U32_of_lt hx, Nat.shiftRight_eq_div_pow]

theorem pg_cmd_eng_buf_load_set_dma_base_v0_shift_witness :
    (305419896 : Nat) < 2 ^ 32 ∧
    (pg_cmd_eng_buf_load_set_dma_base_v0 ⟨1, 2, 3, 4, 5, 6, 7, 8⟩ 305419896
        = { (⟨1, 2, 3, 4, 5, 6, 7, 8⟩ : pmu_pg_cmd_eng_buf_load_v0) with
            dma_base := 305419896 >>> 8 } ∧
      (pg_cmd_eng_buf_load_set_dma_base_v0 ⟨1, 2, 3, 4, 5, 6, 7, 8⟩ 305419896).dma_base
        = 305419896 / 256) :=
  ⟨by decide, pg_cmd_eng_buf_load_set_dma_base_v0_shift _ 305419896 (by decide)⟩

/-- The version 1 `set_dma_base` on a zeroed command keeps both halves of a 32-bit
address apart: the low word is `x`, the high word is the (zero) high half. -/
theorem pg_cmd_eng_buf_load_set_dma_base_v1_zero (x : Nat) (hx : x < 2 ^ 32) :
    (pg_cmd_eng_buf_load_set_dma_base_v1 eng_buf_load_v1_zero x).dma_desc.dma_addr
      = { lo := u64_lo32 x, hi := u64_hi32 x } := by
  simp only [pg_cmd_eng_buf_load_set_dma_base_v1, eng_buf_load_v1_zero, U32_of_lt hx,
    Nat.zero_or, u64_lo32, u64_hi32, U32]
  congr 1 <;> omega

/-- C7: at the address `0x12345600` the version 2 `set_dma_base`, run on a zeroed
command, leaves `0x12345600` in the high address word, where the high 32 bits of
the address are `0`. -/
theorem pg_cmd_eng_buf_load_set_dma_base_v2_hi_is_lo :
    (pg_cmd_eng_buf_load_set_dma_base_v2 eng_buf_load_v2_zero 0x12345600).dma_desc.address.hi
        = 0x12345600 ∧
      u64_hi32 0x12345600 = 0 ∧
      (pg_cmd_eng_buf_load_set_dma_base_v2 eng_buf_load_v2_zero 0x12345600).dma_desc.address.hi
        ≠ u64_hi32 0x12345600 := by
  decide

/-- C8: the version 2 `set_dma_base` overwrites both `address.lo` and `address.hi`
with the low 32 bits of its argument, whatever the two words held before, and
changes nothing else in the command. -/
theorem pg_cmd_eng_buf_load_set_dma_base_v2_both (pg : pmu_pg_cmd_eng_buf_load_v2)
    (x : Nat) :
    (pg_cmd_eng_buf_load_set_dma_base_v2 pg x).dma_desc.address.lo = x % 2 ^ 32 ∧
      (pg_cmd_eng_buf_load_set_dma_base_v2 pg x).dma_desc.address.hi = x % 2 ^ 32 ∧
      pg_cmd_eng_buf_load_set_dma_base_v2 pg x
        = { pg with dma_desc := { pg.dma_desc with
              address := { lo := x % 2 ^ 32, hi := x % 2 ^ 32 } } } := by
  simp [pg_cmd_eng_buf_load_set_dma_base_v2, u64_lo32, U32]

/-- C9: version 2 `set_buf_size(s)` followed by `set_dma_idx(i)` leaves
`params = s + i * 2^24` for every 16-bit `s` and 8-bit `i`: bits 31..24 are `i`,
bits 15..0 are `s`, bits 23..16 are zero. -/
theorem pg_cmd_eng_buf_load_v2_params_packing (pg : pmu_pg_cmd_eng_buf_load_v2)
    (s i : Nat) (hs : s < 2 ^ 16) (hi : i < 2 ^ 8) :
    (pg_cmd_eng_buf_load_set_dma_idx_v2
        (pg_cmd_eng_buf_load_set_buf_size_v2 pg s) i).dma_desc.params = s + i * 2 ^ 24 ∧
      (s + i * 2 ^ 24) / 2 ^ 24 = i ∧
      (s + i * 2 ^ 24) % 2 ^ 16 = s ∧
      ((s + i * 2 ^ 24) / 2 ^ 16) % 2 ^ 8 = 0 := by
  have hs24 : s < 2 ^ 24 := by omega
  have h24 : U32 24 = 24 := by decide
  have hsh : i <<< 24 = i * 2 ^ 24 := Nat.shiftLeft_eq i 24
  have hU : U32 (i <<< 24) = i <<< 24 := by
    apply U32_of_lt; rw [hsh]; omega
  have hor : s ||| (i <<< 24) = s + i * 2 ^ 24 := or_shiftLeft_24 s i hs24
  have hfin : U32 (s + i * 2 ^ 24) = s + i * 2 ^ 24 := by
    apply U32_of_lt; omega
  refine ⟨?_, by omega, by omega, by omega⟩
  simp only [pg_cmd_eng_buf_load_set_dma_idx_v2, pg_cmd_eng_buf_load_set_buf_size_v2,
    U16_of_lt hs, U8_of_lt hi, h24, U32_of_lt (show i < 2 ^ 32 by omega), hU, hor, hfin]

theorem pg_cmd_eng_buf_load_v2_params_packing_witness :
    (4660 : Nat) < 2 ^ 16 ∧ (171 : Nat) < 2 ^ 8 ∧
    ((pg_cmd_eng_buf_load_set_dma_idx_v2
        (pg_cmd_eng_buf_load_set_buf_size_v2 eng_buf_load_v2_zero 4660) 171).dma_desc.params
        = 4660 + 171 * 2 ^ 24 ∧
      (4660 + 171 * 2 ^ 24) / 2 ^ 24 = 171 ∧
      (4660 + 171 * 2 ^ 24) % 2 ^ 16 = 4660 ∧
      ((4660 + 171 * 2 ^ 24) / 2 ^ 16) % 2 ^ 8 = 0) :=
  ⟨by decide, by decide,
    pg_cmd_eng_buf_load_v2_params_packing eng_buf_load_v2_zero 4660 171 (by decide) (by decide)⟩

/-! ### Get/set round trips -/

/-- C10: every get/set pair round-trips in every version.  For allocation records
v1, v2, v3 `get_dmem_size` after `set_dmem_size(s)` returns `s` and `get_dmem_offset`
after `set_dmem_offset(o)` returns `o`; for perfmon start commands v1, v2, v3
`get_flags` after `set_flags(f)` returns `f`; and setting one of these fields (or
another field of the start command) leaves what the other getter returns unchanged. -/
theorem accessor_round_trip (a1 : pmu_allocation_v1) (a2 : pmu_allocation_v2)
    (a3 : pmu_allocation_v3) (p1 : pmu_perfmon_cmd_start_v1) (p2 : pmu_perfmon_cmd_start_v2)
    (p3 : pmu_perfmon_cmd_start_v3) (s o f v : Nat)
    (hs : s < 2 ^ 16) (ho : o < 2 ^ 32) (hf : f < 2 ^ 8) :
    (pmu_allocation_get_dmem_size_v1 (pmu_allocation_set_dmem_size_v1 a1 s) = s ∧
      pmu_allocation_get_dmem_size_v2 (pmu_allocation_set_dmem_size_v2 a2 s) = s ∧
      pmu_allocation_get_dmem_size_v3 (pmu_allocation_set_dmem_size_v3 a3 s) = s) ∧
    (pmu_allocation_get_dmem_offset_v1 (pmu_allocation_set_dmem_offset_v1 a1 o) = o ∧
      pmu_allocation_get_dmem_offset_v2 (pmu_allocation_set_dmem_offset_v2 a2 o) = o ∧
      pmu_allocation_get_dmem_offset_v3 (pmu_allocation_set_dmem_offset_v3 a3 o) = o) ∧
    (perfmon_start_get_flags_v1 (perfmon_start_set_flags_v1 p1 f) = f ∧
      perfmon_start_get_flags_v2 (perfmon_start_set_flags_v2 p2 f) = f ∧
      perfmon_start_get_flags_v3 (perfmon_start_set_flags_v3 p3 f) = f) ∧
    (pmu_allocation_get_dmem_offset_v1 (pmu_allocation_set_dmem_size_v1 a1 s)
        = pmu_allocation_get_dmem_offset_v1 a1 ∧
      pmu_allocation_get_dmem_offset_v2 (pmu_allocation_set_dmem_size_v2 a2 s)
        = pmu_allocation_get_dmem_offset_v2 a2 ∧
      pmu_allocation_get_dmem_offset_v3 (pmu_allocation_set_dmem_size_v3 a3 s)
        = pmu_allocation_get_dmem_offset_v3 a3) ∧
    (pmu_allocation_get_dmem_size_v1 (pmu_allocation_set_dmem_offset_v1 a1 o)
        = pmu_allocation_get_dmem_size_v1 a1 ∧
      pmu_allocation_get_dmem_size_v2 (pmu_allocation_set_dmem_offset_v2 a2 o)
        = pmu_allocation_get_dmem_size_v2 a2 ∧
      pmu_allocation_get_dmem_size_v3 (pmu_allocation_set_dmem_offset_v3 a3 o)
        = pmu_allocation_get_dmem_size_v3 a3) ∧
    (perfmon_start_get_flags_v1 (perfmon_start_set_cmd_type_v1 p1 v)
        = perfmon_start_get_flags_v1 p1 ∧
      perfmon_start_get_flags_v1 (perfmon_start_set_group_id_v1 p1 v)
        = perfmon_start_get_flags_v1 p1 ∧
      perfmon_start_get_flags_v1 (perfmon_start_set_state_id_v1 p1 v)
        = perfmon_start_get_flags_v1 p1 ∧
      perfmon_start_get_flags_v2 (perfmon_start_set_cmd_type_v2 p2 v)
        = perfmon_start_get_flags_v2 p2 ∧
      perfmon_start_get_flags_v2 (perfmon_start_set_group_id_v2 p2 v)
        = perfmon_start_get_flags_v2 p2 ∧
      perfmon_start_get_flags_v2 (perfmon_start_set_state_id_v2 p2 v)
        = perfmon_start_get_flags_v2 p2 ∧
      perfmon_start_get_flags_v3 (perfmon_start_set_cmd_type_v3 p3 v)
        = perfmon_start_get_flags_v3 p3 ∧
      perfmon_start_get_flags_v3 (perfmon_start_set_group_id_v3 p3 v)
        = perfmon_start_get_flags_v3 p3 ∧
      perfmon_start_get_flags_v3 (perfmon_start_set_state_id_v3 p3 v)
        = perfmon_start_get_flags_v3 p3) := by
  refine ⟨⟨?_, ?_, ?_⟩, ⟨?_, ?_, ?_⟩, ⟨?_, ?_, ?_⟩, ⟨rfl, rfl, rfl⟩, ⟨rfl, rfl, rfl⟩,
    ⟨rfl, rfl, rfl, rfl, rfl, rfl, rfl, rfl, rfl⟩⟩
  · exact U16_of_lt hs
  · exact U16_of_lt hs
  · exact U16_of_lt hs
  · exact U32_of_lt ho
  · exact U32_of_lt ho
  · exact U32_of_lt ho
  · exact U8_of_lt hf
  · exact U8_of_lt hf
  · exact U8_of_lt hf

theorem accessor_round_trip_witness :
    (4660 : Nat) < 2 ^ 16 ∧ (305419896 : Nat) < 2 ^ 32 ∧ (171 : Nat) < 2 ^ 8 ∧
    pmu_allocation_get_dmem_size_v1
        (pmu_allocation_set_dmem_size_v1 ⟨⟨⟨1, 2⟩, [3]⟩⟩ 4660) = 4660 ∧
    pmu_allocation_get_dmem_offset_v3
        (pmu_allocation_set_dmem_offset_v3 ⟨⟨⟨1, 2⟩, [3]⟩⟩ 305419896) = 305419896 ∧
    perfmon_start_get_flags_v2
        (perfmon_start_set_flags_v2 ⟨1, 2, 3, 4, ⟨⟨⟨5, 6⟩, [7]⟩⟩⟩ 171) = 171 ∧
    pmu_allocation_get_dmem_offset_v2
        (pmu_allocation_set_dmem_size_v2 ⟨⟨⟨1, 2⟩, [3]⟩⟩ 4660) = 2 :=
  have h := accessor_round_trip ⟨⟨⟨1, 2⟩, [3]⟩⟩ ⟨⟨⟨1, 2⟩, [3]⟩⟩ ⟨⟨⟨1, 2⟩, [3]⟩⟩
    ⟨1, 2, 3, 4, ⟨⟨⟨5, 6⟩, [7]⟩⟩⟩ ⟨1, 2, 3, 4, ⟨⟨⟨5, 6⟩, [7]⟩⟩⟩ ⟨1, 2, 3, 4, ⟨⟨⟨5, 6⟩, [7]⟩⟩⟩
    4660 305419896 171 9 (by decide) (by decide) (by decide)
  ⟨by decide, by decide, by decide, h.1.1, h.2.1.2.2, h.2.2.1.2.1, h.2.2.2.1.2.1⟩

/-! ### Version selection -/

/-- On a supported tag the switch installs the version 2 counter accessors before the
two pinning calls, so the call returns `0` from every starting state, with the
index pinned to `3` and the group id to `PMU_DOMAIN_GROUP_PSTATE`. -/
theorem init_pmu_fw_ver_ops_supported (G : Nat) (g : gk20a) (tag : Nat)
    (h : supported_app_version tag) :
    init_pmu_fw_ver_ops G g tag =
      some ({ (init_pmu_fw_ver_ops_switch g tag).1 with
                pmu := set_perfmon_cntr_group_id_v2 (set_perfmon_cntr_index_v2 g.pmu 3) G },
            0) := by
  rcases h with rfl | rfl | rfl | rfl | rfl | rfl <;> rfl

/-- On an unsupported tag the switch takes `default:`: the device is untouched and
`err` is `-EINVAL`. -/
theorem init_pmu_fw_ver_ops_switch_unsupported (g : gk20a) (tag : Nat)
    (h : ¬ supported_app_version tag) :
    init_pmu_fw_ver_ops_switch g tag = (g, -EINVAL) := by
  unfold supported_app_version at h
  unfold init_pmu_fw_ver_ops_switch
  simp only [not_or] at h
  obtain ⟨h1, h2, h3, h4, h5, h6⟩ := h
  simp [h1, h2, h3, h4, h5, h6]

/-- C1: from a zero-allocated device (empty dispatch table) and the unknown tag `0`
the call does not return `-EINVAL`: after `default:` it calls
`pv->set_perfmon_cntr_index`, which is `NULL`. -/
theorem init_pmu_fw_ver_ops_zero_tag_on_empty_table (G : Nat) :
    ¬ supported_app_version 0 ∧
      (init_pmu_fw_ver_ops_switch gk20a_zero 0).2 = -EINVAL ∧
      (init_pmu_fw_ver_ops_switch gk20a_zero 0).1.ops.pmu_ver.set_perfmon_cntr_index = none ∧
      init_pmu_fw_ver_ops G gk20a_zero 0 = none :=
  ⟨by decide, rfl, rfl, rfl⟩

/-- The call returns `0` exactly on the six supported tags. -/
theorem init_pmu_fw_ver_ops_returns_zero_iff (G : Nat) (g : gk20a) (tag : Nat) :
    (∃ r, init_pmu_fw_ver_ops G g tag = some (r, 0)) ↔ supported_app_version tag := by
  constructor
  · rintro ⟨r, hr⟩
    by_contra hn
    have hsw := init_pmu_fw_ver_ops_switch_unsupported g tag hn
    unfold init_pmu_fw_ver_ops at hr
    rw [hsw] at hr
    simp only at hr
    split at hr
    · exact Option.noConfusion hr
    · split at hr
      · exact Option.noConfusion hr
      · have h2 := congrArg (fun o => o.map Prod.snd) hr
        simp [EINVAL] at h2
  · intro h
    exact ⟨_, init_pmu_fw_ver_ops_supported G g tag h⟩

/-- Whenever the call returns on an unsupported tag, it returns `-EINVAL` and the
dispatch table and the ZBC settings are as they were. -/
theorem init_pmu_fw_ver_ops_unsupported_frame (G : Nat) (g r : gk20a) (tag : Nat) (e : Int)
    (h : ¬ supported_app_version tag) (hr : init_pmu_fw_ver_ops G g tag = some (r, e)) :
    e = -EINVAL ∧ r.ops.pmu_ver = g.ops.pmu_ver ∧
      r.pmu_ver_cmd_id_zbc_table_update = g.pmu_ver_cmd_id_zbc_table_update ∧
      r.enabled_flags = g.enabled_flags := by
  have hsw := init_pmu_fw_ver_ops_switch_unsupported g tag h
  unfold init_pmu_fw_ver_ops at hr
  rw [hsw] at hr
  simp only at hr
  split at hr
  · exact Option.noConfusion hr
  · split at hr
    · exact Option.noConfusion hr
    · injection hr with hr
      injection hr with h1 h2
      subst h1 h2
      exact ⟨rfl, rfl, rfl, rfl⟩

/-- C2: on an unsupported tag and a dispatch table whose `set_perfmon_cntr_index`
entry is `NULL` (the empty table of a fresh device among them) the call does not
return `UnsupportedVersion`: it calls through the `NULL` entry. -/
theorem init_pmu_fw_ver_ops_unsupported_null_entry (G : Nat) (g : gk20a) (tag : Nat)
    (h : ¬ supported_app_version tag)
    (hnull : g.ops.pmu_ver.set_perfmon_cntr_index = none) :
    init_pmu_fw_ver_ops G g tag = none := by
  have hsw := init_pmu_fw_ver_ops_switch_unsupported g tag h
  unfold init_pmu_fw_ver_ops
  rw [hsw]
  simp only [hnull, call_pmu_u8]

theorem init_pmu_fw_ver_ops_unsupported_null_entry_witness :
    ¬ supported_app_version 4294967295 ∧
      gk20a_zero.ops.pmu_ver.set_perfmon_cntr_index = none ∧
      init_pmu_fw_ver_ops 0 gk20a_zero 4294967295 = none :=
  ⟨by decide, rfl,
    init_pmu_fw_ver_ops_unsupported_null_entry 0 gk20a_zero 4294967295 (by decide) rfl⟩

/-- C3 (as stated, refuted): selecting GP10B on an empty table and selecting GP10B
on the table left by a selection of GV11B give different tables; the entry
`pmu_allocation_get_fb_addr`, which the GP10B case does not assign, is `NULL` in
the first and the version 3 accessor in the second. -/
theorem init_pmu_fw_ver_ops_depends_on_start_table :
    ∃ g1 r1 r2 : gk20a,
      init_pmu_fw_ver_ops 0 gk20a_zero APP_VERSION_GV11B = some (g1, 0) ∧
      init_pmu_fw_ver_ops 0 gk20a_zero APP_VERSION_GP10B = some (r1, 0) ∧
      init_pmu_fw_ver_ops 0 g1 APP_VERSION_GP10B = some (r2, 0) ∧
      r1.ops.pmu_ver.pmu_allocation_get_fb_addr = none ∧
      r2.ops.pmu_ver.pmu_allocation_get_fb_addr = some .pmu_allocation_get_fb_addr_v3 ∧
      r1.ops.pmu_ver ≠ r2.ops.pmu_ver := by
  refine ⟨_, _, _, init_pmu_fw_ver_ops_supported 0 _ _ (by decide),
    init_pmu_fw_ver_ops_supported 0 _ _ (by decide),
    init_pmu_fw_ver_ops_supported 0 _ _ (by decide), rfl, rfl, ?_⟩
  intro hEq
  have h2 := congrArg pmu_v.pmu_allocation_get_fb_addr hEq
  exact Option.noConfusion h2

/-- C3 (amended): for every supported tag, each entry of the table after the
selection either is fixed by the tag alone (equal from any two starting states) or is
not assigned by the tag and keeps its starting value; GV10X and TU10X assign every
entry, so for them any two starting states give equal tables. -/
theorem init_pmu_fw_ver_ops_entry_determined (G tag : Nat)
    (h : supported_app_version tag) :
    (∀ s : pmu_slot,
      (∀ g1 g2 r1 r2 : gk20a, ∀ e1 e2 : Int,
          init_pmu_fw_ver_ops G g1 tag = some (r1, e1) →
          init_pmu_fw_ver_ops G g2 tag = some (r2, e2) →
          r1.ops.pmu_ver.entry s = r2.ops.pmu_ver.entry s) ∨
      (∀ g r : gk20a, ∀ e : Int,
          init_pmu_fw_ver_ops G g tag = some (r, e) →
          r.ops.pmu_ver.entry s = g.ops.pmu_ver.entry s)) ∧
    (tag = APP_VERSION_GV10X ∨ tag = APP_VERSION_TU10X →
      ∀ g1 g2 r1 r2 : gk20a, ∀ e1 e2 : Int,
          init_pmu_fw_ver_ops G g1 tag = some (r1, e1) →
          init_pmu_fw_ver_ops G g2 tag = some (r2, e2) →
          r1.ops.pmu_ver = r2.ops.pmu_ver) := by
  constructor
  · intro s
    rcases h with rfl | rfl | rfl | rfl | rfl | rfl <;> cases s <;>
      first
      | (left
         intro g1 g2 r1 r2 e1 e2 h1 h2
         rw [init_pmu_fw_ver_ops_supported _ _ _ (by decide)] at h1 h2
         cases h1
         cases h2
         rfl)
      | (right
         intro g r e h1
         rw [init_pmu_fw_ver_ops_supported _ _ _ (by decide)] at h1
         cases h1
         rfl)
  · intro ht g1 g2 r1 r2 e1 e2 h1 h2
    rw [init_pmu_fw_ver_ops_supported _ _ _ h] at h1 h2
    cases h1
    cases h2
    rcases ht with rfl | rfl <;> rfl

theorem init_pmu_fw_ver_ops_entry_determined_witness :
    supported_app_version APP_VERSION_GP10B ∧
    ((∀ s : pmu_slot,
      (∀ g1 g2 r1 r2 : gk20a, ∀ e1 e2 : Int,
          init_pmu_fw_ver_ops 0 g1 APP_VERSION_GP10B = some (r1, e1) →
          init_pmu_fw_ver_ops 0 g2 APP_VERSION_GP10B = some (r2, e2) →
          r1.ops.pmu_ver.entry s = r2.ops.pmu_ver.entry s) ∨
      (∀ g r : gk20a, ∀ e : Int,
          init_pmu_fw_ver_ops 0 g APP_VERSION_GP10B = some (r, e) →
          r.ops.pmu_ver.entry s = g.ops.pmu_ver.entry s)) ∧
    (APP_VERSION_GP10B = APP_VERSION_GV10X ∨ APP_VERSION_GP10B = APP_VERSION_TU10X →
      ∀ g1 g2 r1 r2 : gk20a, ∀ e1 e2 : Int,
          init_pmu_fw_ver_ops 0 g1 APP_VERSION_GP10B = some (r1, e1) →
          init_pmu_fw_ver_ops 0 g2 APP_VERSION_GP10B = some (r2, e2) →
          r1.ops.pmu_ver = r2.ops.pmu_ver)) :=
  ⟨by decide, init_pmu_fw_ver_ops_entry_determined 0 APP_VERSION_GP10B (by decide)⟩

/-- C4: selection is idempotent.  For every supported tag and every starting state
the first call returns `0` with some state `g1`, and a second call with the same tag
from `g1` returns `0` with the state `g1` again: same dispatch table, same pinned
counter fields, same ZBC settings. -/
theorem init_pmu_fw_ver_ops_idempotent (G tag : Nat) (h : supported_app_version tag)
    (g : gk20a) :
    ∃ g1 : gk20a,
      init_pmu_fw_ver_ops G g tag = some (g1, 0) ∧
      init_pmu_fw_ver_ops G g1 tag = some (g1, 0) := by
  refine ⟨_, init_pmu_fw_ver_ops_supported G g tag h, ?_⟩
  rw [init_pmu_fw_ver_ops_supported G _ tag h]
  rcases h with rfl | rfl | rfl | rfl | rfl | rfl <;> rfl

theorem init_pmu_fw_ver_ops_idempotent_witness :
    supported_app_version APP_VERSION_TU10X ∧
    ∃ g1 : gk20a,
      init_pmu_fw_ver_ops 0 gk20a_zero APP_VERSION_TU10X = some (g1, 0) ∧
      init_pmu_fw_ver_ops 0 g1 APP_VERSION_TU10X = some (g1, 0) :=
  ⟨by decide, init_pmu_fw_ver_ops_idempotent 0 APP_VERSION_TU10X (by decide) gk20a_zero⟩

/-- C5: for every one of the six supported tags the call returns `0` and leaves the
perfmon counter record with `index = 3` and `group_id = PMU_DOMAIN_GROUP_PSTATE`
(a `u8` constant), whatever the two fields held before; the values do not depend
on the tag. -/
theorem init_pmu_fw_ver_ops_pins_counter (G tag : Nat) (hG : G < 2 ^ 8)
    (h : supported_app_version tag) (g : gk20a) :
    ∃ r : gk20a,
      init_pmu_fw_ver_ops G g tag = some (r, 0) ∧
      r.pmu.perfmon_counter_v2.index = 3 ∧
      r.pmu.perfmon_counter_v2.group_id = G := by
  refine ⟨_, init_pmu_fw_ver_ops_supported G g tag h, rfl, ?_⟩
  exact U8_of_lt hG

theorem init_pmu_fw_ver_ops_pins_counter_witness :
    (0 : Nat) < 2 ^ 8 ∧ supported_app_version APP_VERSION_GM20B ∧
    ∃ r : gk20a,
      init_pmu_fw_ver_ops 0
          { gk20a_zero with
            pmu := { nvgpu_pmu_zero with perfmon_counter_v2 := ⟨7, 9, 1, 2, 3⟩ } }
          APP_VERSION_GM20B = some (r, 0) ∧
      r.pmu.perfmon_counter_v2.index = 3 ∧
      r.pmu.perfmon_counter_v2.group_id = 0 :=
  ⟨by decide, by decide,
    init_pmu_fw_ver_ops_pins_counter 0 APP_VERSION_GM20B (by decide) (by decide) _⟩

/-! ### Command-line argument setters -/

/-- C11 (as stated, refuted): the version 5 setter called with the frequency `1`
leaves `cpu_freq_hz = 204000000`, not `1`. -/
theorem set_pmu_cmdline_args_cpufreq_v5_ignores_freq :
    (set_pmu_cmdline_args_cpufreq_v5 nvgpu_pmu_zero 1).args_v5.cpu_freq_hz = 204000000 ∧
      (set_pmu_cmdline_args_cpufreq_v5 nvgpu_pmu_zero 1).args_v5.cpu_freq_hz ≠ 1 := by
  decide

/-- C11 (amended): for versions 3 and 4 and every 32-bit frequency `f` the setter
leaves `cpu_freq_hz = f` in that version's argument block; the version 5 setter
leaves `cpu_freq_hz = 204000000` whatever `f` is. -/
theorem set_pmu_cmdline_args_cpufreq_spec (pmu : nvgpu_pmu) (f : Nat) (hf : f < 2 ^ 32) :
    (set_pmu_cmdline_args_cpufreq_v3 pmu f).args_v3.cpu_freq_hz = f ∧
      (set_pmu_cmdline_args_cpufreq_v4 pmu f).args_v4.cpu_freq_hz = f ∧
      (set_pmu_cmdline_args_cpufreq_v5 pmu f).args_v5.cpu_freq_hz = 204000000 :=
  ⟨U32_of_lt hf, U32_of_lt hf, rfl⟩

theorem set_pmu_cmdline_args_cpufreq_spec_witness :
    (408000000 : Nat) < 2 ^ 32 ∧
    ((set_pmu_cmdline_args_cpufreq_v3 nvgpu_pmu_zero 408000000).args_v3.cpu_freq_hz
        = 408000000 ∧
      (set_pmu_cmdline_args_cpufreq_v4 nvgpu_pmu_zero 408000000).args_v4.cpu_freq_hz
        = 408000000 ∧
      (set_pmu_cmdline_args_cpufreq_v5 nvgpu_pmu_zero 408000000).args_v5.cpu_freq_hz
        = 204000000) :=
  ⟨by decide, set_pmu_cmdline_args_cpufreq_spec nvgpu_pmu_zero 408000000 (by decide)⟩

/-! ### Init-message queue parameters -/

/-- The loop adds up the first `k` rows of the size table, modulo `2^32`. -/
theorem queue_params_current_ptr_eq (qs : List Nat) (k : Nat) (hk : k ≤ qs.length) :
    queue_params_current_ptr qs k = some (U32 (qs.take k).sum) := by
  induction k with
  | zero => simp [queue_params_current_ptr, U32]
  | succ n ih =>
    have hn : n < qs.length := hk
    rw [queue_params_current_ptr, ih (Nat.le_of_lt hn), List.getElem?_eq_getElem hn,
      List.sum_take_succ qs n hn]
    simp only [U32, Nat.mod_add_mod]

/-- The shared tail on a row `k` that holds `ix` and `sz`, when nothing wraps. -/
theorem queue_params_of_row_eq (qi qs : List Nat) (qo k ix sz : Nat)
    (hix : qi[k]? = some ix) (hsz : qs[k]? = some sz)
    (hfit : ix < 2 ^ 32) (hsum : qo + (qs.take (k + 1)).sum < 2 ^ 32) :
    queue_params_of_row qi qs qo k
      = some { index := ix, offset := qo + (qs.take k).sum, size := sz } := by
  obtain ⟨hk, hget⟩ := List.getElem?_eq_some.mp hsz
  have hs := List.sum_take_succ qs k hk
  rw [hget] at hs
  have hcur : (if k ≠ 0 then queue_params_current_ptr qs k else some 0)
      = some (U32 (qs.take k).sum) := by
    by_cases h0 : k = 0
    · subst h0; simp [U32]
    · simp only [h0, ne_eq, not_false_eq_true, if_true]
      exact queue_params_current_ptr_eq qs k (Nat.le_of_lt hk)
  unfold queue_params_of_row
  rw [hix, hsz, hcur]
  have e1 : U32 ix = ix := U32_of_lt hfit
  have e2 : U32 sz = sz := U32_of_lt (by omega)
  have e3 : U32 (qs.take k).sum = (qs.take k).sum := U32_of_lt (by omega)
  have e4 : U32 (qo + (qs.take k).sum) = qo + (qs.take k).sum := U32_of_lt (by omega)
  simp only [e1, e2, e3, e4]

/-- Exactly the three queue roles are mapped to a table row, in both versions. -/
theorem queue_params_row_isSome (c : pmu_queue_ids) (id : Nat) :
    ((queue_params_row_v3 c id).isSome ↔
        (id = c.PMU_COMMAND_QUEUE_HPQ ∨ id = c.PMU_COMMAND_QUEUE_LPQ ∨
          id = c.PMU_MESSAGE_QUEUE)) ∧
      ((queue_params_row_v5 c id).isSome ↔
        (id = c.PMU_COMMAND_QUEUE_HPQ ∨ id = c.PMU_COMMAND_QUEUE_LPQ ∨
          id = c.PMU_MESSAGE_QUEUE)) := by
  unfold queue_params_row_v3 queue_params_row_v5
  constructor <;> split_ifs <;> simp_all

/-- C12: for init-message versions 4 and 5 and a queue role `id` that the accessor
maps to table row `k` (`k4` in version 4, `k5` in version 5), the accessor returns
`index = queue_index[k]`, `size = queue_size[k]` and
`offset = queue_offset + (queue_size[0] + ... + queue_size[k-1])`; when `k = 0` the
offset is exactly `queue_offset`.  The row values are `u32` values and the `u32` sum
does not wrap. -/
theorem get_pmu_init_msg_pmu_queue_params_cumulative (c : pmu_queue_ids)
    (id k4 k5 ix4 sz4 ix5 sz5 : Nat) (i4 : pmu_init_msg_pmu_v4) (i5 : pmu_init_msg_pmu_v5)
    (out : pmu_queue_params)
    (hrow4 : queue_params_row_v3 c id = some k4)
    (hrow5 : queue_params_row_v5 c id = some k5)
    (hix4 : i4.queue_index[k4]? = some ix4) (hsz4 : i4.queue_size[k4]? = some sz4)
    (hfit4 : ix4 < 2 ^ 32)
    (hsum4 : i4.queue_offset + (i4.queue_size.take (k4 + 1)).sum < 2 ^ 32)
    (hix5 : i5.queue_index[k5]? = some ix5) (hsz5 : i5.queue_size[k5]? = some sz5)
    (hfit5 : ix5 < 2 ^ 32)
    (hsum5 : i5.queue_offset + (i5.queue_size.take (k5 + 1)).sum < 2 ^ 32) :
    (id = c.PMU_COMMAND_QUEUE_HPQ ∨ id = c.PMU_COMMAND_QUEUE_LPQ ∨
        id = c.PMU_MESSAGE_QUEUE) ∧
    get_pmu_init_msg_pmu_queue_params_v4 c id i4 out
      = some { index := ix4, offset := i4.queue_offset + (i4.queue_size.take k4).sum,
               size := sz4 } ∧
    get_pmu_init_msg_pmu_queue_params_v5 c id i5 out
      = some { index := ix5, offset := i5.queue_offset + (i5.queue_size.take k5).sum,
               size := sz5 } ∧
    (k4 = 0 → get_pmu_init_msg_pmu_queue_params_v4 c id i4 out
      = some { index := ix4, offset := i4.queue_offset, size := sz4 }) ∧
    (k5 = 0 → get_pmu_init_msg_pmu_queue_params_v5 c id i5 out
      = some { index := ix5, offset := i5.queue_offset, size := sz5 }) := by
  have hid := (queue_params_row_isSome c id).1.mp (by rw [hrow4]; rfl)
  have h4 : get_pmu_init_msg_pmu_queue_params_v4 c id i4 out
      = some { index := ix4, offset := i4.queue_offset + (i4.queue_size.take k4).sum,
               size := sz4 } := by
    unfold get_pmu_init_msg_pmu_queue_params_v4
    rw [hrow4]
    exact queue_params_of_row_eq _ _ _ _ _ _ hix4 hsz4 hfit4 hsum4
  have h5 : get_pmu_init_msg_pmu_queue_params_v5 c id i5 out
      = some { index := ix5, offset := i5.queue_offset + (i5.queue_size.take k5).sum,
               size := sz5 } := by
    unfold get_pmu_init_msg_pmu_queue_params_v5
    rw [hrow5]
    exact queue_params_of_row_eq _ _ _ _ _ _ hix5 hsz5 hfit5 hsum5
  refine ⟨hid, h4, h5, ?_, ?_⟩
  · intro h0
    rw [h4, h0]
    simp
  · intro h0
    rw [h5, h0]
    simp

theorem get_pmu_init_msg_pmu_queue_params_cumulative_witness :
    get_pmu_init_msg_pmu_queue_params_v4 pmu_queue_ids_sample 4
        ⟨[10, 11, 12, 13, 14], [256, 128, 64, 32, 16], 4096, 0, 0⟩ ⟨7, 7, 7⟩
      = some { index := 12, offset := 4096 + 384, size := 64 } ∧
    get_pmu_init_msg_pmu_queue_params_v5 pmu_queue_ids_sample 4
        ⟨[10, 11, 12, 13, 14], [256, 128, 64, 32, 16], 4096, 0, 0⟩ ⟨7, 7, 7⟩
      = some { index := 13, offset := 4096 + 448, size := 32 } :=
  have h := get_pmu_init_msg_pmu_queue_params_cumulative pmu_queue_ids_sample
    4 2 3 12 64 13 32
    ⟨[10, 11, 12, 13, 14], [256, 128, 64, 32, 16], 4096, 0, 0⟩
    ⟨[10, 11, 12, 13, 14], [256, 128, 64, 32, 16], 4096, 0, 0⟩ ⟨7, 7, 7⟩
    (by decide) (by decide) (by decide) (by decide) (by decide) (by decide)
    (by decide) (by decide) (by decide) (by decide)
  ⟨h.2.1, h.2.2.1⟩

/-- C13: on a version 4 and a version 5 record with equal `queue_offset`,
`queue_index` and `queue_size`, the two accessors return the same cells for the HPQ
and the LPQ role; for `PMU_MESSAGE_QUEUE` version 5 reads row
`PMU_QUEUE_MSG_IDX_FOR_V5` where version 4 reads row `PMU_QUEUE_MSG_IDX_FOR_V3`; and
that row is the only difference: for every `id`, version 5 is version 4 with the
message row replaced. -/
theorem get_pmu_init_msg_pmu_queue_params_v5_vs_v4 (c : pmu_queue_ids)
    (i4 : pmu_init_msg_pmu_v4) (i5 : pmu_init_msg_pmu_v5) (out : pmu_queue_params)
    (hqi : i5.queue_index = i4.queue_index) (hqs : i5.queue_size = i4.queue_size)
    (hqo : i5.queue_offset = i4.queue_offset)
    (hd1 : c.PMU_MESSAGE_QUEUE ≠ c.PMU_COMMAND_QUEUE_HPQ)
    (hd2 : c.PMU_MESSAGE_QUEUE ≠ c.PMU_COMMAND_QUEUE_LPQ) :
    (get_pmu_init_msg_pmu_queue_params_v5 c c.PMU_COMMAND_QUEUE_HPQ i5 out
        = get_pmu_init_msg_pmu_queue_params_v4 c c.PMU_COMMAND_QUEUE_HPQ i4 out) ∧
    (get_pmu_init_msg_pmu_queue_params_v5 c c.PMU_COMMAND_QUEUE_LPQ i5 out
        = get_pmu_init_msg_pmu_queue_params_v4 c c.PMU_COMMAND_QUEUE_LPQ i4 out) ∧
    (get_pmu_init_msg_pmu_queue_params_v5 c c.PMU_MESSAGE_QUEUE i5 out
        = queue_params_of_row i4.queue_index i4.queue_size i4.queue_offset
            c.PMU_QUEUE_MSG_IDX_FOR_V5) ∧
    (get_pmu_init_msg_pmu_queue_params_v4 c c.PMU_MESSAGE_QUEUE i4 out
        = queue_params_of_row i4.queue_index i4.queue_size i4.queue_offset
            c.PMU_QUEUE_MSG_IDX_FOR_V3) ∧
    (∀ id : Nat, get_pmu_init_msg_pmu_queue_params_v5 c id i5 out
        = get_pmu_init_msg_pmu_queue_params_v4
            { c with PMU_QUEUE_MSG_IDX_FOR_V3 := c.PMU_QUEUE_MSG_IDX_FOR_V5 } id i4 out) := by
  refine ⟨?_, ?_, ?_, ?_, ?_⟩
  · simp [get_pmu_init_msg_pmu_queue_params_v5, get_pmu_init_msg_pmu_queue_params_v4,
      queue_params_row_v3, queue_params_row_v5, hqi, hqs, hqo]
  · by_cases h : c.PMU_COMMAND_QUEUE_LPQ = c.PMU_COMMAND_QUEUE_HPQ <;>
      simp [get_pmu_init_msg_pmu_queue_params_v5, get_pmu_init_msg_pmu_queue_params_v4,
        queue_params_row_v3, queue_params_row_v5, hqi, hqs, hqo, h]
  · simp [get_pmu_init_msg_pmu_queue_params_v5, queue_params_row_v5, hqi, hqs, hqo, hd1, hd2]
  · simp [get_pmu_init_msg_pmu_queue_params_v4, queue_params_row_v3, hd1, hd2]
  · intro id
    simp only [get_pmu_init_msg_pmu_queue_params_v5, get_pmu_init_msg_pmu_queue_params_v4,
      queue_params_row_v3, queue_params_row_v5, hqi, hqs, hqo]

theorem get_pmu_init_msg_pmu_queue_params_v5_vs_v4_witness :
    get_pmu_init_msg_pmu_queue_params_v5 pmu_queue_ids_sample 1
        ⟨[10, 11, 12, 13, 14], [256, 128, 64, 32, 16], 4096, 1, 2⟩ ⟨7, 7, 7⟩
      = get_pmu_init_msg_pmu_queue_params_v4 pmu_queue_ids_sample 1
        ⟨[10, 11, 12, 13, 14], [256, 128, 64, 32, 16], 4096, 3, 4⟩ ⟨7, 7, 7⟩ ∧
    get_pmu_init_msg_pmu_queue_params_v5 pmu_queue_ids_sample 4
        ⟨[10, 11, 12, 13, 14], [256, 128, 64, 32, 16], 4096, 1, 2⟩ ⟨7, 7, 7⟩
      = queue_params_of_row [10, 11, 12, 13, 14] [256, 128, 64, 32, 16] 4096 3 ∧
    get_pmu_init_msg_pmu_queue_params_v4 pmu_queue_ids_sample 4
        ⟨[10, 11, 12, 13, 14], [256, 128, 64, 32, 16], 4096, 3, 4⟩ ⟨7, 7, 7⟩
      = queue_params_of_row [10, 11, 12, 13, 14] [256, 128, 64, 32, 16] 4096 2 :=
  have h := get_pmu_init_msg_pmu_queue_params_v5_vs_v4 pmu_queue_ids_sample
    ⟨[10, 11, 12, 13, 14], [256, 128, 64, 32, 16], 4096, 3, 4⟩
    ⟨[10, 11, 12, 13, 14], [256, 128, 64, 32, 16], 4096, 1, 2⟩ ⟨7, 7, 7⟩
    rfl rfl rfl (by decide) (by decide)
  ⟨h.2.1, h.2.2.1, h.2.2.2.1⟩

/-! ### Engine reset -/

/-- C14: Engine Enable with a scrub wait and an idle wait that both succeed returns
`0` and makes exactly the calls `reset_engine(true)`, SLCG load-enable, BLCG
load-enable, memory-scrub wait, wait-idle, in this order; `reset_engine(false)` is
not called and the engine is out of reset. -/
theorem pmu_enable_success (cfg : Bool) (flcn : pmu_falcon) (e : pmu_engine)
    (hscrub : flcn.mem_scrub_wait = 0) (hidle : flcn.wait_idle = 0) :
    pmu_enable cfg flcn e true =
      ({ in_reset := false,
         calls := e.calls ++ [.reset_engine true, .nvgpu_cg_slcg_pmu_load_enable,
           .nvgpu_cg_blcg_pmu_load_enable, .nvgpu_falcon_mem_scrub_wait,
           .nvgpu_falcon_wait_idle] }, 0) ∧
      (pmu_enable cfg flcn e true).1.calls.count (.reset_engine false)
        = e.calls.count (.reset_engine false) := by
  have h : pmu_enable cfg flcn e true =
      ({ in_reset := false,
         calls := e.calls ++ [.reset_engine true, .nvgpu_cg_slcg_pmu_load_enable,
           .nvgpu_cg_blcg_pmu_load_enable, .nvgpu_falcon_mem_scrub_wait,
           .nvgpu_falcon_wait_idle] }, 0) := by
    simp [pmu_enable, pmu_enable_hw, reset_engine, pmu_hw_log, hscrub, hidle]
  refine ⟨h, ?_⟩
  rw [h]
  simp [List.count_append]

theorem pmu_enable_success_witness :
    ((⟨0, 0⟩ : pmu_falcon).mem_scrub_wait = 0 ∧ (⟨0, 0⟩ : pmu_falcon).wait_idle = 0) ∧
    (pmu_enable true ⟨0, 0⟩ ⟨true, []⟩ true =
      ({ in_reset := false,
         calls := [] ++ [.reset_engine true, .nvgpu_cg_slcg_pmu_load_enable,
           .nvgpu_cg_blcg_pmu_load_enable, .nvgpu_falcon_mem_scrub_wait,
           .nvgpu_falcon_wait_idle] }, 0) ∧
      (pmu_enable true ⟨0, 0⟩ ⟨true, []⟩ true).1.calls.count (.reset_engine false)
        = ([] : List pmu_hw_call).count (.reset_engine false)) :=
  ⟨⟨rfl, rfl⟩, pmu_enable_success true ⟨0, 0⟩ ⟨true, []⟩ rfl rfl⟩

/-- C15: Engine Enable with a scrub wait that fails (any non-zero result) returns
`-ETIMEDOUT`; its calls are `reset_engine(true)`, SLCG, BLCG, memory-scrub wait and
then `reset_engine(false)`, which is called exactly once and last, so the engine ends
in reset; the idle wait is not called. -/
theorem pmu_enable_scrub_timeout (cfg : Bool) (flcn : pmu_falcon) (e : pmu_engine)
    (hscrub : flcn.mem_scrub_wait ≠ 0) :
    pmu_enable cfg flcn e true =
      ({ in_reset := true,
         calls := e.calls ++ [.reset_engine true, .nvgpu_cg_slcg_pmu_load_enable,
           .nvgpu_cg_blcg_pmu_load_enable, .nvgpu_falcon_mem_scrub_wait,
           .reset_engine false] }, -ETIMEDOUT) ∧
      (pmu_enable cfg flcn e true).1.calls.count (.reset_engine false)
        = e.calls.count (.reset_engine false) + 1 ∧
      (pmu_enable cfg flcn e true).1.calls.getLast? = some (.reset_engine false) ∧
      (pmu_enable cfg flcn e true).1.calls.count .nvgpu_falcon_wait_idle
        = e.calls.count .nvgpu_falcon_wait_idle := by
  have h : pmu_enable cfg flcn e true =
      ({ in_reset := true,
         calls := e.calls ++ [.reset_engine true, .nvgpu_cg_slcg_pmu_load_enable,
           .nvgpu_cg_blcg_pmu_load_enable, .nvgpu_falcon_mem_scrub_wait,
           .reset_engine false] }, -ETIMEDOUT) := by
    simp [pmu_enable, pmu_enable_hw, reset_engine, pmu_hw_log, hscrub, ETIMEDOUT]
  refine ⟨h, ?_, ?_, ?_⟩ <;> rw [h] <;> simp [List.count_append, List.getLast?_append]

theorem pmu_enable_scrub_timeout_witness :
    (⟨-110, 0⟩ : pmu_falcon).mem_scrub_wait ≠ 0 ∧
    (pmu_enable true ⟨-110, 0⟩ ⟨true, []⟩ true =
      ({ in_reset := true,
         calls := [] ++ [.reset_engine true, .nvgpu_cg_slcg_pmu_load_enable,
           .nvgpu_cg_blcg_pmu_load_enable, .nvgpu_falcon_mem_scrub_wait,
           .reset_engine false] }, -ETIMEDOUT) ∧
      (pmu_enable true ⟨-110, 0⟩ ⟨true, []⟩ true).1.calls.count (.reset_engine false)
        = ([] : List pmu_hw_call).count (.reset_engine false) + 1 ∧
      (pmu_enable true ⟨-110, 0⟩ ⟨true, []⟩ true).1.calls.getLast?
        = some (.reset_engine false) ∧
      (pmu_enable true ⟨-110, 0⟩ ⟨true, []⟩ true).1.calls.count .nvgpu_falcon_wait_idle
        = ([] : List pmu_hw_call).count .nvgpu_falcon_wait_idle) :=
  ⟨by decide, pmu_enable_scrub_timeout true ⟨-110, 0⟩ ⟨true, []⟩ (by decide)⟩

/-- C16: Engine Enable with a scrub wait that succeeds and an idle wait that fails
returns the idle wait's error unchanged; `reset_engine(false)` is not called and the
engine stays out of reset. -/
theorem pmu_enable_idle_failure (cfg : Bool) (flcn : pmu_falcon) (e : pmu_engine)
    (hscrub : flcn.mem_scrub_wait = 0) (hidle : flcn.wait_idle ≠ 0) :
    pmu_enable cfg flcn e true =
      ({ in_reset := false,
         calls := e.calls ++ [.reset_engine true, .nvgpu_cg_slcg_pmu_load_enable,
           .nvgpu_cg_blcg_pmu_load_enable, .nvgpu_falcon_mem_scrub_wait,
           .nvgpu_falcon_wait_idle] }, flcn.wait_idle) ∧
      (pmu_enable cfg flcn e true).2 ≠ 0 ∧
      (pmu_enable cfg flcn e true).1.calls.count (.reset_engine false)
        = e.calls.count (.reset_engine false) := by
  have h : pmu_enable cfg flcn e true =
      ({ in_reset := false,
         calls := e.calls ++ [.reset_engine true, .nvgpu_cg_slcg_pmu_load_enable,
           .nvgpu_cg_blcg_pmu_load_enable, .nvgpu_falcon_mem_scrub_wait,
           .nvgpu_falcon_wait_idle] }, flcn.wait_idle) := by
    simp [pmu_enable, pmu_enable_hw, reset_engine, pmu_hw_log, hscrub]
  refine ⟨h, ?_, ?_⟩ <;> rw [h]
  · exact hidle
  · simp [List.count_append]

theorem pmu_enable_idle_failure_witness :
    ((⟨0, -16⟩ : pmu_falcon).mem_scrub_wait = 0 ∧ (⟨0, -16⟩ : pmu_falcon).wait_idle ≠ 0) ∧
    (pmu_enable false ⟨0, -16⟩ ⟨true, []⟩ true =
      ({ in_reset := false,
         calls := [] ++ [.reset_engine true, .nvgpu_cg_slcg_pmu_load_enable,
           .nvgpu_cg_blcg_pmu_load_enable, .nvgpu_falcon_mem_scrub_wait,
           .nvgpu_falcon_wait_idle] }, (⟨0, -16⟩ : pmu_falcon).wait_idle) ∧
      (pmu_enable false ⟨0, -16⟩ ⟨true, []⟩ true).2 ≠ 0 ∧
      (pmu_enable false ⟨0, -16⟩ ⟨true, []⟩ true).1.calls.count (.reset_engine false)
        = ([] : List pmu_hw_call).count (.reset_engine false)) :=
  ⟨⟨rfl, by decide⟩, pmu_enable_idle_failure false ⟨0, -16⟩ ⟨true, []⟩ rfl (by decide)⟩

/-- C17: Engine Disable on an engine that `is_engine_in_reset` reports in reset is a
no-op: `pmu_enable(pmu, false)` returns `0` and, after the query itself, calls
neither `reset_engine` nor `pmu_enable_irq` nor a wait. -/
theorem pmu_disable_in_reset (cfg : Bool) (flcn : pmu_falcon) (e : pmu_engine)
    (hreset : e.in_reset = true) :
    pmu_enable cfg flcn e false =
      ({ in_reset := true, calls := e.calls ++ [.is_engine_in_reset] }, 0) := by
  simp [pmu_enable, pmu_hw_log, hreset]

theorem pmu_disable_in_reset_witness :
    (⟨true, [.reset_engine false]⟩ : pmu_engine).in_reset = true ∧
    pmu_enable true ⟨0, 0⟩ ⟨true, [.reset_engine false]⟩ false =
      ({ in_reset := true,
         calls := [.reset_engine false] ++ [.is_engine_in_reset] }, 0) :=
  ⟨rfl, pmu_disable_in_reset true ⟨0, 0⟩ ⟨true, [.reset_engine false]⟩ rfl⟩

/-- C18: Engine Disable on an engine that is not in reset calls, after the query,
`pmu_enable_irq(false)` (when LS-PMU support is built in) and then
`reset_engine(false)`, exactly once; it makes no clock-gating call and no wait,
returns `0`, and the engine ends in reset. -/
theorem pmu_disable_not_in_reset (cfg : Bool) (flcn : pmu_falcon) (e : pmu_engine)
    (hreset : e.in_reset = false) :
    pmu_enable cfg flcn e false =
      ({ in_reset := true,
         calls := e.calls ++ [.is_engine_in_reset] ++
           (if cfg then [.pmu_enable_irq false] else []) ++ [.reset_engine false] }, 0) ∧
      (pmu_enable cfg flcn e false).1.calls.count (.reset_engine false)
        = e.calls.count (.reset_engine false) + 1 := by
  have h : pmu_enable cfg flcn e false =
      ({ in_reset := true,
         calls := e.calls ++ [.is_engine_in_reset] ++
           (if cfg then [.pmu_enable_irq false] else []) ++ [.reset_engine false] }, 0) := by
    cases cfg <;> simp [pmu_enable, pmu_enable_hw, reset_engine, pmu_hw_log, hreset]
  refine ⟨h, ?_⟩
  rw [h]
  cases cfg <;> simp [List.count_append]

theorem pmu_disable_not_in_reset_witness :
    (⟨false, []⟩ : pmu_engine).in_reset = false ∧
    (pmu_enable true ⟨0, 0⟩ ⟨false, []⟩ false =
      ({ in_reset := true,
         calls := [] ++ [.is_engine_in_reset] ++
           (if true then [.pmu_enable_irq false] else []) ++ [.reset_engine false] }, 0) ∧
      (pmu_enable true ⟨0, 0⟩ ⟨false, []⟩ false).1.calls.count (.reset_engine false)
        = ([] : List pmu_hw_call).count (.reset_engine false) + 1) :=
  ⟨rfl, pmu_disable_not_in_reset true ⟨0, 0⟩ ⟨false, []⟩ rfl⟩

/-- Engine Disable never fails: `pmu_enable(pmu, false)` returns `0`, leaves the
engine in reset and only appends to the calls made so far. -/
theorem pmu_disable_returns_zero (cfg : Bool) (flcn : pmu_falcon) (e : pmu_engine) :
    (pmu_enable cfg flcn e false).2 = 0 ∧ (pmu_enable cfg flcn e false).1.in_reset = true ∧
      (pmu_enable cfg flcn e false).1.calls
        = e.calls ++ (pmu_enable cfg flcn e false).1.calls.drop e.calls.length := by
  obtain ⟨r, cs⟩ := e
  cases r <;> cases cfg <;>
    simp [pmu_enable, pmu_enable_hw, reset_engine, pmu_hw_log]

/-- Engine Enable only appends to the calls made so far. -/
theorem pmu_enable_calls_append (cfg : Bool) (flcn : pmu_falcon) (e : pmu_engine) :
    (pmu_enable cfg flcn e true).1.calls
      = e.calls ++ (pmu_enable cfg flcn e true).1.calls.drop e.calls.length := by
  by_cases hs : flcn.mem_scrub_wait = 0 <;>
    simp [pmu_enable, pmu_enable_hw, reset_engine, pmu_hw_log, hs, ETIMEDOUT]

/-- C19: `nvgpu_pmu_reset` is Disable and then Enable.  It returns Disable's outcome
when Disable's result is non-zero, without attempting Enable, and otherwise Enable's
outcome on the engine Disable left; since Disable always returns `0` here, Enable is
always attempted, the calls are Disable's calls `ds` followed by Enable's calls `es`,
and the result is Enable's result. -/
theorem nvgpu_pmu_reset_disable_then_enable (cfg : Bool) (flcn : pmu_falcon)
    (e : pmu_engine) :
    nvgpu_pmu_reset cfg flcn e =
      (if (pmu_enable cfg flcn e false).2 ≠ 0 then pmu_enable cfg flcn e false
        else pmu_enable cfg flcn (pmu_enable cfg flcn e false).1 true) ∧
    (pmu_enable cfg flcn e false).2 = 0 ∧
    ∃ ds es : List pmu_hw_call,
      (pmu_enable cfg flcn e false).1.calls = e.calls ++ ds ∧
      (pmu_enable cfg flcn (pmu_enable cfg flcn e false).1 true).1.calls
        = (pmu_enable cfg flcn e false).1.calls ++ es ∧
      (nvgpu_pmu_reset cfg flcn e).1.calls = e.calls ++ ds ++ es ∧
      (nvgpu_pmu_reset cfg flcn e).2
        = (pmu_enable cfg flcn (pmu_enable cfg flcn e false).1 true).2 := by
  have hd := pmu_disable_returns_zero cfg flcn e
  have he := pmu_enable_calls_append cfg flcn (pmu_enable cfg flcn e false).1
  have hr : nvgpu_pmu_reset cfg flcn e
      = pmu_enable cfg flcn (pmu_enable cfg flcn e false).1 true := by
    simp [nvgpu_pmu_reset, hd.1]
  refine ⟨rfl, hd.1, _, _, hd.2.2, he, ?_, ?_⟩
  · rw [hr, he, hd.2.2]
    simp
  · rw [hr]

/-- The four runs of `nvgpu_pmu_reset` on an engine that is out of reset, with the
interrupt hook built in: the full call sequence and the result. -/
theorem nvgpu_pmu_reset_runs :
    nvgpu_pmu_reset true ⟨0, 0⟩ ⟨false, []⟩ =
      (⟨false, [.is_engine_in_reset, .pmu_enable_irq false, .reset_engine false,
          .reset_engine true, .nvgpu_cg_slcg_pmu_load_enable,
          .nvgpu_cg_blcg_pmu_load_enable, .nvgpu_falcon_mem_scrub_wait,
          .nvgpu_falcon_wait_idle]⟩, 0) ∧
    nvgpu_pmu_reset true ⟨-110, 0⟩ ⟨false, []⟩ =
      (⟨true, [.is_engine_in_reset, .pmu_enable_irq false, .reset_engine false,
          .reset_engine true, .nvgpu_cg_slcg_pmu_load_enable,
          .nvgpu_cg_blcg_pmu_load_enable, .nvgpu_falcon_mem_scrub_wait,
          .reset_engine false]⟩, -110) ∧
    nvgpu_pmu_reset true ⟨0, -16⟩ ⟨true, []⟩ =
      (⟨false, [.is_engine_in_reset, .reset_engine true, .nvgpu_cg_slcg_pmu_load_enable,
          .nvgpu_cg_blcg_pmu_load_enable, .nvgpu_falcon_mem_scrub_wait,
          .nvgpu_falcon_wait_idle]⟩, -16) := by
  decide

/-! ### Firmware load -/

/-- The tail of `init_pmu_ucode` requests no blob and passes exactly the given tag to
`init_pmu_fw_ver_ops`, right after the calls made before it. -/
theorem init_pmu_ucode_select_calls (G : Nat) (g : gk20a) (calls : List pmu_ucode_call)
    (tag : Nat) :
    requested_names (init_pmu_ucode_select G g calls tag).1 = requested_names calls ∧
      selected_tags (init_pmu_ucode_select G g calls tag).1 = selected_tags calls ++ [tag] ∧
      (init_pmu_ucode_select G g calls tag).1.take (calls.length + 1)
        = calls ++ [.init_pmu_fw_ver_ops tag] := by
  unfold init_pmu_ucode_select
  cases hsel : init_pmu_fw_ver_ops G g tag with
  | none => simp [requested_names, selected_tags, List.filterMap_append, List.take_append]
  | some r =>
    obtain ⟨g1, err⟩ := r
    by_cases herr : err = 0 <;>
      simp [requested_names, selected_tags, List.filterMap_append, herr,
        List.take_append_eq_append_take]

/-- C20 (as stated, refuted): with the flag off and `pmu->fw_image` already set,
`init_pmu_ucode` returns `0` at once; it requests no blob and passes no tag to
`init_pmu_fw_ver_ops`. -/
theorem init_pmu_ucode_image_already_set :
    nvgpu_is_enabled gk20a_image_loaded.enabled_flags .NVGPU_SEC_PRIVSECURITY = false ∧
      init_pmu_ucode 0 firmware_store_sample gk20a_image_loaded
        = ([], some (gk20a_image_loaded, 0)) ∧
      requested_names (init_pmu_ucode 0 firmware_store_sample gk20a_image_loaded).1
        ≠ [NVGPU_PMU_NS_UCODE_IMAGE] ∧
      selected_tags (init_pmu_ucode 0 firmware_store_sample gk20a_image_loaded).1 = [] := by
  decide

/-- C20 (amended): when `pmu->fw_image` is not already set, `init_pmu_ucode` chooses
the load mode from the `NVGPU_SEC_PRIVSECURITY` flag alone.  Flag off: it requests
exactly one blob, `gpmu_ucode.bin`, and when the blob is found passes that blob's
version tag, and no other, to `init_pmu_fw_ver_ops`, right after the request.  Flag
on: it requests `gpmu_ucode_image.bin`, `gpmu_ucode_desc.bin`, `pmu_sig.bin` in that
order, stopping at the first that is missing, and when all three are found passes
the descriptor blob's tag, and no other, right after the requests. -/
theorem init_pmu_ucode_load_mode (G : Nat) (request : String → Option nvgpu_firmware)
    (g : gk20a) (h0 : g.pmu.fw_image = none) :
    (nvgpu_is_enabled g.enabled_flags .NVGPU_SEC_PRIVSECURITY = false →
      requested_names (init_pmu_ucode G request g).1 = [NVGPU_PMU_NS_UCODE_IMAGE] ∧
      selected_tags (init_pmu_ucode G request g).1
        = (match request NVGPU_PMU_NS_UCODE_IMAGE with
           | some fw => [fw.app_version]
           | none => []) ∧
      (∀ fw, request NVGPU_PMU_NS_UCODE_IMAGE = some fw →
        (init_pmu_ucode G request g).1.take 2
          = [.nvgpu_request_firmware NVGPU_PMU_NS_UCODE_IMAGE,
             .init_pmu_fw_ver_ops fw.app_version])) ∧
    (nvgpu_is_enabled g.enabled_flags .NVGPU_SEC_PRIVSECURITY = true →
      requested_names (init_pmu_ucode G request g).1
        = NVGPU_PMU_UCODE_IMAGE ::
            (if (request NVGPU_PMU_UCODE_IMAGE).isSome then
              NVGPU_PMU_UCODE_DESC ::
                (if (request NVGPU_PMU_UCODE_DESC).isSome then [NVGPU_PMU_UCODE_SIG] else [])
             else []) ∧
      selected_tags (init_pmu_ucode G request g).1
        = (match request NVGPU_PMU_UCODE_IMAGE, request NVGPU_PMU_UCODE_DESC,
              request NVGPU_PMU_UCODE_SIG with
           | some _, some fw_desc, some _ => [fw_desc.app_version]
           | _, _, _ => []) ∧
      (∀ fw_image fw_desc fw_sig, request NVGPU_PMU_UCODE_IMAGE = some fw_image →
        request NVGPU_PMU_UCODE_DESC = some fw_desc →
        request NVGPU_PMU_UCODE_SIG = some fw_sig →
        (init_pmu_ucode G request g).1.take 4
          = [.nvgpu_request_firmware NVGPU_PMU_UCODE_IMAGE,
             .nvgpu_request_firmware NVGPU_PMU_UCODE_DESC,
             .nvgpu_request_firmware NVGPU_PMU_UCODE_SIG,
             .init_pmu_fw_ver_ops fw_desc.app_version])) := by
  constructor
  · intro hflag
    unfold init_pmu_ucode
    simp only [h0, ne_eq, not_true_eq_false, if_false, hflag, Bool.not_false, if_true]
    cases hreq : request NVGPU_PMU_NS_UCODE_IMAGE with
    | none => simp [requested_names, selected_tags]
    | some fw =>
      have hs := init_pmu_ucode_select_calls G
        { g with pmu := { g.pmu with fw_image := some fw } }
        [.nvgpu_request_firmware NVGPU_PMU_NS_UCODE_IMAGE] fw.app_version
      refine ⟨?_, ?_, ?_⟩
      · simpa [requested_names] using hs.1
      · simpa [selected_tags] using hs.2.1
      · intro fw2 h2
        cases h2
        simpa using hs.2.2
  · intro hflag
    unfold init_pmu_ucode
    simp only [h0, ne_eq, not_true_eq_false, if_false, hflag, Bool.not_true]
    cases hi : request NVGPU_PMU_UCODE_IMAGE with
    | none => simp [requested_names, selected_tags]
    | some fi =>
      cases hd : request NVGPU_PMU_UCODE_DESC with
      | none => simp [requested_names, selected_tags]
      | some fd =>
        cases hsg : request NVGPU_PMU_UCODE_SIG with
        | none => simp [requested_names, selected_tags]
        | some fs =>
          have hs := init_pmu_ucode_select_calls G
            { g with pmu := { g.pmu with fw_image := some fi, fw_desc := some fd,
                                         fw_sig := some fs } }
            [.nvgpu_request_firmware NVGPU_PMU_UCODE_IMAGE,
             .nvgpu_request_firmware NVGPU_PMU_UCODE_DESC,
             .nvgpu_request_firmware NVGPU_PMU_UCODE_SIG] fd.app_version
          refine ⟨?_, ?_, ?_⟩
          · simpa [requested_names] using hs.1
          · simpa [selected_tags] using hs.2.1
          · intro a b c ha hb hc
            cases hb
            simpa using hs.2.2

theorem init_pmu_ucode_load_mode_witness :
    (gk20a_zero.pmu.fw_image = none ∧ gk20a_zero_secure.pmu.fw_image = none) ∧
    (requested_names (init_pmu_ucode 0 firmware_store_sample gk20a_zero).1
        = [NVGPU_PMU_NS_UCODE_IMAGE] ∧
      selected_tags (init_pmu_ucode 0 firmware_store_sample gk20a_zero).1
        = [APP_VERSION_GM20B]) ∧
    (requested_names (init_pmu_ucode 0 firmware_store_sample gk20a_zero_secure).1
        = [NVGPU_PMU_UCODE_IMAGE, NVGPU_PMU_UCODE_DESC, NVGPU_PMU_UCODE_SIG] ∧
      selected_tags (init_pmu_ucode 0 firmware_store_sample gk20a_zero_secure).1
        = [APP_VERSION_GP10B]) :=
  have ho := (init_pmu_ucode_load_mode 0 firmware_store_sample gk20a_zero rfl).1 rfl
  have hs := (init_pmu_ucode_load_mode 0 firmware_store_sample gk20a_zero_secure rfl).2 rfl
  ⟨⟨rfl, rfl⟩, ⟨ho.1, ho.2.1⟩, ⟨hs.1, hs.2.1⟩⟩

/-- A call through a dispatch-table entry of type `void (*)(struct nvgpu_pmu *, u8)`
leaves the three firmware pointers of the PMU alone. -/
theorem call_pmu_u8_fw_frame (fp : Option pmu_fn) (pmu pmu1 : nvgpu_pmu) (value : Nat)
    (h : call_pmu_u8 fp pmu value = some pmu1) :
    pmu1.fw_image = pmu.fw_image ∧ pmu1.fw_desc = pmu.fw_desc ∧
      pmu1.fw_sig = pmu.fw_sig := by
  unfold call_pmu_u8 at h
  split at h <;> first
    | (cases h; exact ⟨rfl, rfl, rfl⟩)
    | exact Option.noConfusion h

/-- The version selection leaves the three firmware pointers of the PMU alone. -/
theorem init_pmu_fw_ver_ops_fw_frame (G : Nat) (g r : gk20a) (tag : Nat) (e : Int)
    (h : init_pmu_fw_ver_ops G g tag = some (r, e)) :
    r.pmu.fw_image = g.pmu.fw_image ∧ r.pmu.fw_desc = g.pmu.fw_desc ∧
      r.pmu.fw_sig = g.pmu.fw_sig := by
  by_cases hs : supported_app_version tag
  · rw [init_pmu_fw_ver_ops_supported G g tag hs] at h
    cases h
    exact ⟨rfl, rfl, rfl⟩
  · have hsw := init_pmu_fw_ver_ops_switch_unsupported g tag hs
    unfold init_pmu_fw_ver_ops at h
    rw [hsw] at h
    simp only at h
    split at h
    · exact Option.noConfusion h
    · rename_i pmu1 h1
      split at h
      · exact Option.noConfusion h
      · rename_i pmu2 h2
        cases h
        have f1 := call_pmu_u8_fw_frame _ _ _ _ h1
        have f2 := call_pmu_u8_fw_frame _ _ _ _ h2
        exact ⟨f2.1.trans f1.1, f2.2.1.trans f1.2.1, f2.2.2.trans f1.2.2⟩

/-- C21: in secure mode, when the image and the descriptor are fetched and the
signature fetch fails, `init_pmu_ucode` releases the descriptor blob and then the
image blob, once each, returns `-ENOENT`, which is not `0`, and does not call
`init_pmu_fw_ver_ops`. -/
theorem init_pmu_ucode_sig_missing (G : Nat) (request : String → Option nvgpu_firmware)
    (g : gk20a) (fw_image fw_desc : nvgpu_firmware)
    (h0 : g.pmu.fw_image = none)
    (hflag : nvgpu_is_enabled g.enabled_flags .NVGPU_SEC_PRIVSECURITY = true)
    (hi : request NVGPU_PMU_UCODE_IMAGE = some fw_image)
    (hd : request NVGPU_PMU_UCODE_DESC = some fw_desc)
    (hs : request NVGPU_PMU_UCODE_SIG = none) :
    init_pmu_ucode G request g =
      ([.nvgpu_request_firmware NVGPU_PMU_UCODE_IMAGE,
        .nvgpu_request_firmware NVGPU_PMU_UCODE_DESC,
        .nvgpu_request_firmware NVGPU_PMU_UCODE_SIG,
        .nvgpu_release_firmware (some fw_desc),
        .nvgpu_release_firmware (some fw_image)],
       some ({ g with pmu := { g.pmu with
                 fw_image := some fw_image, fw_desc := some fw_desc, fw_sig := none } },
             -ENOENT)) ∧
      -ENOENT ≠ 0 ∧
      selected_tags (init_pmu_ucode G request g).1 = [] := by
  have h : init_pmu_ucode G request g =
      ([.nvgpu_request_firmware NVGPU_PMU_UCODE_IMAGE,
        .nvgpu_request_firmware NVGPU_PMU_UCODE_DESC,
        .nvgpu_request_firmware NVGPU_PMU_UCODE_SIG,
        .nvgpu_release_firmware (some fw_desc),
        .nvgpu_release_firmware (some fw_image)],
       some ({ g with pmu := { g.pmu with
                 fw_image := some fw_image, fw_desc := some fw_desc, fw_sig := none } },
             -ENOENT)) := by
    unfold init_pmu_ucode
    simp [h0, hflag, hi, hd, hs]
  refine ⟨h, by decide, ?_⟩
  rw [h]
  simp [selected_tags]

theorem init_pmu_ucode_sig_missing_witness :
    gk20a_zero_secure.pmu.fw_image = none ∧
    init_pmu_ucode 0 firmware_store_no_sig gk20a_zero_secure =
      ([.nvgpu_request_firmware NVGPU_PMU_UCODE_IMAGE,
        .nvgpu_request_firmware NVGPU_PMU_UCODE_DESC,
        .nvgpu_request_firmware NVGPU_PMU_UCODE_SIG,
        .nvgpu_release_firmware (some ⟨3, APP_VERSION_GP10B⟩),
        .nvgpu_release_firmware (some ⟨2, 0⟩)],
       some ({ gk20a_zero_secure with pmu := { gk20a_zero_secure.pmu with
                 fw_image := some ⟨2, 0⟩, fw_desc := some ⟨3, APP_VERSION_GP10B⟩,
                 fw_sig := none } },
             -ENOENT)) :=
  ⟨rfl, (init_pmu_ucode_sig_missing 0 firmware_store_no_sig gk20a_zero_secure
    ⟨2, 0⟩ ⟨3, APP_VERSION_GP10B⟩ rfl rfl rfl rfl rfl).1⟩

/-- In secure mode a failed fetch of any of the three blobs makes `init_pmu_ucode`
return `-ENOENT` without a version selection; in open mode a failed fetch is
followed by no version selection either. -/
theorem init_pmu_ucode_fetch_failure (G : Nat) (request : String → Option nvgpu_firmware)
    (g : gk20a) (h0 : g.pmu.fw_image = none) :
    (nvgpu_is_enabled g.enabled_flags .NVGPU_SEC_PRIVSECURITY = true →
      (request NVGPU_PMU_UCODE_IMAGE = none ∨ request NVGPU_PMU_UCODE_DESC = none ∨
        request NVGPU_PMU_UCODE_SIG = none) →
      (∃ g1, (init_pmu_ucode G request g).2 = some (g1, -ENOENT)) ∧
        selected_tags (init_pmu_ucode G request g).1 = []) ∧
    (nvgpu_is_enabled g.enabled_flags .NVGPU_SEC_PRIVSECURITY = false →
      request NVGPU_PMU_NS_UCODE_IMAGE = none →
      selected_tags (init_pmu_ucode G request g).1 = []) := by
  constructor
  · intro hflag hfail
    unfold init_pmu_ucode
    simp only [h0, ne_eq, not_true_eq_false, if_false, hflag, Bool.not_true]
    cases hi : request NVGPU_PMU_UCODE_IMAGE with
    | none => simp [selected_tags]
    | some fi =>
      cases hd : request NVGPU_PMU_UCODE_DESC with
      | none => simp [selected_tags]
      | some fd =>
        cases hsg : request NVGPU_PMU_UCODE_SIG with
        | none => simp [selected_tags]
        | some fs => simp [hi, hd, hsg] at hfail
  · intro hflag hfail
    unfold init_pmu_ucode
    simp [h0, hflag, hfail, selected_tags]

/-- C22: in open mode, on a fresh device, when the fetch of `gpmu_ucode.bin` fails
`init_pmu_ucode` returns `0`, not a load error: the failure branch leaves for `exit`
with `err` still `0`. -/
theorem init_pmu_ucode_open_fetch_failure_returns_zero (G : Nat) :
    gk20a_zero.pmu.fw_image = none ∧
      nvgpu_is_enabled gk20a_zero.enabled_flags .NVGPU_SEC_PRIVSECURITY = false ∧
      init_pmu_ucode G (fun _ => none) gk20a_zero =
        ([.nvgpu_request_firmware NVGPU_PMU_NS_UCODE_IMAGE], some (gk20a_zero, 0)) :=
  ⟨rfl, rfl, rfl⟩

/-- When every blob fetch succeeds and `init_pmu_fw_ver_ops` returns a non-zero
`err`, which it can only do on a dispatch table that already holds the counter
setters, `init_pmu_ucode` calls `nvgpu_release_firmware` on
`fw_sig`, `fw_desc` and `fw_image`, which releases the one blob fetched in open mode
(device `go`) and the three blobs fetched in secure mode (device `gs`), and returns
the selection's error, `-EINVAL`, unchanged. -/
theorem init_pmu_ucode_rejected_tag (G : Nat) (request : String → Option nvgpu_firmware)
    (go gs ro rs : gk20a) (eo es : Int) (fw fw_image fw_desc fw_sig : nvgpu_firmware)
    (h0o : go.pmu.fw_image = none)
    (hflago : nvgpu_is_enabled go.enabled_flags .NVGPU_SEC_PRIVSECURITY = false)
    (hfw : request NVGPU_PMU_NS_UCODE_IMAGE = some fw)
    (hselo : init_pmu_fw_ver_ops G { go with pmu := { go.pmu with fw_image := some fw } }
      fw.app_version = some (ro, eo))
    (heo : eo ≠ 0)
    (h0s : gs.pmu.fw_image = none)
    (hflags : nvgpu_is_enabled gs.enabled_flags .NVGPU_SEC_PRIVSECURITY = true)
    (hi : request NVGPU_PMU_UCODE_IMAGE = some fw_image)
    (hd : request NVGPU_PMU_UCODE_DESC = some fw_desc)
    (hs : request NVGPU_PMU_UCODE_SIG = some fw_sig)
    (hsels : init_pmu_fw_ver_ops G
      { gs with pmu := { gs.pmu with
          fw_image := some fw_image, fw_desc := some fw_desc, fw_sig := some fw_sig } }
      fw_desc.app_version = some (rs, es))
    (hes : es ≠ 0) :
    init_pmu_ucode G request go =
      ([.nvgpu_request_firmware NVGPU_PMU_NS_UCODE_IMAGE,
        .init_pmu_fw_ver_ops fw.app_version,
        .nvgpu_release_firmware go.pmu.fw_sig,
        .nvgpu_release_firmware go.pmu.fw_desc,
        .nvgpu_release_firmware (some fw)], some (ro, eo)) ∧
    init_pmu_ucode G request gs =
      ([.nvgpu_request_firmware NVGPU_PMU_UCODE_IMAGE,
        .nvgpu_request_firmware NVGPU_PMU_UCODE_DESC,
        .nvgpu_request_firmware NVGPU_PMU_UCODE_SIG,
        .init_pmu_fw_ver_ops fw_desc.app_version,
        .nvgpu_release_firmware (some fw_sig),
        .nvgpu_release_firmware (some fw_desc),
        .nvgpu_release_firmware (some fw_image)], some (rs, es)) ∧
    eo = -EINVAL ∧ es = -EINVAL := by
  have hno : ¬ supported_app_version fw.app_version := by
    intro hsup
    rw [init_pmu_fw_ver_ops_supported G _ _ hsup] at hselo
    cases hselo
    exact heo rfl
  have hns : ¬ supported_app_version fw_desc.app_version := by
    intro hsup
    rw [init_pmu_fw_ver_ops_supported G _ _ hsup] at hsels
    cases hsels
    exact hes rfl
  have fo := init_pmu_fw_ver_ops_fw_frame G _ _ _ _ hselo
  have fs := init_pmu_fw_ver_ops_fw_frame G _ _ _ _ hsels
  refine ⟨?_, ?_, (init_pmu_fw_ver_ops_unsupported_frame G _ _ _ _ hno hselo).1,
    (init_pmu_fw_ver_ops_unsupported_frame G _ _ _ _ hns hsels).1⟩
  · unfold init_pmu_ucode
    simp only [h0o, ne_eq, not_true_eq_false, if_false, hflago, Bool.not_false, if_true, hfw]
    unfold init_pmu_ucode_select
    simp only [hselo, heo, ne_eq, not_false_eq_true, if_true, fo.1, fo.2.1, fo.2.2]
    rfl
  · unfold init_pmu_ucode
    simp only [h0s, ne_eq, not_true_eq_false, if_false, hflags, Bool.not_true, hi, hd, hs]
    unfold init_pmu_ucode_select
    simp only [hsels, hes, ne_eq, not_false_eq_true, if_true, fs.1, fs.2.1, fs.2.2]
    rfl

theorem init_pmu_ucode_rejected_tag_witness :
    init_pmu_ucode 0 firmware_store_bad_tag gk20a_reloaded =
      ([.nvgpu_request_firmware NVGPU_PMU_NS_UCODE_IMAGE,
        .init_pmu_fw_ver_ops 7,
        .nvgpu_release_firmware none,
        .nvgpu_release_firmware none,
        .nvgpu_release_firmware (some ⟨1, 7⟩)],
       some ({ gk20a_reloaded with pmu := { gk20a_reloaded.pmu with
                 perfmon_counter_v2 := ⟨3, 0, 0, 0, 0⟩, fw_image := some ⟨1, 7⟩ } },
             -22)) ∧
    init_pmu_ucode 0 firmware_store_bad_tag gk20a_reloaded_secure =
      ([.nvgpu_request_firmware NVGPU_PMU_UCODE_IMAGE,
        .nvgpu_request_firmware NVGPU_PMU_UCODE_DESC,
        .nvgpu_request_firmware NVGPU_PMU_UCODE_SIG,
        .init_pmu_fw_ver_ops 7,
        .nvgpu_release_firmware (some ⟨4, 0⟩),
        .nvgpu_release_firmware (some ⟨3, 7⟩),
        .nvgpu_release_firmware (some ⟨2, 0⟩)],
       some ({ gk20a_reloaded_secure with pmu := { gk20a_reloaded_secure.pmu with
                 perfmon_counter_v2 := ⟨3, 0, 0, 0, 0⟩, fw_image := some ⟨2, 0⟩,
                 fw_desc := some ⟨3, 7⟩, fw_sig := some ⟨4, 0⟩ } },
             -22)) :=
  have h := init_pmu_ucode_rejected_tag 0 firmware_store_bad_tag
    gk20a_reloaded gk20a_reloaded_secure
    { gk20a_reloaded with pmu := { gk20a_reloaded.pmu with
        perfmon_counter_v2 := ⟨3, 0, 0, 0, 0⟩, fw_image := some ⟨1, 7⟩ } }
    { gk20a_reloaded_secure with pmu := { gk20a_reloaded_secure.pmu with
        perfmon_counter_v2 := ⟨3, 0, 0, 0, 0⟩, fw_image := some ⟨2, 0⟩,
        fw_desc := some ⟨3, 7⟩, fw_sig := some ⟨4, 0⟩ } }
    (-22) (-22) ⟨1, 7⟩ ⟨2, 0⟩ ⟨3, 7⟩ ⟨4, 0⟩
    rfl rfl rfl rfl (by decide) rfl rfl rfl rfl rfl rfl (by decide)
  ⟨h.1, h.2.1⟩

/-- C23: on a first load (zero-allocated device, empty dispatch table) with every
blob found and the unsupported version tag `7`, `init_pmu_ucode` fetches the blobs
(one in open mode, three in secure mode) and calls `init_pmu_fw_ver_ops`, which then
calls through the `NULL` entry `set_perfmon_cntr_index`: no blob is released and no
`UnsupportedVersion` error is returned. -/
theorem init_pmu_ucode_unsupported_tag_first_load (G : Nat) :
    ¬ supported_app_version 7 ∧
    (∀ s, gk20a_zero.ops.pmu_ver.entry s = none) ∧
    gk20a_zero_secure.ops.pmu_ver = gk20a_zero.ops.pmu_ver ∧
    init_pmu_ucode G firmware_store_bad_tag gk20a_zero
      = ([.nvgpu_request_firmware NVGPU_PMU_NS_UCODE_IMAGE, .init_pmu_fw_ver_ops 7], none) ∧
    init_pmu_ucode G firmware_store_bad_tag gk20a_zero_secure
      = ([.nvgpu_request_firmware NVGPU_PMU_UCODE_IMAGE,
          .nvgpu_request_firmware NVGPU_PMU_UCODE_DESC,
          .nvgpu_request_firmware NVGPU_PMU_UCODE_SIG,
          .init_pmu_fw_ver_ops 7], none) ∧
    (∀ fw, pmu_ucode_call.nvgpu_release_firmware fw
        ∉ (init_pmu_ucode G firmware_store_bad_tag gk20a_zero).1 ∧
      pmu_ucode_call.nvgpu_release_firmware fw
        ∉ (init_pmu_ucode G firmware_store_bad_tag gk20a_zero_secure).1) := by
  have ho : init_pmu_ucode G firmware_store_bad_tag gk20a_zero
      = ([.nvgpu_request_firmware NVGPU_PMU_NS_UCODE_IMAGE, .init_pmu_fw_ver_ops 7],
          none) := rfl
  have hs : init_pmu_ucode G firmware_store_bad_tag gk20a_zero_secure
      = ([.nvgpu_request_firmware NVGPU_PMU_UCODE_IMAGE,
          .nvgpu_request_firmware NVGPU_PMU_UCODE_DESC,
          .nvgpu_request_firmware NVGPU_PMU_UCODE_SIG,
          .init_pmu_fw_ver_ops 7], none) := rfl
  refine ⟨by decide, ?_, rfl, ho, hs, ?_⟩
  · intro s
    cases s <;> rfl
  · intro fw
    rw [ho, hs]
    simp

/-- C24: a secure-mode load on a fresh device that finds the image (blob `2`) and the
descriptor (blob `3`) but no signature returns `-ENOENT` and releases both blobs,
yet `pmu->fw_image` and `pmu->fw_desc`, which were `NULL` before the call, still
point at the released blobs afterwards. -/
theorem init_pmu_ucode_failure_keeps_released_handles :
    gk20a_zero_secure.pmu.fw_image = none ∧ gk20a_zero_secure.pmu.fw_desc = none ∧
    ∃ g1 : gk20a,
      (init_pmu_ucode 0 firmware_store_no_sig gk20a_zero_secure).2 = some (g1, -ENOENT) ∧
      pmu_ucode_call.nvgpu_release_firmware (some ⟨2, 0⟩)
        ∈ (init_pmu_ucode 0 firmware_store_no_sig gk20a_zero_secure).1 ∧
      pmu_ucode_call.nvgpu_release_firmware (some ⟨3, APP_VERSION_GP10B⟩)
        ∈ (init_pmu_ucode 0 firmware_store_no_sig gk20a_zero_secure).1 ∧
      g1.pmu.fw_image = some ⟨2, 0⟩ ∧ g1.pmu.fw_desc = some ⟨3, APP_VERSION_GP10B⟩ ∧
      g1.pmu.fw_image ≠ gk20a_zero_secure.pmu.fw_image := by
  refine ⟨rfl, rfl, _, rfl, by decide, by decide, rfl, rfl, by decide⟩

/-! ### Early initialisation -/

/-- Equal flag values are in particular not raised. -/
theorem ls_pmu_flags_not_raised_of_eq (g r : gk20a) (h : ls_pmu_flags r = ls_pmu_flags g) :
    ls_pmu_flags_not_raised g r := by
  unfold ls_pmu_flags at h
  simp only [Prod.mk.injEq] at h
  obtain ⟨h1, h2, h3, h4, h5⟩ := h
  unfold ls_pmu_flags_not_raised
  rw [h1, h2, h3, h4, h5]
  exact ⟨id, id, id, id, id⟩

/-- The block that disables the LS-PMU checkers raises no flag. -/
theorem disable_ls_pmu_checkers_not_raised (g : gk20a) :
    ls_pmu_flags_not_raised g (disable_ls_pmu_checkers g) := by
  unfold ls_pmu_flags_not_raised disable_ls_pmu_checkers
  simp [nvgpu_is_enabled, nvgpu_set_enabled]

/-- The version selection leaves the five LS-PMU capability flags alone. -/
theorem init_pmu_fw_ver_ops_flags_frame (G : Nat) (g r : gk20a) (tag : Nat) (e : Int)
    (h : init_pmu_fw_ver_ops G g tag = some (r, e)) :
    ls_pmu_flags r = ls_pmu_flags g := by
  by_cases hs : supported_app_version tag
  · rw [init_pmu_fw_ver_ops_supported G g tag hs] at h
    cases h
    rcases hs with rfl | rfl | rfl | rfl | rfl | rfl <;> rfl
  · have hsw := init_pmu_fw_ver_ops_switch_unsupported g tag hs
    unfold init_pmu_fw_ver_ops at h
    rw [hsw] at h
    simp only at h
    split at h
    · exact Option.noConfusion h
    · split at h
      · exact Option.noConfusion h
      · cases h
        rfl

/-- The tail of `init_pmu_ucode` leaves the five LS-PMU capability flags alone. -/
theorem init_pmu_ucode_select_flags_frame (G : Nat) (g r : gk20a)
    (calls : List pmu_ucode_call) (tag : Nat) (e : Int)
    (h : (init_pmu_ucode_select G g calls tag).2 = some (r, e)) :
    ls_pmu_flags r = ls_pmu_flags g := by
  unfold init_pmu_ucode_select at h
  cases hsel : init_pmu_fw_ver_ops G g tag with
  | none => simp [hsel] at h
  | some p =>
    obtain ⟨g1, err⟩ := p
    have hf := init_pmu_fw_ver_ops_flags_frame G g g1 tag err hsel
    by_cases herr : err = 0 <;> simp [hsel, herr] at h <;>
      (obtain ⟨h1, _⟩ := h; rw [← h1]; exact hf)

/-- The firmware load leaves the five LS-PMU capability flags alone. -/
theorem init_pmu_ucode_flags_frame (G : Nat) (request : String → Option nvgpu_firmware)
    (g r : gk20a) (e : Int) (h : (init_pmu_ucode G request g).2 = some (r, e)) :
    ls_pmu_flags r = ls_pmu_flags g := by
  by_cases h0 : g.pmu.fw_image = none
  · cases hflag : nvgpu_is_enabled g.enabled_flags .NVGPU_SEC_PRIVSECURITY
    · cases hreq : request NVGPU_PMU_NS_UCODE_IMAGE with
      | none =>
        simp [init_pmu_ucode, h0, hflag, hreq] at h
        rw [← h.1]; rfl
      | some fw =>
        simp [init_pmu_ucode, h0, hflag, hreq] at h
        exact (init_pmu_ucode_select_flags_frame G _ r _ _ e h).trans rfl
    · cases hi : request NVGPU_PMU_UCODE_IMAGE with
      | none =>
        simp [init_pmu_ucode, h0, hflag, hi] at h
        rw [← h.1]; rfl
      | some fi =>
        cases hd : request NVGPU_PMU_UCODE_DESC with
        | none =>
          simp [init_pmu_ucode, h0, hflag, hi, hd] at h
          rw [← h.1]; rfl
        | some fd =>
          cases hsg : request NVGPU_PMU_UCODE_SIG with
          | none =>
            simp [init_pmu_ucode, h0, hflag, hi, hd, hsg] at h
            rw [← h.1]; rfl
          | some fs =>
            simp [init_pmu_ucode, h0, hflag, hi, hd, hsg] at h
            exact (init_pmu_ucode_select_flags_frame G _ r _ _ e h).trans rfl
  · simp [init_pmu_ucode, h0] at h
    rw [← h.1]

/-- C25: when `support_ls_pmu` is set and `is_pmu_supported` is asked and reports
`false`, `nvgpu_early_init_pmu_sw` and `nvgpu_pmu_early_init` clear `support_ls_pmu`,
`can_elpg`, `elpg_enabled` and `aelpg_enabled`, disable `NVGPU_PMU_PERFMON` and return
`0`; neither initialises a lock, loads firmware or calls
`nvgpu_pmu_rtos_early_init`.  (`nvgpu_pmu_early_init` asks only when it has just
allocated the PMU.) -/
theorem early_init_unsupported_hardware (env : pmu_init_env) (cfg kz : Bool)
    (rtos : gk20a → nvgpu_pmu → gk20a × nvgpu_pmu × Int) (g : gk20a)
    (pmu_p : Option nvgpu_pmu)
    (hs : g.support_ls_pmu = true) (hu : env.is_pmu_supported = false)
    (hq : pmu_init_call.is_pmu_supported
      ∈ (nvgpu_pmu_early_init cfg kz false rtos g pmu_p).calls) :
    nvgpu_early_init_pmu_sw env g
      = ([.is_pmu_supported], some (disable_ls_pmu_checkers g, 0)) ∧
    (nvgpu_pmu_early_init cfg kz false rtos g pmu_p).calls
      = [.nvgpu_kzalloc, .is_pmu_supported] ∧
    (nvgpu_pmu_early_init cfg kz false rtos g pmu_p).g = disable_ls_pmu_checkers g ∧
    (nvgpu_pmu_early_init cfg kz false rtos g pmu_p).err = 0 ∧
    ls_pmu_flags (disable_ls_pmu_checkers g) = (false, false, false, false, false) ∧
    (pmu_p = none ∧ kz = true) := by
  refine ⟨?_, ?_⟩
  · simp [nvgpu_early_init_pmu_sw, hs, hu]
  · cases pmu_p with
    | some pmu => simp [nvgpu_pmu_early_init] at hq
    | none =>
      cases kz with
      | false => simp [nvgpu_pmu_early_init] at hq
      | true =>
        simp [nvgpu_pmu_early_init, hs, ls_pmu_flags, disable_ls_pmu_checkers,
          nvgpu_is_enabled, nvgpu_set_enabled]

theorem early_init_unsupported_hardware_witness :
    (gk20a_ls_pmu.support_ls_pmu = true ∧ pmu_init_env_unsupported.is_pmu_supported = false ∧
      pmu_init_call.is_pmu_supported
        ∈ (nvgpu_pmu_early_init true true false rtos_early_init_sample gk20a_ls_pmu
            none).calls) ∧
    nvgpu_early_init_pmu_sw pmu_init_env_unsupported gk20a_ls_pmu
      = ([.is_pmu_supported], some (disable_ls_pmu_checkers gk20a_ls_pmu, 0)) ∧
    (nvgpu_pmu_early_init true true false rtos_early_init_sample gk20a_ls_pmu none).calls
      = [.nvgpu_kzalloc, .is_pmu_supported] ∧
    (nvgpu_pmu_early_init true true false rtos_early_init_sample gk20a_ls_pmu none).g
      = disable_ls_pmu_checkers gk20a_ls_pmu ∧
    (nvgpu_pmu_early_init true true false rtos_early_init_sample gk20a_ls_pmu none).err = 0 ∧
    ls_pmu_flags gk20a_ls_pmu = (true, true, true, true, true) ∧
    ls_pmu_flags (disable_ls_pmu_checkers gk20a_ls_pmu)
      = (false, false, false, false, false) :=
  have h := early_init_unsupported_hardware pmu_init_env_unsupported true true
    rtos_early_init_sample gk20a_ls_pmu none rfl rfl (by decide)
  ⟨⟨rfl, rfl, by decide⟩, h.1, h.2.1, h.2.2.1, h.2.2.2.1, rfl, h.2.2.2.2.1⟩

/-- C26 (as stated, refuted): with `support_ls_pmu` false, a call of
`nvgpu_pmu_early_init` that has to allocate the PMU and whose allocation fails
returns `-ENOMEM`, not `0`. -/
theorem nvgpu_pmu_early_init_alloc_failure :
    gk20a_zero.support_ls_pmu = false ∧
      (nvgpu_pmu_early_init true false false rtos_early_init_sample gk20a_zero none).err
        = -ENOMEM ∧
      (nvgpu_pmu_early_init true false false rtos_early_init_sample gk20a_zero none).err
        ≠ 0 := by
  decide

/-- C26 (amended): no execution of `nvgpu_early_init_pmu_sw` raises `support_ls_pmu`,
`can_elpg`, `elpg_enabled`, `aelpg_enabled` or `NVGPU_PMU_PERFMON` from false to
true, nor does one of `nvgpu_pmu_early_init` when the external
`nvgpu_pmu_rtos_early_init` raises none; and once `support_ls_pmu` is false a call
of either does not query `is_pmu_supported`, `nvgpu_early_init_pmu_sw` returning `0`
and `nvgpu_pmu_early_init` returning `0` unless it has to allocate the PMU and the
allocation fails, when it returns `-ENOMEM`. -/
theorem early_init_flags_cleared_permanently (env : pmu_init_env) (cfg kz sup : Bool)
    (rtos : gk20a → nvgpu_pmu → gk20a × nvgpu_pmu × Int) (g : gk20a)
    (pmu_p : Option nvgpu_pmu)
    (hrtos : ∀ g1 pmu, ls_pmu_flags_not_raised g1 (rtos g1 pmu).1) :
    (∀ r e, (nvgpu_early_init_pmu_sw env g).2 = some (r, e) →
      ls_pmu_flags_not_raised g r) ∧
    ls_pmu_flags_not_raised g (nvgpu_pmu_early_init cfg kz sup rtos g pmu_p).g ∧
    (g.support_ls_pmu = false →
      (∃ r, (nvgpu_early_init_pmu_sw env g).2 = some (r, 0)) ∧
      pmu_init_call.is_pmu_supported ∉ (nvgpu_early_init_pmu_sw env g).1 ∧
      pmu_init_call.is_pmu_supported
        ∉ (nvgpu_pmu_early_init cfg kz sup rtos g pmu_p).calls ∧
      (nvgpu_pmu_early_init cfg kz sup rtos g pmu_p).err
        = (if pmu_p = none ∧ kz = false then -ENOMEM else 0)) := by
  have hrefl : ls_pmu_flags_not_raised g g := ls_pmu_flags_not_raised_of_eq g g rfl
  refine ⟨?_, ?_, ?_⟩
  · intro r e h
    unfold nvgpu_early_init_pmu_sw at h
    split_ifs at h with h1 h2 h3 h4 h5 h6 h7
    · cases h; exact hrefl
    · cases h; exact disable_ls_pmu_checkers_not_raised g
    · cases h; exact hrefl
    · cases h; exact hrefl
    · cases h; exact hrefl
    · cases h; exact hrefl
    · cases h; exact hrefl
    · cases hu : (init_pmu_ucode env.PMU_DOMAIN_GROUP_PSTATE
          env.nvgpu_request_firmware g).2 with
      | none => simp [hu] at h
      | some p =>
        obtain ⟨g1, err⟩ := p
        have hf := init_pmu_ucode_flags_frame _ _ g g1 err hu
        have hn := ls_pmu_flags_not_raised_of_eq g g1 hf
        by_cases herr : err = 0
        · simp [hu, herr] at h
          rw [← h.1]
          exact hn
        · simp [hu, herr] at h
          rw [← h.1]
          exact hn
  · cases pmu_p with
    | some pmu => exact hrefl
    | none =>
      cases kz <;> cases hsup : g.support_ls_pmu <;> cases sup <;> cases cfg <;>
        simp [nvgpu_pmu_early_init, hsup] <;>
        first
          | exact hrefl
          | exact disable_ls_pmu_checkers_not_raised g
          | exact hrtos g nvgpu_pmu_zero
  · intro hs
    refine ⟨⟨g, by simp [nvgpu_early_init_pmu_sw, hs]⟩,
      by simp [nvgpu_early_init_pmu_sw, hs], ?_⟩
    cases pmu_p with
    | some pmu => simp [nvgpu_pmu_early_init]
    | none => cases kz <;> simp [nvgpu_pmu_early_init, hs]

theorem early_init_flags_cleared_permanently_witness :
    (∀ g1 pmu, ls_pmu_flags_not_raised g1 (rtos_early_init_sample g1 pmu).1) ∧
    (∃ r, (nvgpu_early_init_pmu_sw pmu_init_env_unsupported
        (disable_ls_pmu_checkers gk20a_ls_pmu)).2 = some (r, 0)) ∧
    pmu_init_call.is_pmu_supported
      ∉ (nvgpu_early_init_pmu_sw pmu_init_env_unsupported
          (disable_ls_pmu_checkers gk20a_ls_pmu)).1 ∧
    (nvgpu_pmu_early_init true true false rtos_early_init_sample
        (disable_ls_pmu_checkers gk20a_ls_pmu) none).err = 0 ∧
    (nvgpu_pmu_early_init true false false rtos_early_init_sample
        (disable_ls_pmu_checkers gk20a_ls_pmu) none).err = -ENOMEM :=
  have hr : ∀ g1 pmu, ls_pmu_flags_not_raised g1 (rtos_early_init_sample g1 pmu).1 :=
    fun g1 _ => ls_pmu_flags_not_raised_of_eq g1 g1 rfl
  have h := (early_init_flags_cleared_permanently pmu_init_env_unsupported true true false
    rtos_early_init_sample (disable_ls_pmu_checkers gk20a_ls_pmu) none hr).2.2 rfl
  have h2 := (early_init_flags_cleared_permanently pmu_init_env_unsupported true false false
    rtos_early_init_sample (disable_ls_pmu_checkers gk20a_ls_pmu) none hr).2.2 rfl
  ⟨hr, h.1, h.2.1, h.2.2.2, h2.2.2.2⟩

/-! ### Installed bundles -/

/-- C27: on a zero-allocated device no selection has installed any entry, the
unsupported tag `7` installs none, and `init_pmu_fw_ver_ops` then makes its
counter-pinning call through the `NULL` entry `set_perfmon_cntr_index`: the call has
no defined behaviour, no `NotInitialized` error is produced and nothing is
returned. -/
theorem init_pmu_fw_ver_ops_calls_uninstalled_entry (G : Nat) :
    (∀ s, gk20a_zero.ops.pmu_ver.entry s = none) ∧
      ¬ supported_app_version 7 ∧
      (init_pmu_fw_ver_ops_switch gk20a_zero 7).1.ops.pmu_ver = gk20a_zero.ops.pmu_ver ∧
      call_pmu_u8 (init_pmu_fw_ver_ops_switch gk20a_zero 7).1.ops.pmu_ver.set_perfmon_cntr_index
        (init_pmu_fw_ver_ops_switch gk20a_zero 7).1.pmu 3 = none ∧
      init_pmu_fw_ver_ops G gk20a_zero 7 = none := by
  refine ⟨?_, by decide, rfl, rfl, rfl⟩
  intro s
  cases s <;> rfl

/-- From an empty dispatch table a supported tag yields the table that the same
selection yields on a zero-allocated device. -/
theorem init_pmu_fw_ver_ops_from_empty (G tag : Nat) (h : supported_app_version tag)
    (g : gk20a) (hg : g.ops.pmu_ver = pmu_v_zero) :
    ∃ r : gk20a,
      init_pmu_fw_ver_ops G g tag = some (r, 0) ∧
      r.ops.pmu_ver = (init_pmu_fw_ver_ops_switch gk20a_zero tag).1.ops.pmu_ver := by
  refine ⟨_, init_pmu_fw_ver_ops_supported G g tag h, ?_⟩
  obtain ⟨⟨pv⟩, z, fl, a, b, c, d, pmu⟩ := g
  simp only at hg
  subst hg
  rcases h with rfl | rfl | rfl | rfl | rfl | rfl <;> rfl

/-- C28: starting from an empty dispatch table, a selection installs the
frame-buffer allocation accessors `pmu_allocation_get_fb_addr` and
`pmu_allocation_get_fb_size` (both version 3) exactly for the tags that use the
version 3 allocation accessors, GP10X, GV11B, GV10X and TU10X; selecting GM20B
(allocation version 1) or GP10B (version 2) leaves both entries `NULL`. -/
theorem init_pmu_fw_ver_ops_fb_accessors (G tag : Nat) (h : supported_app_version tag)
    (g : gk20a) (hg : g.ops.pmu_ver = pmu_v_zero) :
    ∃ r : gk20a,
      init_pmu_fw_ver_ops G g tag = some (r, 0) ∧
      ((r.ops.pmu_ver.pmu_allocation_get_fb_addr = some .pmu_allocation_get_fb_addr_v3 ∧
          r.ops.pmu_ver.pmu_allocation_get_fb_size = some .pmu_allocation_get_fb_size_v3) ↔
        (tag = APP_VERSION_GP10X ∨ tag = APP_VERSION_GV11B ∨ tag = APP_VERSION_GV10X ∨
          tag = APP_VERSION_TU10X)) ∧
      ((r.ops.pmu_ver.pmu_allocation_get_fb_addr = none ∧
          r.ops.pmu_ver.pmu_allocation_get_fb_size = none) ↔
        (tag = APP_VERSION_GM20B ∨ tag = APP_VERSION_GP10B)) ∧
      (r.ops.pmu_ver.get_pmu_allocation_struct_size = some .get_pmu_allocation_size_v3 ↔
        (tag = APP_VERSION_GP10X ∨ tag = APP_VERSION_GV11B ∨ tag = APP_VERSION_GV10X ∨
          tag = APP_VERSION_TU10X)) ∧
      (tag = APP_VERSION_GM20B →
        r.ops.pmu_ver.get_pmu_allocation_struct_size = some .get_pmu_allocation_size_v1) ∧
      (tag = APP_VERSION_GP10B →
        r.ops.pmu_ver.get_pmu_allocation_struct_size = some .get_pmu_allocation_size_v2) := by
  obtain ⟨r, hr, ht⟩ := init_pmu_fw_ver_ops_from_empty G tag h g hg
  refine ⟨r, hr, ?_⟩
  rw [ht]
  rcases h with rfl | rfl | rfl | rfl | rfl | rfl <;> decide

theorem init_pmu_fw_ver_ops_fb_accessors_witness :
    (supported_app_version APP_VERSION_GP10B ∧ gk20a_zero.ops.pmu_ver = pmu_v_zero) ∧
    ∃ r : gk20a,
      init_pmu_fw_ver_ops 0 gk20a_zero APP_VERSION_GP10B = some (r, 0) ∧
      r.ops.pmu_ver.pmu_allocation_get_fb_addr = none ∧
      r.ops.pmu_ver.pmu_allocation_get_fb_size = none :=
  have h := init_pmu_fw_ver_ops_fb_accessors 0 APP_VERSION_GP10B (by decide) gk20a_zero rfl
  ⟨⟨by decide, rfl⟩, h.choose, h.choose_spec.1,
    (h.choose_spec.2.2.1.mpr (Or.inr rfl)).1, (h.choose_spec.2.2.1.mpr (Or.inr rfl)).2⟩

/-- C30 (as stated, refuted): the GV11B selection on an empty table installs the
version 6 size accessor and the version 5 frequency setter for the one family of
command-line argument blocks, and the GP10B selection installs the version 2
allocation size accessor and the version 1 sequence pointer accessor for the one
family of allocation records. -/
theorem init_pmu_fw_ver_ops_family_versions_differ :
    (∃ r : gk20a,
      init_pmu_fw_ver_ops 0 gk20a_zero APP_VERSION_GV11B = some (r, 0) ∧
      r.ops.pmu_ver.entry .get_pmu_cmdline_args_size = some .pmu_cmdline_size_v6 ∧
      r.ops.pmu_ver.entry .set_pmu_cmdline_args_cpu_freq
        = some .set_pmu_cmdline_args_cpufreq_v5 ∧
      pmu_slot.family .get_pmu_cmdline_args_size = some .cmdline ∧
      pmu_slot.family .set_pmu_cmdline_args_cpu_freq = some .cmdline ∧
      pmu_fn.version .pmu_cmdline_size_v6 = some 6 ∧
      pmu_fn.version .set_pmu_cmdline_args_cpufreq_v5 = some 5) ∧
    (∃ r : gk20a,
      init_pmu_fw_ver_ops 0 gk20a_zero APP_VERSION_GP10B = some (r, 0) ∧
      r.ops.pmu_ver.entry .get_pmu_allocation_struct_size
        = some .get_pmu_allocation_size_v2 ∧
      r.ops.pmu_ver.entry .get_pmu_seq_in_a_ptr
        = some .get_pmu_sequence_in_alloc_ptr_v1 ∧
      pmu_slot.family .get_pmu_allocation_struct_size = some .allocation ∧
      pmu_slot.family .get_pmu_seq_in_a_ptr = some .allocation ∧
      pmu_fn.version .get_pmu_allocation_size_v2 = some 2 ∧
      pmu_fn.version .get_pmu_sequence_in_alloc_ptr_v1 = some 1) :=
  ⟨⟨_, init_pmu_fw_ver_ops_supported 0 _ _ (by decide), rfl, rfl, rfl, rfl, rfl, rfl⟩,
    ⟨_, init_pmu_fw_ver_ops_supported 0 _ _ (by decide), rfl, rfl, rfl, rfl, rfl, rfl⟩⟩

/-- C30 (amended): for every supported tag, the accessors that a selection on an
empty table installs for a record family all have one version `v` of that family:
every engine-buffer-load accessor (GM20B version 0, GP10B version 1, the other four
version 2), every allocation accessor apart from GP10B's two sequence pointer
accessors, every init-message accessor, every perfmon-command accessor, and, for
GM20B, GP10B and GP10X, every command-line argument accessor.  For GP10B the two
sequence pointer accessors are version 1 while the other allocation accessors are
version 2.  For GV11B, GV10X and TU10X the command-line argument setters and the
pointer accessor are version 5 while the size accessor and the super-surface
configurator are version 6. -/
theorem init_pmu_fw_ver_ops_family_versions (G tag : Nat) (h : supported_app_version tag)
    (g : gk20a) (hg : g.ops.pmu_ver = pmu_v_zero) :
    ∃ r : gk20a,
      init_pmu_fw_ver_ops G g tag = some (r, 0) ∧
      ∃ v : pmu_family → Nat,
        (∀ s f F, r.ops.pmu_ver.entry s = some f → s.family = some F →
          (F = .cmdline → (tag = APP_VERSION_GM20B ∨ tag = APP_VERSION_GP10B ∨
            tag = APP_VERSION_GP10X)) →
          (tag = APP_VERSION_GP10B →
            s ≠ .get_pmu_seq_in_a_ptr ∧ s ≠ .get_pmu_seq_out_a_ptr) →
          f.version = some (v F)) ∧
        v .eng_buf_load
          = (if tag = APP_VERSION_GM20B then 0 else if tag = APP_VERSION_GP10B then 1 else 2) ∧
        (tag = APP_VERSION_GP10B →
          ∀ s f, r.ops.pmu_ver.entry s = some f → s.family = some .allocation →
            f.version = some (if s = .get_pmu_seq_in_a_ptr ∨
              s = .get_pmu_seq_out_a_ptr then 1 else 2)) ∧
        ((tag = APP_VERSION_GV11B ∨ tag = APP_VERSION_GV10X ∨ tag = APP_VERSION_TU10X) →
          ∀ s f, r.ops.pmu_ver.entry s = some f → s.family = some .cmdline →
            f.version = some (if s = .get_pmu_cmdline_args_size ∨
              s = .config_pmu_cmdline_args_super_surface then 6 else 5)) := by
  obtain ⟨r, hr, ht⟩ := init_pmu_fw_ver_ops_from_empty G tag h g hg
  refine ⟨r, hr, ?_⟩
  rw [ht]
  rcases h with rfl | rfl | rfl | rfl | rfl | rfl
  · refine ⟨fun F => match F with
      | .eng_buf_load => 0 | .allocation => 1 | .init_msg => 1 | .perfmon_cmd => 1
      | .cmdline => 3, ?_, by decide, ?_, ?_⟩
    · intro s f F hs hF hc ha
      cases s <;> first
        | (cases hs; cases hF; rfl)
        | (cases hs; cases hF)
        | cases hs
    · intro ht2
      exact absurd ht2 (by decide)
    · intro ht2
      exact absurd ht2 (by decide)
  · refine ⟨fun F => match F with
      | .eng_buf_load => 1 | .allocation => 2 | .init_msg => 1 | .perfmon_cmd => 2
      | .cmdline => 4, ?_, by decide, ?_, ?_⟩
    · intro s f F hs hF hc ha
      cases s <;> first
        | (cases hs; cases hF; first
            | rfl
            | exact absurd rfl (ha rfl).1
            | exact absurd rfl (ha rfl).2)
        | (cases hs; cases hF)
        | cases hs
    · intro _ s f hs hF
      cases s <;> first
        | (cases hs; cases hF; rfl)
        | (cases hs; cases hF)
        | cases hs
    · intro ht2
      exact absurd ht2 (by decide)
  · refine ⟨fun F => match F with
      | .eng_buf_load => 2 | .allocation => 3 | .init_msg => 3 | .perfmon_cmd => 3
      | .cmdline => 5, ?_, by decide, ?_, ?_⟩
    · intro s f F hs hF hc ha
      cases s <;> first
        | (cases hs; cases hF; rfl)
        | (cases hs; cases hF)
        | cases hs
    · intro ht2
      exact absurd ht2 (by decide)
    · intro ht2
      exact absurd ht2 (by decide)
  · refine ⟨fun F => match F with
      | .eng_buf_load => 2 | .allocation => 3 | .init_msg => 4 | .perfmon_cmd => 3
      | .cmdline => 5, ?_, by decide, ?_, ?_⟩
    · intro s f F hs hF hc ha
      cases s <;> first
        | (cases hs; cases hF; first | rfl | exact absurd (hc rfl) (by decide))
        | (cases hs; cases hF)
        | cases hs
    · intro ht2
      exact absurd ht2 (by decide)
    · intro _ s f hs hF
      cases s <;> first
        | (cases hs; cases hF; rfl)
        | (cases hs; cases hF)
        | cases hs
  · refine ⟨fun F => match F with
      | .eng_buf_load => 2 | .allocation => 3 | .init_msg => 5 | .perfmon_cmd => 3
      | .cmdline => 5, ?_, by decide, ?_, ?_⟩
    · intro s f F hs hF hc ha
      cases s <;> first
        | (cases hs; cases hF; first | rfl | exact absurd (hc rfl) (by decide))
        | (cases hs; cases hF)
    · intro ht2
      exact absurd ht2 (by decide)
    · intro _ s f hs hF
      cases s <;> first
        | (cases hs; cases hF; rfl)
        | (cases hs; cases hF)
  · refine ⟨fun F => match F with
      | .eng_buf_load => 2 | .allocation => 3 | .init_msg => 5 | .perfmon_cmd => 3
      | .cmdline => 5, ?_, by decide, ?_, ?_⟩
    · intro s f F hs hF hc ha
      cases s <;> first
        | (cases hs; cases hF; first | rfl | exact absurd (hc rfl) (by decide))
        | (cases hs; cases hF)
        | cases hs
    · intro ht2
      exact absurd ht2 (by decide)
    · intro _ s f hs hF
      cases s <;> first
        | (cases hs; cases hF; rfl)
        | (cases hs; cases hF)
        | cases hs

theorem init_pmu_fw_ver_ops_family_versions_witness :
    (supported_app_version APP_VERSION_GP10B ∧ gk20a_zero.ops.pmu_ver = pmu_v_zero) ∧
    ∃ r : gk20a,
      init_pmu_fw_ver_ops 0 gk20a_zero APP_VERSION_GP10B = some (r, 0) ∧
      ∃ v : pmu_family → Nat,
        (∀ s f F, r.ops.pmu_ver.entry s = some f → s.family = some F →
          (F = .cmdline → (APP_VERSION_GP10B = APP_VERSION_GM20B ∨
            APP_VERSION_GP10B = APP_VERSION_GP10B ∨
            APP_VERSION_GP10B = APP_VERSION_GP10X)) →
          (APP_VERSION_GP10B = APP_VERSION_GP10B →
            s ≠ .get_pmu_seq_in_a_ptr ∧ s ≠ .get_pmu_seq_out_a_ptr) →
          f.version = some (v F)) ∧
        v .eng_buf_load
          = (if APP_VERSION_GP10B = APP_VERSION_GM20B then 0
             else if APP_VERSION_GP10B = APP_VERSION_GP10B then 1 else 2) ∧
        (APP_VERSION_GP10B = APP_VERSION_GP10B →
          ∀ s f, r.ops.pmu_ver.entry s = some f → s.family = some .allocation →
            f.version = some (if s = .get_pmu_seq_in_a_ptr ∨
              s = .get_pmu_seq_out_a_ptr then 1 else 2)) ∧
        ((APP_VERSION_GP10B = APP_VERSION_GV11B ∨ APP_VERSION_GP10B = APP_VERSION_GV10X ∨
            APP_VERSION_GP10B = APP_VERSION_TU10X) →
          ∀ s f, r.ops.pmu_ver.entry s = some f → s.family = some .cmdline →
            f.version = some (if s = .get_pmu_cmdline_args_size ∨
              s = .config_pmu_cmdline_args_super_surface then 6 else 5)) :=
  ⟨⟨by decide, rfl⟩,
    init_pmu_fw_ver_ops_family_versions 0 APP_VERSION_GP10B (by decide) gk20a_zero rfl⟩

/-! ### Condition wait -/

/-- C31: for every version (1, 2, 3) of the perfmon start and init offset-of
accessors: given the field `COUNTER_ALLOC` the accessor returns `0` and writes the
byte offset of `counter_alloc` in that version's struct to `*offset`; given any other
field it returns `-EINVAL` and leaves `*offset` as it was. -/
theorem get_perfmon_cmd_offsetofvar_spec (d : perfmon_cmd_decls) (hd : d.fits)
    (field : Int) (offset : Nat) :
    (field = d.COUNTER_ALLOC →
      get_perfmon_cmd_start_offsetofvar_v1 d field offset
        = (0, d.offsetof_start_v1_counter_alloc) ∧
      get_perfmon_cmd_start_offsetofvar_v2 d field offset
        = (0, d.offsetof_start_v2_counter_alloc) ∧
      get_perfmon_cmd_start_offsetofvar_v3 d field offset
        = (0, d.offsetof_start_v3_counter_alloc) ∧
      get_perfmon_cmd_init_offsetofvar_v1 d field offset
        = (0, d.offsetof_init_v1_counter_alloc) ∧
      get_perfmon_cmd_init_offsetofvar_v2 d field offset
        = (0, d.offsetof_init_v2_counter_alloc) ∧
      get_perfmon_cmd_init_offsetofvar_v3 d field offset
        = (0, d.offsetof_init_v3_counter_alloc)) ∧
    (field ≠ d.COUNTER_ALLOC →
      get_perfmon_cmd_start_offsetofvar_v1 d field offset = (-EINVAL, offset) ∧
      get_perfmon_cmd_start_offsetofvar_v2 d field offset = (-EINVAL, offset) ∧
      get_perfmon_cmd_start_offsetofvar_v3 d field offset = (-EINVAL, offset) ∧
      get_perfmon_cmd_init_offsetofvar_v1 d field offset = (-EINVAL, offset) ∧
      get_perfmon_cmd_init_offsetofvar_v2 d field offset = (-EINVAL, offset) ∧
      get_perfmon_cmd_init_offsetofvar_v3 d field offset = (-EINVAL, offset)) := by
  obtain ⟨h1, h2, h3, h4, h5, h6⟩ := hd
  constructor
  · intro hf
    simp [get_perfmon_cmd_start_offsetofvar_v1, get_perfmon_cmd_start_offsetofvar_v2,
      get_perfmon_cmd_start_offsetofvar_v3, get_perfmon_cmd_init_offsetofvar_v1,
      get_perfmon_cmd_init_offsetofvar_v2, get_perfmon_cmd_init_offsetofvar_v3, hf,
      U32_of_lt h1, U32_of_lt h2, U32_of_lt h3, U32_of_lt h4, U32_of_lt h5, U32_of_lt h6]
  · intro hf
    simp [get_perfmon_cmd_start_offsetofvar_v1, get_perfmon_cmd_start_offsetofvar_v2,
      get_perfmon_cmd_start_offsetofvar_v3, get_perfmon_cmd_init_offsetofvar_v1,
      get_perfmon_cmd_init_offsetofvar_v2, get_perfmon_cmd_init_offsetofvar_v3, hf]

theorem get_perfmon_cmd_offsetofvar_spec_witness :
    perfmon_cmd_decls_sample.fits ∧
    get_perfmon_cmd_start_offsetofvar_v3 perfmon_cmd_decls_sample 0 77 = (0, 4) ∧
    get_perfmon_cmd_init_offsetofvar_v1 perfmon_cmd_decls_sample 0 77 = (0, 8) ∧
    get_perfmon_cmd_start_offsetofvar_v2 perfmon_cmd_decls_sample 1 77 = (-22, 77) ∧
    get_perfmon_cmd_init_offsetofvar_v3 perfmon_cmd_decls_sample (-5) 77 = (-22, 77) :=
  have hd : perfmon_cmd_decls_sample.fits :=
    ⟨by decide, by decide, by decide, by decide, by decide, by decide⟩
  have a := (get_perfmon_cmd_offsetofvar_spec perfmon_cmd_decls_sample hd 0 77).1 rfl
  have b := (get_perfmon_cmd_offsetofvar_spec perfmon_cmd_decls_sample hd 1 77).2 (by decide)
  have c := (get_perfmon_cmd_offsetofvar_spec perfmon_cmd_decls_sample hd (-5) 77).2
    (by decide)
  ⟨hd, a.2.2.1, a.2.2.2.1, b.2.1, c.2.2.2.2.2⟩

/-! ### Failing selection after a successful one -/

/-- Every case of the switch installs the version 2 counter setters in the two
entries that the pinning calls go through. -/
theorem init_pmu_fw_ver_ops_switch_counter_entries (g : gk20a) (tag : Nat)
    (h : supported_app_version tag) :
    (init_pmu_fw_ver_ops_switch g tag).1.ops.pmu_ver.set_perfmon_cntr_index
        = some .set_perfmon_cntr_index_v2 ∧
      (init_pmu_fw_ver_ops_switch g tag).1.ops.pmu_ver.set_perfmon_cntr_group_id
        = some .set_perfmon_cntr_group_id_v2 := by
  rcases h with rfl | rfl | rfl | rfl | rfl | rfl <;> exact ⟨rfl, rfl⟩

/-- The table that a successful selection returns holds the version 2 counter
setters. -/
theorem init_pmu_fw_ver_ops_installs_counter_entries (G : Nat) (g0 r0 : gk20a) (tag0 : Nat)
    (h0 : init_pmu_fw_ver_ops G g0 tag0 = some (r0, 0)) :
    r0.ops.pmu_ver.set_perfmon_cntr_index = some .set_perfmon_cntr_index_v2 ∧
      r0.ops.pmu_ver.set_perfmon_cntr_group_id = some .set_perfmon_cntr_group_id_v2 := by
  have hs : supported_app_version tag0 :=
    (init_pmu_fw_ver_ops_returns_zero_iff G g0 tag0).mp ⟨r0, h0⟩
  rw [init_pmu_fw_ver_ops_supported G g0 tag0 hs] at h0
  simp only [Option.some.injEq, Prod.mk.injEq, and_true] at h0
  rw [← h0]
  exact init_pmu_fw_ver_ops_switch_counter_entries g0 tag0 hs

/-- C32: when `init_pmu_fw_ver_ops` is given an unsupported tag on a device `g`
whose dispatch table is the one an earlier successful selection installed, it runs
the two counter-pinning calls through that table and then returns `-EINVAL`: the
device it leaves is `g` with the perfmon counter's `index` set to `3` and its
`group_id` set to `PMU_DOMAIN_GROUP_PSTATE`, so it differs from `g` whenever one of
the two fields held another value. -/
theorem init_pmu_fw_ver_ops_unsupported_after_selection (G : Nat) (hG : G < 2 ^ 8)
    (g0 r0 g : gk20a) (tag0 tag : Nat)
    (h0 : init_pmu_fw_ver_ops G g0 tag0 = some (r0, 0))
    (hg : g.ops.pmu_ver = r0.ops.pmu_ver)
    (h : ¬ supported_app_version tag) :
    init_pmu_fw_ver_ops G g tag
      = some ({ g with pmu := { g.pmu with perfmon_counter_v2 :=
                  { g.pmu.perfmon_counter_v2 with index := 3, group_id := G } } },
              -EINVAL) ∧
    ((g.pmu.perfmon_counter_v2.index ≠ 3 ∨ g.pmu.perfmon_counter_v2.group_id ≠ G) →
      ∃ r, init_pmu_fw_ver_ops G g tag = some (r, -EINVAL) ∧ r ≠ g ∧
        r.ops.pmu_ver = g.ops.pmu_ver) := by
  obtain ⟨e1, e2⟩ := init_pmu_fw_ver_ops_installs_counter_entries G g0 r0 tag0 h0
  rw [← hg] at e1 e2
  have hsw := init_pmu_fw_ver_ops_switch_unsupported g tag h
  have hres : init_pmu_fw_ver_ops G g tag
      = some ({ g with pmu := { g.pmu with perfmon_counter_v2 :=
                  { g.pmu.perfmon_counter_v2 with index := 3, group_id := G } } },
              -EINVAL) := by
    unfold init_pmu_fw_ver_ops
    rw [hsw]
    simp only [e1, e2, call_pmu_u8, set_perfmon_cntr_index_v2, set_perfmon_cntr_group_id_v2,
      U8_of_lt hG, show U8 3 = 3 from rfl]
  refine ⟨hres, fun hne => ⟨_, hres, ?_, rfl⟩⟩
  intro heq
  have h1 := congrArg (fun x : gk20a => x.pmu.perfmon_counter_v2.index) heq
  have h2 := congrArg (fun x : gk20a => x.pmu.perfmon_counter_v2.group_id) heq
  simp only at h1 h2
  rcases hne with hne | hne
  · exact hne h1.symm
  · exact hne h2.symm

theorem init_pmu_fw_ver_ops_unsupported_after_selection_witness :
    init_pmu_fw_ver_ops 0 gk20a_zero APP_VERSION_GM20B
      = some ({ gk20a_reloaded with
                  pmu := set_perfmon_cntr_group_id_v2
                    (set_perfmon_cntr_index_v2 gk20a_zero.pmu 3) 0 }, 0) ∧
    ¬ supported_app_version 7 ∧
    init_pmu_fw_ver_ops 0
        { gk20a_reloaded with
          pmu := { nvgpu_pmu_zero with perfmon_counter_v2 := ⟨7, 9, 1, 2, 3⟩ } } 7
      = some ({ gk20a_reloaded with
                  pmu := { nvgpu_pmu_zero with perfmon_counter_v2 := ⟨3, 0, 1, 2, 3⟩ } },
              -EINVAL) :=
  ⟨rfl, by decide,
    (init_pmu_fw_ver_ops_unsupported_after_selection 0 (by decide) gk20a_zero
      { gk20a_reloaded with
        pmu := set_perfmon_cntr_group_id_v2 (set_perfmon_cntr_index_v2 gk20a_zero.pmu 3) 0 }
      { gk20a_reloaded with
        pmu := { nvgpu_pmu_zero with perfmon_counter_v2 := ⟨7, 9, 1, 2, 3⟩ } }
      APP_VERSION_GM20B 7 rfl rfl (by decide)).1⟩

/-! ### Engine-buffer-load setters that accumulate -/

/-- The bitwise OR of two 32-bit words is a 32-bit word. -/
theorem U32_or_of_lt {a b : Nat} (ha : a < 2 ^ 32) (hb : b < 2 ^ 32) :
    U32 (a ||| b) = a ||| b :=
  U32_of_lt (Nat.or_lt_two_pow ha hb)

/-- C33: the version 1 address setters only OR into the address words.  On a
command whose address words `lo`, `hi` are 32-bit values, `set_dma_base_v1(b)`
leaves `lo | b` and `hi` (the high half of the 32-bit `b` is `0`) and
`set_dma_offset_v1(o)` leaves `lo | o`, so no bit that was set is cleared; base then
offset give `lo = b | o`, `hi = 0` on the zeroed command, and give that for all `b`
and `o` only when both words started as `0`; two calls `set_dma_base_v1(b1)`,
`set_dma_base_v1(b2)` on the zeroed command leave `b1 | b2`, which is not `b2` when
`b1` has a bit that `b2` lacks. -/
theorem pg_cmd_eng_buf_load_v1_setters_accumulate (pg : pmu_pg_cmd_eng_buf_load_v1)
    (b o b1 b2 : Nat)
    (hlo : pg.dma_desc.dma_addr.lo < 2 ^ 32) (hhi : pg.dma_desc.dma_addr.hi < 2 ^ 32)
    (hb : b < 2 ^ 32) (ho : o < 2 ^ 8) (hb1 : b1 < 2 ^ 32) (hb2 : b2 < 2 ^ 32) :
    (pg_cmd_eng_buf_load_set_dma_base_v1 pg b).dma_desc.dma_addr
      = { lo := pg.dma_desc.dma_addr.lo ||| b, hi := pg.dma_desc.dma_addr.hi } ∧
    (pg_cmd_eng_buf_load_set_dma_offset_v1 pg o).dma_desc.dma_addr
      = { lo := pg.dma_desc.dma_addr.lo ||| o, hi := pg.dma_desc.dma_addr.hi } ∧
    (∀ n, pg.dma_desc.dma_addr.lo.testBit n = true →
      (pg_cmd_eng_buf_load_set_dma_base_v1 pg b).dma_desc.dma_addr.lo.testBit n = true ∧
      (pg_cmd_eng_buf_load_set_dma_offset_v1 pg o).dma_desc.dma_addr.lo.testBit n = true) ∧
    (pg_cmd_eng_buf_load_set_dma_offset_v1
        (pg_cmd_eng_buf_load_set_dma_base_v1 eng_buf_load_v1_zero b) o).dma_desc.dma_addr
      = { lo := b ||| o, hi := 0 } ∧
    ((∀ x y, x < 2 ^ 32 → y < 2 ^ 8 →
        (pg_cmd_eng_buf_load_set_dma_offset_v1
          (pg_cmd_eng_buf_load_set_dma_base_v1 pg x) y).dma_desc.dma_addr
          = { lo := x ||| y, hi := 0 }) ↔
      (pg.dma_desc.dma_addr.lo = 0 ∧ pg.dma_desc.dma_addr.hi = 0)) ∧
    (pg_cmd_eng_buf_load_set_dma_base_v1
        (pg_cmd_eng_buf_load_set_dma_base_v1 pg b1) b2).dma_desc.dma_addr.lo
      = pg.dma_desc.dma_addr.lo ||| b1 ||| b2 ∧
    (pg_cmd_eng_buf_load_set_dma_base_v1
        (pg_cmd_eng_buf_load_set_dma_base_v1 eng_buf_load_v1_zero b1) b2).dma_desc.dma_addr.lo
      = b1 ||| b2 ∧
    (b1 ||| b2 ≠ b2 →
      (pg_cmd_eng_buf_load_set_dma_base_v1
        (pg_cmd_eng_buf_load_set_dma_base_v1 eng_buf_load_v1_zero b1) b2).dma_desc.dma_addr.lo
        ≠ b2) := by
  have hlo32 : ∀ x, x < 2 ^ 32 → u64_lo32 (U32 x) = x := by
    intro x hx; simp only [u64_lo32, U32]; omega
  have hhi32 : ∀ x, u64_hi32 (U32 x) = 0 := by
    intro x; simp only [u64_hi32, U32]; omega
  have ho32 : o < 2 ^ 32 := by omega
  have base : ∀ (p : pmu_pg_cmd_eng_buf_load_v1) (x : Nat),
      p.dma_desc.dma_addr.lo < 2 ^ 32 → p.dma_desc.dma_addr.hi < 2 ^ 32 → x < 2 ^ 32 →
      (pg_cmd_eng_buf_load_set_dma_base_v1 p x).dma_desc.dma_addr
        = { lo := p.dma_desc.dma_addr.lo ||| x, hi := p.dma_desc.dma_addr.hi } := by
    intro p x h1 h2 hx
    simp only [pg_cmd_eng_buf_load_set_dma_base_v1, hlo32 x hx, hhi32, Nat.or_zero,
      U32_or_of_lt h1 hx, U32_of_lt h2]
  have off : ∀ (p : pmu_pg_cmd_eng_buf_load_v1) (y : Nat),
      p.dma_desc.dma_addr.lo < 2 ^ 32 → y < 2 ^ 8 →
      (pg_cmd_eng_buf_load_set_dma_offset_v1 p y).dma_desc.dma_addr
        = { lo := p.dma_desc.dma_addr.lo ||| y, hi := p.dma_desc.dma_addr.hi } := by
    intro p y h1 hy
    simp only [pg_cmd_eng_buf_load_set_dma_offset_v1, U8_of_lt hy,
      U32_or_of_lt h1 (show y < 2 ^ 32 by omega)]
  have both : ∀ (p : pmu_pg_cmd_eng_buf_load_v1) (x y : Nat),
      p.dma_desc.dma_addr.lo < 2 ^ 32 → p.dma_desc.dma_addr.hi < 2 ^ 32 → x < 2 ^ 32 →
      y < 2 ^ 8 →
      (pg_cmd_eng_buf_load_set_dma_offset_v1
          (pg_cmd_eng_buf_load_set_dma_base_v1 p x) y).dma_desc.dma_addr
        = { lo := p.dma_desc.dma_addr.lo ||| x ||| y, hi := p.dma_desc.dma_addr.hi } := by
    intro p x y h1 h2 hx hy
    have hb := base p x h1 h2 hx
    have h1b : (pg_cmd_eng_buf_load_set_dma_base_v1 p x).dma_desc.dma_addr.lo < 2 ^ 32 := by
      rw [hb]; exact Nat.or_lt_two_pow h1 hx
    rw [off _ y h1b hy, hb]
  have twice : ∀ (p : pmu_pg_cmd_eng_buf_load_v1),
      p.dma_desc.dma_addr.lo < 2 ^ 32 → p.dma_desc.dma_addr.hi < 2 ^ 32 →
      (pg_cmd_eng_buf_load_set_dma_base_v1
          (pg_cmd_eng_buf_load_set_dma_base_v1 p b1) b2).dma_desc.dma_addr.lo
        = p.dma_desc.dma_addr.lo ||| b1 ||| b2 := by
    intro p h1 h2
    have hb := base p b1 h1 h2 hb1
    have h1b : (pg_cmd_eng_buf_load_set_dma_base_v1 p b1).dma_desc.dma_addr.lo < 2 ^ 32 := by
      rw [hb]; exact Nat.or_lt_two_pow h1 hb1
    have h2b : (pg_cmd_eng_buf_load_set_dma_base_v1 p b1).dma_desc.dma_addr.hi < 2 ^ 32 := by
      rw [hb]; exact h2
    rw [base _ b2 h1b h2b hb2, hb]
  have z1 : eng_buf_load_v1_zero.dma_desc.dma_addr.lo = 0 := rfl
  have z2 : eng_buf_load_v1_zero.dma_desc.dma_addr.hi = 0 := rfl
  have hz1 : eng_buf_load_v1_zero.dma_desc.dma_addr.lo < 2 ^ 32 := by decide
  have hz2 : eng_buf_load_v1_zero.dma_desc.dma_addr.hi < 2 ^ 32 := by decide
  have tz := twice eng_buf_load_v1_zero hz1 hz2
  rw [z1, Nat.zero_or] at tz
  refine ⟨base pg b hlo hhi hb, off pg o hlo ho, ?_, ?_, ?_, twice pg hlo hhi, tz, ?_⟩
  · intro n hn
    rw [base pg b hlo hhi hb, off pg o hlo ho]
    simp [Nat.testBit_or, hn]
  · rw [both _ b o hz1 hz2 hb ho, z1, z2, Nat.zero_or]
  · constructor
    · intro hall
      have h00 := hall 0 0 (by decide) (by decide)
      rw [both pg 0 0 hlo hhi (by decide) (by decide)] at h00
      simp only [Nat.or_zero, falc_u64.mk.injEq] at h00
      exact h00
    · rintro ⟨e1, e2⟩ x y hx hy
      rw [both pg x y hlo hhi hx hy, e1, e2, Nat.zero_or]
  · intro hne
    rw [tz]
    exact hne

theorem pg_cmd_eng_buf_load_v1_setters_accumulate_witness :
    (pg_cmd_eng_buf_load_set_dma_offset_v1
        (pg_cmd_eng_buf_load_set_dma_base_v1 eng_buf_load_v1_zero 0x12345600)
        0x21).dma_desc.dma_addr = { lo := 0x12345621, hi := 0 } ∧
    (pg_cmd_eng_buf_load_set_dma_base_v1
        (pg_cmd_eng_buf_load_set_dma_base_v1 eng_buf_load_v1_zero 0xF0) 0x0F).dma_desc.dma_addr.lo
      = 0xFF ∧
    (pg_cmd_eng_buf_load_set_dma_base_v1
        (pg_cmd_eng_buf_load_set_dma_base_v1 eng_buf_load_v1_zero 0xF0) 0x0F).dma_desc.dma_addr.lo
      ≠ 0x0F :=
  have h := pg_cmd_eng_buf_load_v1_setters_accumulate eng_buf_load_v1_zero 0x12345600 0x21
    0xF0 0x0F (by decide) (by decide) (by decide) (by decide) (by decide) (by decide)
  ⟨h.2.2.2.1, h.2.2.2.2.2.2.1, h.2.2.2.2.2.2.2 (by decide)⟩

/-- C34: the version 2 params setters do not commute.  `set_buf_size_v2(s)`
overwrites the whole `params` word with `s`, `set_dma_idx_v2(i)` ORs `i << 24` into
it; so for every 16-bit `s` and every non-zero 8-bit `i`, `set_dma_idx_v2(i)`
followed by `set_buf_size_v2(s)` leaves `params = s` with the index bits `0`, whereas
the other order leaves `s + i * 2^24`, and the two commands differ. -/
theorem pg_cmd_eng_buf_load_v2_params_order (pg : pmu_pg_cmd_eng_buf_load_v2)
    (s i : Nat) (hs : s < 2 ^ 16) (hi : i < 2 ^ 8) (hi0 : i ≠ 0) :
    pg_cmd_eng_buf_load_set_buf_size_v2 pg s
      = { pg with dma_desc := { pg.dma_desc with params := s } } ∧
    (pg_cmd_eng_buf_load_set_dma_idx_v2 pg i).dma_desc.params
      = U32 (pg.dma_desc.params ||| (i <<< 24)) ∧
    (pg_cmd_eng_buf_load_set_buf_size_v2
        (pg_cmd_eng_buf_load_set_dma_idx_v2 pg i) s).dma_desc.params = s ∧
    (pg_cmd_eng_buf_load_set_buf_size_v2
        (pg_cmd_eng_buf_load_set_dma_idx_v2 pg i) s).dma_desc.params / 2 ^ 24 = 0 ∧
    (pg_cmd_eng_buf_load_set_dma_idx_v2
        (pg_cmd_eng_buf_load_set_buf_size_v2 pg s) i).dma_desc.params = s + i * 2 ^ 24 ∧
    (pg_cmd_eng_buf_load_set_dma_idx_v2
        (pg_cmd_eng_buf_load_set_buf_size_v2 pg s) i).dma_desc.params / 2 ^ 24 = i ∧
    pg_cmd_eng_buf_load_set_buf_size_v2 (pg_cmd_eng_buf_load_set_dma_idx_v2 pg i) s
      ≠ pg_cmd_eng_buf_load_set_dma_idx_v2 (pg_cmd_eng_buf_load_set_buf_size_v2 pg s) i := by
  have hs24 : s < 2 ^ 24 := by omega
  have h24 : U32 24 = 24 := by decide
  have hsh : i <<< 24 = i * 2 ^ 24 := Nat.shiftLeft_eq i 24
  have hU : U32 (i <<< 24) = i <<< 24 := by
    apply U32_of_lt; rw [hsh]; omega
  have hor : s ||| (i <<< 24) = s + i * 2 ^ 24 := or_shiftLeft_24 s i hs24
  have hfin : U32 (s + i * 2 ^ 24) = s + i * 2 ^ 24 := by
    apply U32_of_lt; omega
  have hsize : (pg_cmd_eng_buf_load_set_buf_size_v2
      (pg_cmd_eng_buf_load_set_dma_idx_v2 pg i) s).dma_desc.params = s := by
    simp only [pg_cmd_eng_buf_load_set_buf_size_v2, U16_of_lt hs]
  have hidx : (pg_cmd_eng_buf_load_set_dma_idx_v2
      (pg_cmd_eng_buf_load_set_buf_size_v2 pg s) i).dma_desc.params = s + i * 2 ^ 24 := by
    simp only [pg_cmd_eng_buf_load_set_dma_idx_v2, pg_cmd_eng_buf_load_set_buf_size_v2,
      U16_of_lt hs, U8_of_lt hi, h24, U32_of_lt (show i < 2 ^ 32 by omega), hU, hor, hfin]
  refine ⟨?_, ?_, hsize, ?_, hidx, ?_, ?_⟩
  · simp only [pg_cmd_eng_buf_load_set_buf_size_v2, U16_of_lt hs]
  · simp only [pg_cmd_eng_buf_load_set_dma_idx_v2, U8_of_lt hi, h24,
      U32_of_lt (show i < 2 ^ 32 by omega), hU]
  · rw [hsize]; omega
  · rw [hidx]; omega
  · intro heq
    have hp := congrArg (fun p : pmu_pg_cmd_eng_buf_load_v2 => p.dma_desc.params) heq
    simp only [hsize, hidx] at hp
    have hpos : 0 < i := Nat.pos_of_ne_zero hi0
    omega

theorem pg_cmd_eng_buf_load_v2_params_order_witness :
    (pg_cmd_eng_buf_load_set_buf_size_v2
        (pg_cmd_eng_buf_load_set_dma_idx_v2 eng_buf_load_v2_zero 171) 4660).dma_desc.params
      = 4660 ∧
    (pg_cmd_eng_buf_load_set_dma_idx_v2
        (pg_cmd_eng_buf_load_set_buf_size_v2 eng_buf_load_v2_zero 4660) 171).dma_desc.params
      = 4660 + 171 * 2 ^ 24 :=
  have h := pg_cmd_eng_buf_load_v2_params_order eng_buf_load_v2_zero 4660 171
    (by decide) (by decide) (by decide)
  ⟨h.2.2.1, h.2.2.2.2.1⟩

/-! ### Queue parameters: unknown roles and adjacency -/

/-- C35: for init-message versions 3, 4 and 5, a queue id that is none of
`PMU_COMMAND_QUEUE_HPQ`, `PMU_COMMAND_QUEUE_LPQ`, `PMU_MESSAGE_QUEUE` makes
`get_pmu_init_msg_pmu_queue_params` return with the cells `*index`, `*offset`,
`*size` holding what the caller passed in; the functions are `void`, so nothing
reports an error. -/
theorem get_pmu_init_msg_pmu_queue_params_unknown_id (c : pmu_queue_ids) (id : Nat)
    (i3 : pmu_init_msg_pmu_v3) (i4 : pmu_init_msg_pmu_v4) (i5 : pmu_init_msg_pmu_v5)
    (out : pmu_queue_params)
    (h1 : id ≠ c.PMU_COMMAND_QUEUE_HPQ) (h2 : id ≠ c.PMU_COMMAND_QUEUE_LPQ)
    (h3 : id ≠ c.PMU_MESSAGE_QUEUE) :
    get_pmu_init_msg_pmu_queue_params_v3 c id i3 out = some out ∧
    get_pmu_init_msg_pmu_queue_params_v4 c id i4 out = some out ∧
    get_pmu_init_msg_pmu_queue_params_v5 c id i5 out = some out := by
  simp [get_pmu_init_msg_pmu_queue_params_v3, get_pmu_init_msg_pmu_queue_params_v4,
    get_pmu_init_msg_pmu_queue_params_v5, queue_params_row_v3, queue_params_row_v5,
    h1, h2, h3]

theorem get_pmu_init_msg_pmu_queue_params_unknown_id_witness :
    get_pmu_init_msg_pmu_queue_params_v3 pmu_queue_ids_sample 3
        ⟨[10, 11, 12, 13, 14], [256, 128, 64, 32, 16], 4096, 0, 0⟩ ⟨7, 8, 9⟩
      = some ⟨7, 8, 9⟩ ∧
    get_pmu_init_msg_pmu_queue_params_v4 pmu_queue_ids_sample 3
        ⟨[10, 11, 12, 13, 14], [256, 128, 64, 32, 16], 4096, 0, 0⟩ ⟨7, 8, 9⟩
      = some ⟨7, 8, 9⟩ ∧
    get_pmu_init_msg_pmu_queue_params_v5 pmu_queue_ids_sample 3
        ⟨[10, 11, 12, 13, 14], [256, 128, 64, 32, 16], 4096, 0, 0⟩ ⟨7, 8, 9⟩
      = some ⟨7, 8, 9⟩ :=
  get_pmu_init_msg_pmu_queue_params_unknown_id pmu_queue_ids_sample 3 _ _ _ _
    (by decide) (by decide) (by decide)

/-- The shared tail on a row `k` inside both tables: it returns, with the offset the
sum of `queue_offset` and the sizes of the rows before `k`, when that sum and the
size of row `k` do not wrap. -/
theorem queue_params_of_row_offset (qi qs : List Nat) (qo k : Nat)
    (hki : k < qi.length) (hks : k < qs.length)
    (hsum : qo + (qs.take (k + 1)).sum < 2 ^ 32) :
    ∃ p, queue_params_of_row qi qs qo k = some p ∧
      p.offset = qo + (qs.take k).sum ∧ p.size = qs.get ⟨k, hks⟩ := by
  have hs := List.sum_take_succ qs k hks
  have hcur : (if k ≠ 0 then queue_params_current_ptr qs k else some 0)
      = some (U32 (qs.take k).sum) := by
    by_cases h0 : k = 0
    · subst h0; simp [U32]
    · simp only [h0, ne_eq, not_false_eq_true, if_true]
      exact queue_params_current_ptr_eq qs k (Nat.le_of_lt hks)
  have e2 : U32 qs[k] = qs[k] := U32_of_lt (by omega)
  have e3 : U32 (qs.take k).sum = (qs.take k).sum := U32_of_lt (by omega)
  have e4 : U32 (qo + (qs.take k).sum) = qo + (qs.take k).sum := U32_of_lt (by omega)
  refine ⟨{ index := U32 qi[k], size := qs[k], offset := qo + (qs.take k).sum }, ?_, rfl, rfl⟩
  unfold queue_params_of_row
  rw [List.getElem?_eq_getElem hki, List.getElem?_eq_getElem hks, hcur]
  simp only [e2, e3, e4]

/-- Two consecutive rows `k`, `k + 1` of the shared tail are laid out back to
back. -/
theorem queue_params_of_row_adjacent (qi qs : List Nat) (qo k : Nat)
    (hki : k + 1 < qi.length) (hks : k + 1 < qs.length)
    (hsum : qo + (qs.take (k + 2)).sum < 2 ^ 32) :
    ∃ p q, queue_params_of_row qi qs qo k = some p ∧
      queue_params_of_row qi qs qo (k + 1) = some q ∧
      q.offset = p.offset + p.size ∧
      ∀ a, p.offset ≤ a → a < p.offset + p.size → a < q.offset := by
  have hk : k < qs.length := by omega
  have hs1 := List.sum_take_succ qs k hk
  have hs2 : (qs.take (k + 2)).sum = (qs.take (k + 1)).sum + qs[k + 1] :=
    List.sum_take_succ qs (k + 1) hks
  obtain ⟨p, hp, hpo, hps⟩ := queue_params_of_row_offset qi qs qo k (by omega) hk (by omega)
  obtain ⟨q, hq, hqo, _⟩ := queue_params_of_row_offset qi qs qo (k + 1) hki hks hsum
  have hadj : q.offset = p.offset + p.size := by
    rw [hqo, hpo, hps, hs1]
    simp only [List.get_eq_getElem]
    omega
  exact ⟨p, q, hp, hq, hadj, fun a _ h2 => by omega⟩

/-- C36: in init-message versions 3, 4 and 5 the queues are laid out back to back:
for two roles `id1`, `id2` that the accessor maps to consecutive table rows `k` and
`k + 1` (`k` in versions 3 and 4, `k5` in version 5), both rows inside the tables and
the `u32` sum of `queue_offset` and the sizes up to row `k + 1` not wrapping, the
offset returned for `id2` is the offset returned for `id1` plus the size returned for
`id1`; no address of the first region `[offset, offset + size)` reaches the second. -/
theorem get_pmu_init_msg_pmu_queue_params_adjacent (c : pmu_queue_ids)
    (id1 id2 k id1_5 id2_5 k5 : Nat)
    (i3 : pmu_init_msg_pmu_v3) (i4 : pmu_init_msg_pmu_v4) (i5 : pmu_init_msg_pmu_v5)
    (out1 out2 : pmu_queue_params)
    (hr1 : queue_params_row_v3 c id1 = some k)
    (hr2 : queue_params_row_v3 c id2 = some (k + 1))
    (hr1_5 : queue_params_row_v5 c id1_5 = some k5)
    (hr2_5 : queue_params_row_v5 c id2_5 = some (k5 + 1))
    (h3i : k + 1 < i3.queue_index.length) (h3s : k + 1 < i3.queue_size.length)
    (h3 : i3.queue_offset + (i3.queue_size.take (k + 2)).sum < 2 ^ 32)
    (h4i : k + 1 < i4.queue_index.length) (h4s : k + 1 < i4.queue_size.length)
    (h4 : i4.queue_offset + (i4.queue_size.take (k + 2)).sum < 2 ^ 32)
    (h5i : k5 + 1 < i5.queue_index.length) (h5s : k5 + 1 < i5.queue_size.length)
    (h5 : i5.queue_offset + (i5.queue_size.take (k5 + 2)).sum < 2 ^ 32) :
    (∃ p q, get_pmu_init_msg_pmu_queue_params_v3 c id1 i3 out1 = some p ∧
      get_pmu_init_msg_pmu_queue_params_v3 c id2 i3 out2 = some q ∧
      q.offset = p.offset + p.size ∧
      ∀ a, p.offset ≤ a → a < p.offset + p.size → a < q.offset) ∧
    (∃ p q, get_pmu_init_msg_pmu_queue_params_v4 c id1 i4 out1 = some p ∧
      get_pmu_init_msg_pmu_queue_params_v4 c id2 i4 out2 = some q ∧
      q.offset = p.offset + p.size ∧
      ∀ a, p.offset ≤ a → a < p.offset + p.size → a < q.offset) ∧
    (∃ p q, get_pmu_init_msg_pmu_queue_params_v5 c id1_5 i5 out1 = some p ∧
      get_pmu_init_msg_pmu_queue_params_v5 c id2_5 i5 out2 = some q ∧
      q.offset = p.offset + p.size ∧
      ∀ a, p.offset ≤ a → a < p.offset + p.size → a < q.offset) := by
  refine ⟨?_, ?_, ?_⟩
  · simp only [get_pmu_init_msg_pmu_queue_params_v3, hr1, hr2]
    exact queue_params_of_row_adjacent _ _ _ k h3i h3s h3
  · simp only [get_pmu_init_msg_pmu_queue_params_v4, hr1, hr2]
    exact queue_params_of_row_adjacent _ _ _ k h4i h4s h4
  · simp only [get_pmu_init_msg_pmu_queue_params_v5, hr1_5, hr2_5]
    exact queue_params_of_row_adjacent _ _ _ k5 h5i h5s h5

theorem get_pmu_init_msg_pmu_queue_params_adjacent_witness :
    (get_pmu_init_msg_pmu_queue_params_v3 pmu_queue_ids_sample 1
        ⟨[10, 11, 12, 13, 14], [256, 128, 64, 32, 16], 4096, 0, 0⟩ ⟨7, 8, 9⟩
      = some { index := 11, offset := 4352, size := 128 } ∧
    get_pmu_init_msg_pmu_queue_params_v3 pmu_queue_ids_sample 4
        ⟨[10, 11, 12, 13, 14], [256, 128, 64, 32, 16], 4096, 0, 0⟩ ⟨7, 8, 9⟩
      = some { index := 12, offset := 4480, size := 64 }) ∧
    ∃ p q, get_pmu_init_msg_pmu_queue_params_v5 pmu_queue_ids_sample 0
        ⟨[10, 11, 12, 13, 14], [256, 128, 64, 32, 16], 4096, 0, 0⟩ ⟨7, 8, 9⟩ = some p ∧
      get_pmu_init_msg_pmu_queue_params_v5 pmu_queue_ids_sample 1
        ⟨[10, 11, 12, 13, 14], [256, 128, 64, 32, 16], 4096, 0, 0⟩ ⟨7, 8, 9⟩ = some q ∧
      q.offset = p.offset + p.size ∧
      ∀ a, p.offset ≤ a → a < p.offset + p.size → a < q.offset :=
  ⟨⟨by decide, by decide⟩,
    (get_pmu_init_msg_pmu_queue_params_adjacent pmu_queue_ids_sample 1 4 1 0 1 0
      ⟨[10, 11, 12, 13, 14], [256, 128, 64, 32, 16], 4096, 0, 0⟩
      ⟨[10, 11, 12, 13, 14], [256, 128, 64, 32, 16], 4096, 0, 0⟩
      ⟨[10, 11, 12, 13, 14], [256, 128, 64, 32, 16], 4096, 0, 0⟩ ⟨7, 8, 9⟩ ⟨7, 8, 9⟩
      (by decide) (by decide) (by decide) (by decide)
      (by decide) (by decide) (by decide) (by decide) (by decide) (by decide)
      (by decide) (by decide) (by decide)).2.2⟩

/-! ### Firmware load on a PMU that already holds an image -/

/-- C37: if `pmu->fw_image` is already set when `init_pmu_ucode` is called, it
returns `0` at once with the device as it is and makes no call: no blob is
requested, none is released and `init_pmu_fw_ver_ops` is not called.  So after an
earlier load on `g0` that failed with `e` and left the device `g` with `fw_image`
set, the call reports success with no version selected. -/
theorem init_pmu_ucode_image_set_returns_zero (G : Nat)
    (request : String → Option nvgpu_firmware) (g : gk20a)
    (h : g.pmu.fw_image ≠ none) :
    init_pmu_ucode G request g = ([], some (g, 0)) ∧
    requested_names (init_pmu_ucode G request g).1 = [] ∧
    selected_tags (init_pmu_ucode G request g).1 = [] ∧
    (∀ c, c ∈ (init_pmu_ucode G request g).1 → False) ∧
    (∀ (request0 : String → Option nvgpu_firmware) (g0 : gk20a) (e : Int),
      (init_pmu_ucode G request0 g0).2 = some (g, e) → e ≠ 0 →
      (init_pmu_ucode G request g).2 = some (g, 0) ∧
      selected_tags (init_pmu_ucode G request g).1 = []) := by
  have hres : init_pmu_ucode G request g = ([], some (g, 0)) := by
    unfold init_pmu_ucode
    simp [h]
  rw [hres]
  refine ⟨rfl, rfl, rfl, ?_, fun _ _ _ _ _ => ⟨rfl, rfl⟩⟩
  intro c hc
  simp at hc

theorem init_pmu_ucode_image_set_returns_zero_witness :
    (init_pmu_ucode 0 firmware_store_no_sig gk20a_zero_secure).2
      = some ({ gk20a_zero_secure with pmu := { gk20a_zero_secure.pmu with
                  fw_image := some ⟨2, 0⟩, fw_desc := some ⟨3, APP_VERSION_GP10B⟩ } },
              -ENOENT) ∧
    (init_pmu_ucode 0 firmware_store_sample
        { gk20a_zero_secure with pmu := { gk20a_zero_secure.pmu with
            fw_image := some ⟨2, 0⟩, fw_desc := some ⟨3, APP_VERSION_GP10B⟩ } }).2
      = some ({ gk20a_zero_secure with pmu := { gk20a_zero_secure.pmu with
                  fw_image := some ⟨2, 0⟩, fw_desc := some ⟨3, APP_VERSION_GP10B⟩ } }, 0) ∧
    selected_tags (init_pmu_ucode 0 firmware_store_sample
        { gk20a_zero_secure with pmu := { gk20a_zero_secure.pmu with
            fw_image := some ⟨2, 0⟩, fw_desc := some ⟨3, APP_VERSION_GP10B⟩ } }).1 = [] :=
  have h := (init_pmu_ucode_image_set_returns_zero 0 firmware_store_sample
    { gk20a_zero_secure with pmu := { gk20a_zero_secure.pmu with
        fw_image := some ⟨2, 0⟩, fw_desc := some ⟨3, APP_VERSION_GP10B⟩ } }
    (by decide)).2.2.2.2 firmware_store_no_sig gk20a_zero_secure (-ENOENT) rfl (by decide)
  ⟨rfl, h.1, h.2⟩

/-! ### Lock unwinding -/

/-- A call through a dispatch-table entry of type `void (*)(struct nvgpu_pmu *, u8)`
leaves `remove_support` alone. -/
theorem call_pmu_u8_remove_support_frame (fp : Option pmu_fn) (pmu pmu1 : nvgpu_pmu)
    (value : Nat) (h : call_pmu_u8 fp pmu value = some pmu1) :
    pmu1.remove_support = pmu.remove_support := by
  unfold call_pmu_u8 at h
  split at h <;> first
    | (cases h; rfl)
    | exact Option.noConfusion h

/-- The version selection leaves `remove_support` alone. -/
theorem init_pmu_fw_ver_ops_remove_support_frame (G : Nat) (g r : gk20a) (tag : Nat)
    (e : Int) (h : init_pmu_fw_ver_ops G g tag = some (r, e)) :
    r.pmu.remove_support = g.pmu.remove_support := by
  by_cases hs : supported_app_version tag
  · rw [init_pmu_fw_ver_ops_supported G g tag hs] at h
    cases h
    rfl
  · have hsw := init_pmu_fw_ver_ops_switch_unsupported g tag hs
    unfold init_pmu_fw_ver_ops at h
    rw [hsw] at h
    simp only at h
    split at h
    · exact Option.noConfusion h
    · rename_i pmu1 h1
      split at h
      · exact Option.noConfusion h
      · rename_i pmu2 h2
        cases h
        exact (call_pmu_u8_remove_support_frame _ _ _ _ h2).trans
          (call_pmu_u8_remove_support_frame _ _ _ _ h1)

/-- The tail of `init_pmu_ucode` leaves `remove_support` alone. -/
theorem init_pmu_ucode_select_remove_support_frame (G : Nat) (g r : gk20a)
    (calls : List pmu_ucode_call) (tag : Nat) (e : Int)
    (h : (init_pmu_ucode_select G g calls tag).2 = some (r, e)) :
    r.pmu.remove_support = g.pmu.remove_support := by
  unfold init_pmu_ucode_select at h
  cases hsel : init_pmu_fw_ver_ops G g tag with
  | none => simp [hsel] at h
  | some p =>
    obtain ⟨g1, err⟩ := p
    have hf := init_pmu_fw_ver_ops_remove_support_frame G g g1 tag err hsel
    by_cases herr : err = 0 <;> simp [hsel, herr] at h <;>
      (obtain ⟨h1, _⟩ := h; rw [← h1]; exact hf)

/-- The firmware load leaves `remove_support` alone. -/
theorem init_pmu_ucode_remove_support_frame (G : Nat)
    (request : String → Option nvgpu_firmware) (g r : gk20a) (e : Int)
    (h : (init_pmu_ucode G request g).2 = some (r, e)) :
    r.pmu.remove_support = g.pmu.remove_support := by
  by_cases h0 : g.pmu.fw_image = none
  · cases hflag : nvgpu_is_enabled g.enabled_flags .NVGPU_SEC_PRIVSECURITY
    · cases hreq : request NVGPU_PMU_NS_UCODE_IMAGE with
      | none =>
        simp [init_pmu_ucode, h0, hflag, hreq] at h
        rw [← h.1]
      | some fw =>
        simp [init_pmu_ucode, h0, hflag, hreq] at h
        exact (init_pmu_ucode_select_remove_support_frame G _ r _ _ e h).trans rfl
    · cases hi : request NVGPU_PMU_UCODE_IMAGE with
      | none =>
        simp [init_pmu_ucode, h0, hflag, hi] at h
        rw [← h.1]
      | some fi =>
        cases hd : request NVGPU_PMU_UCODE_DESC with
        | none =>
          simp [init_pmu_ucode, h0, hflag, hi, hd] at h
          rw [← h.1]
        | some fd =>
          cases hsg : request NVGPU_PMU_UCODE_SIG with
          | none =>
            simp [init_pmu_ucode, h0, hflag, hi, hd, hsg] at h
            rw [← h.1]
          | some fs =>
            simp [init_pmu_ucode, h0, hflag, hi, hd, hsg] at h
            exact (init_pmu_ucode_select_remove_support_frame G _ r _ _ e h).trans rfl
  · simp [init_pmu_ucode, h0] at h
    rw [← h.1]

/-- C38: `nvgpu_early_init_pmu_sw` on supported hardware unwinds its locks exactly.
If initialisation number `k` (from `0`) of the five locks `elpg_mutex`, `pg_mutex`,
`isr_mutex`, `pmu_copy_lock`, `pmu_seq_lock` fails with `e` after the `k` earlier
ones succeeded, the calls are the query, the `k + 1` initialisations and the
destruction of the `k` initialised locks in reverse order, and `e` is returned with
the device untouched.  If all five succeed and `init_pmu_ucode` fails with `e`, all
five are destroyed in reverse order and `e` is returned.  If it returns `0`, nothing
is destroyed and `remove_support` is installed; and `remove_support` changes from
`NULL` to installed only in that case. -/
theorem nvgpu_early_init_pmu_sw_unwinds (env : pmu_init_env) (g : gk20a) :
    (g.support_ls_pmu = true → env.is_pmu_supported = true →
      ∀ (k : Nat) (m : pmu_mutex) (e : Int), pmu_mutex_order[k]? = some m →
        (∀ j mj, j < k → pmu_mutex_order[j]? = some mj → env.nvgpu_mutex_init mj = 0) →
        env.nvgpu_mutex_init m = e → e ≠ 0 →
        nvgpu_early_init_pmu_sw env g
          = (.is_pmu_supported :: (pmu_mutex_order.take (k + 1)).map .nvgpu_mutex_init
              ++ ((pmu_mutex_order.take k).reverse).map .nvgpu_mutex_destroy,
             some (g, e))) ∧
    (g.support_ls_pmu = true → env.is_pmu_supported = true →
      (∀ m, env.nvgpu_mutex_init m = 0) →
      ∀ (g1 : gk20a) (e : Int),
        (init_pmu_ucode env.PMU_DOMAIN_GROUP_PSTATE env.nvgpu_request_firmware g).2
          = some (g1, e) →
        (e ≠ 0 →
          nvgpu_early_init_pmu_sw env g
            = (.is_pmu_supported :: pmu_mutex_order.map .nvgpu_mutex_init
                ++ [.init_pmu_ucode (init_pmu_ucode env.PMU_DOMAIN_GROUP_PSTATE
                      env.nvgpu_request_firmware g).1]
                ++ pmu_mutex_order.reverse.map .nvgpu_mutex_destroy,
               some (g1, e))) ∧
        (e = 0 →
          nvgpu_early_init_pmu_sw env g
            = (.is_pmu_supported :: pmu_mutex_order.map .nvgpu_mutex_init
                ++ [.init_pmu_ucode (init_pmu_ucode env.PMU_DOMAIN_GROUP_PSTATE
                      env.nvgpu_request_firmware g).1],
               some ({ g1 with pmu := { g1.pmu with remove_support := true } }, 0)))) ∧
    (∀ (r : gk20a) (e : Int), (nvgpu_early_init_pmu_sw env g).2 = some (r, e) →
      g.pmu.remove_support = false → r.pmu.remove_support = true →
      e = 0 ∧ g.support_ls_pmu = true ∧ env.is_pmu_supported = true ∧
      (∀ m, env.nvgpu_mutex_init m = 0) ∧
      ∃ g1, (init_pmu_ucode env.PMU_DOMAIN_GROUP_PSTATE env.nvgpu_request_firmware g).2
          = some (g1, 0) ∧
        r = { g1 with pmu := { g1.pmu with remove_support := true } }) := by
  refine ⟨?_, ?_, ?_⟩
  · intro hs hq k m e hm hprev he hne
    have hk : k < 5 := by
      have := (List.getElem?_eq_some.mp hm).1
      simpa [pmu_mutex_order] using this
    subst he
    have hne1 : ¬ env.nvgpu_mutex_init m = 0 := hne
    match k, hk with
    | 0, _ =>
      simp only [pmu_mutex_order, List.getElem?_cons_zero, Option.some.injEq] at hm
      subst hm
      simp [nvgpu_early_init_pmu_sw, hs, hq, hne1, pmu_mutex_order]
    | 1, _ =>
      have p0 := hprev 0 .elpg_mutex (by decide) rfl
      simp only [pmu_mutex_order, List.getElem?_cons_succ, List.getElem?_cons_zero,
        Option.some.injEq] at hm
      subst hm
      simp [nvgpu_early_init_pmu_sw, hs, hq, hne1, pmu_mutex_order, p0, fail_elpg]
    | 2, _ =>
      have p0 := hprev 0 .elpg_mutex (by decide) rfl
      have p1 := hprev 1 .pg_mutex (by decide) rfl
      simp only [pmu_mutex_order, List.getElem?_cons_succ, List.getElem?_cons_zero,
        Option.some.injEq] at hm
      subst hm
      simp [nvgpu_early_init_pmu_sw, hs, hq, hne1, pmu_mutex_order, p0, p1, fail_elpg,
        fail_pg]
    | 3, _ =>
      have p0 := hprev 0 .elpg_mutex (by decide) rfl
      have p1 := hprev 1 .pg_mutex (by decide) rfl
      have p2 := hprev 2 .isr_mutex (by decide) rfl
      simp only [pmu_mutex_order, List.getElem?_cons_succ, List.getElem?_cons_zero,
        Option.some.injEq] at hm
      subst hm
      simp [nvgpu_early_init_pmu_sw, hs, hq, hne1, pmu_mutex_order, p0, p1, p2, fail_elpg,
        fail_pg, fail_isr]
    | 4, _ =>
      have p0 := hprev 0 .elpg_mutex (by decide) rfl
      have p1 := hprev 1 .pg_mutex (by decide) rfl
      have p2 := hprev 2 .isr_mutex (by decide) rfl
      have p3 := hprev 3 .pmu_copy_lock (by decide) rfl
      simp only [pmu_mutex_order, List.getElem?_cons_succ, List.getElem?_cons_zero,
        Option.some.injEq] at hm
      subst hm
      simp [nvgpu_early_init_pmu_sw, hs, hq, hne1, pmu_mutex_order, p0, p1, p2, p3,
        fail_elpg, fail_pg, fail_isr, fail_pmu_copy]
  · intro hs hq hall g1 e hu
    constructor
    · intro hne
      simp [nvgpu_early_init_pmu_sw, hs, hq, hall, hu, hne, pmu_mutex_order, fail_elpg,
        fail_pg, fail_isr, fail_pmu_copy, fail_seq_lock]
    · intro he
      subst he
      simp [nvgpu_early_init_pmu_sw, hs, hq, hall, hu, pmu_mutex_order]
  · intro r e h hfalse htrue
    have hcontra : ∀ x : gk20a, x.pmu.remove_support = g.pmu.remove_support → x = r →
        False := by
      intro x hx hxr
      rw [hxr, hfalse, htrue] at hx
      exact Bool.noConfusion hx
    cases hs : g.support_ls_pmu with
    | false =>
      simp [nvgpu_early_init_pmu_sw, hs] at h
      exact (hcontra g rfl h.1).elim
    | true =>
      cases hq : env.is_pmu_supported with
      | false =>
        simp [nvgpu_early_init_pmu_sw, hs, hq] at h
        exact (hcontra (disable_ls_pmu_checkers g) rfl h.1).elim
      | true =>
        by_cases h1 : env.nvgpu_mutex_init .elpg_mutex = 0
        case neg =>
          simp [nvgpu_early_init_pmu_sw, hs, hq, h1] at h
          exact (hcontra g rfl h.1).elim
        by_cases h2 : env.nvgpu_mutex_init .pg_mutex = 0
        case neg =>
          simp [nvgpu_early_init_pmu_sw, hs, hq, h1, h2] at h
          exact (hcontra g rfl h.1).elim
        by_cases h3 : env.nvgpu_mutex_init .isr_mutex = 0
        case neg =>
          simp [nvgpu_early_init_pmu_sw, hs, hq, h1, h2, h3] at h
          exact (hcontra g rfl h.1).elim
        by_cases h4 : env.nvgpu_mutex_init .pmu_copy_lock = 0
        case neg =>
          simp [nvgpu_early_init_pmu_sw, hs, hq, h1, h2, h3, h4] at h
          exact (hcontra g rfl h.1).elim
        by_cases h5 : env.nvgpu_mutex_init .pmu_seq_lock = 0
        case neg =>
          simp [nvgpu_early_init_pmu_sw, hs, hq, h1, h2, h3, h4, h5] at h
          exact (hcontra g rfl h.1).elim
        have hall : ∀ m, env.nvgpu_mutex_init m = 0 := by
          intro m; cases m <;> assumption
        cases hu : (init_pmu_ucode env.PMU_DOMAIN_GROUP_PSTATE
            env.nvgpu_request_firmware g).2 with
        | none => simp [nvgpu_early_init_pmu_sw, hs, hq, h1, h2, h3, h4, h5, hu] at h
        | some p =>
          obtain ⟨g1, err⟩ := p
          have hf := init_pmu_ucode_remove_support_frame _ _ g g1 err hu
          by_cases herr : err = 0
          · subst herr
            simp [nvgpu_early_init_pmu_sw, hs, hq, h1, h2, h3, h4, h5, hu] at h
            exact ⟨h.2.symm, rfl, rfl, hall, g1, rfl, h.1.symm⟩
          · simp [nvgpu_early_init_pmu_sw, hs, hq, h1, h2, h3, h4, h5, hu, herr] at h
            exact (hcontra g1 hf h.1).elim

theorem nvgpu_early_init_pmu_sw_unwinds_witness :
    nvgpu_early_init_pmu_sw pmu_init_env_isr_fails gk20a_ls_pmu
      = ([.is_pmu_supported, .nvgpu_mutex_init .elpg_mutex, .nvgpu_mutex_init .pg_mutex,
          .nvgpu_mutex_init .isr_mutex, .nvgpu_mutex_destroy .pg_mutex,
          .nvgpu_mutex_destroy .elpg_mutex], some (gk20a_ls_pmu, -12)) ∧
    nvgpu_early_init_pmu_sw pmu_init_env_no_sig
        { gk20a_ls_pmu with enabled_flags :=
            nvgpu_set_enabled gk20a_ls_pmu.enabled_flags .NVGPU_SEC_PRIVSECURITY true }
      = ([.is_pmu_supported, .nvgpu_mutex_init .elpg_mutex, .nvgpu_mutex_init .pg_mutex,
          .nvgpu_mutex_init .isr_mutex, .nvgpu_mutex_init .pmu_copy_lock,
          .nvgpu_mutex_init .pmu_seq_lock,
          .init_pmu_ucode [.nvgpu_request_firmware NVGPU_PMU_UCODE_IMAGE,
            .nvgpu_request_firmware NVGPU_PMU_UCODE_DESC,
            .nvgpu_request_firmware NVGPU_PMU_UCODE_SIG,
            .nvgpu_release_firmware (some ⟨3, APP_VERSION_GP10B⟩),
            .nvgpu_release_firmware (some ⟨2, 0⟩)],
          .nvgpu_mutex_destroy .pmu_seq_lock, .nvgpu_mutex_destroy .pmu_copy_lock,
          .nvgpu_mutex_destroy .isr_mutex, .nvgpu_mutex_destroy .pg_mutex,
          .nvgpu_mutex_destroy .elpg_mutex],
         some ({ gk20a_ls_pmu with
                   enabled_flags :=
                     nvgpu_set_enabled gk20a_ls_pmu.enabled_flags .NVGPU_SEC_PRIVSECURITY true,
                   pmu := { nvgpu_pmu_zero with
                     fw_image := some ⟨2, 0⟩, fw_desc := some ⟨3, APP_VERSION_GP10B⟩ } },
               -2)) :=
  ⟨(nvgpu_early_init_pmu_sw_unwinds pmu_init_env_isr_fails gk20a_ls_pmu).1 rfl rfl
      2 .isr_mutex (-12) rfl
      (fun j mj hj hm => by
        match j, hj with
        | 0, _ => cases hm; rfl
        | 1, _ => cases hm; rfl)
      rfl (by decide),
    ((nvgpu_early_init_pmu_sw_unwinds pmu_init_env_no_sig
      { gk20a_ls_pmu with enabled_flags :=
          nvgpu_set_enabled gk20a_ls_pmu.enabled_flags .NVGPU_SEC_PRIVSECURITY true }).2.1
      rfl rfl (fun _ => rfl) _ (-2) rfl).1 (by decide)⟩

/-! ### ZBC settings -/

/-- C39: every successful selection (the six supported tags, from any device) sets
`pmu_ver_cmd_id_zbc_table_update` to `16` and sets the flag `NVGPU_PMU_ZBC_SAVE` to
true exactly for GM20B, GP10B and GP10X and to false exactly for GV11B, GV10X and
TU10X.  On an unsupported tag the switch writes neither, and whenever the call
returns both are as they were. -/
theorem init_pmu_fw_ver_ops_zbc (G : Nat) (g : gk20a) (tag : Nat) :
    (supported_app_version tag →
      ∃ r : gk20a,
        init_pmu_fw_ver_ops G g tag = some (r, 0) ∧
        r.pmu_ver_cmd_id_zbc_table_update = 16 ∧
        (nvgpu_is_enabled r.enabled_flags .NVGPU_PMU_ZBC_SAVE = true ↔
          (tag = APP_VERSION_GM20B ∨ tag = APP_VERSION_GP10B ∨ tag = APP_VERSION_GP10X)) ∧
        (nvgpu_is_enabled r.enabled_flags .NVGPU_PMU_ZBC_SAVE = false ↔
          (tag = APP_VERSION_GV11B ∨ tag = APP_VERSION_GV10X ∨ tag = APP_VERSION_TU10X))) ∧
    (¬ supported_app_version tag →
      (init_pmu_fw_ver_ops_switch g tag).1.pmu_ver_cmd_id_zbc_table_update
        = g.pmu_ver_cmd_id_zbc_table_update ∧
      (init_pmu_fw_ver_ops_switch g tag).1.enabled_flags = g.enabled_flags ∧
      ∀ r e, init_pmu_fw_ver_ops G g tag = some (r, e) →
        r.pmu_ver_cmd_id_zbc_table_update = g.pmu_ver_cmd_id_zbc_table_update ∧
        nvgpu_is_enabled r.enabled_flags .NVGPU_PMU_ZBC_SAVE
          = nvgpu_is_enabled g.enabled_flags .NVGPU_PMU_ZBC_SAVE) := by
  constructor
  · intro h
    refine ⟨_, init_pmu_fw_ver_ops_supported G g tag h, ?_⟩
    rcases h with rfl | rfl | rfl | rfl | rfl | rfl
    · have hz : nvgpu_is_enabled
          (init_pmu_fw_ver_ops_switch g APP_VERSION_GM20B).1.enabled_flags
          .NVGPU_PMU_ZBC_SAVE = true := rfl
      refine ⟨rfl, ?_, ?_⟩ <;> (simp only [hz]; decide)
    · have hz : nvgpu_is_enabled
          (init_pmu_fw_ver_ops_switch g APP_VERSION_GP10B).1.enabled_flags
          .NVGPU_PMU_ZBC_SAVE = true := rfl
      refine ⟨rfl, ?_, ?_⟩ <;> (simp only [hz]; decide)
    · have hz : nvgpu_is_enabled
          (init_pmu_fw_ver_ops_switch g APP_VERSION_GP10X).1.enabled_flags
          .NVGPU_PMU_ZBC_SAVE = true := rfl
      refine ⟨rfl, ?_, ?_⟩ <;> (simp only [hz]; decide)
    · have hz : nvgpu_is_enabled
          (init_pmu_fw_ver_ops_switch g APP_VERSION_GV11B).1.enabled_flags
          .NVGPU_PMU_ZBC_SAVE = false := rfl
      refine ⟨rfl, ?_, ?_⟩ <;> (simp only [hz]; decide)
    · have hz : nvgpu_is_enabled
          (init_pmu_fw_ver_ops_switch g APP_VERSION_GV10X).1.enabled_flags
          .NVGPU_PMU_ZBC_SAVE = false := rfl
      refine ⟨rfl, ?_, ?_⟩ <;> (simp only [hz]; decide)
    · have hz : nvgpu_is_enabled
          (init_pmu_fw_ver_ops_switch g APP_VERSION_TU10X).1.enabled_flags
          .NVGPU_PMU_ZBC_SAVE = false := rfl
      refine ⟨rfl, ?_, ?_⟩ <;> (simp only [hz]; decide)
  · intro h
    rw [init_pmu_fw_ver_ops_switch_unsupported g tag h]
    refine ⟨rfl, rfl, ?_⟩
    intro r e hr
    obtain ⟨_, _, hz, hf⟩ := init_pmu_fw_ver_ops_unsupported_frame G g r tag e h hr
    rw [hz, hf]
    exact ⟨rfl, rfl⟩

theorem init_pmu_fw_ver_ops_zbc_witness :
    (∃ r : gk20a,
      init_pmu_fw_ver_ops 0 gk20a_reloaded APP_VERSION_GV11B = some (r, 0) ∧
      r.pmu_ver_cmd_id_zbc_table_update = 16 ∧
      nvgpu_is_enabled gk20a_reloaded.enabled_flags .NVGPU_PMU_ZBC_SAVE = true ∧
      nvgpu_is_enabled r.enabled_flags .NVGPU_PMU_ZBC_SAVE = false) ∧
    (∃ r : gk20a,
      init_pmu_fw_ver_ops 0 gk20a_reloaded 7 = some (r, -EINVAL) ∧
      r.pmu_ver_cmd_id_zbc_table_update = 16 ∧
      nvgpu_is_enabled r.enabled_flags .NVGPU_PMU_ZBC_SAVE = true) :=
  have h := (init_pmu_fw_ver_ops_zbc 0 gk20a_reloaded APP_VERSION_GV11B).1 (by decide)
  have u := ((init_pmu_fw_ver_ops_zbc 0 gk20a_reloaded 7).2 (by decide)).2.2
    { gk20a_reloaded with pmu := { gk20a_reloaded.pmu with
        perfmon_counter_v2 := ⟨3, 0, 0, 0, 0⟩ } } (-EINVAL) rfl
  ⟨⟨h.choose, h.choose_spec.1, h.choose_spec.2.1, rfl,
      h.choose_spec.2.2.2.mpr (Or.inl rfl)⟩,
    ⟨_, rfl, u.1, u.2⟩⟩

/-! ### Deadline of a timed wait -/

/-- For an argument that is a single term of value at least `1`, the deadline is
exact and normalised: from a current time with `0 <= tv_nsec < 10^9` the resulting
`timespec` has `0 <= tv_nsec < 10^9` and `tv_sec * 10^9 + tv_nsec` is the current
time in nanoseconds plus `timeout_ms * 10^6`; it is the deadline that every timed
wait of the macro is given. -/
theorem cond_wait_deadline_term_exact (env : cond_wait_env) (timeout_ms fuel : Nat)
    (h0 : 0 ≤ env.clock_gettime.tv_nsec) (h1 : env.clock_gettime.tv_nsec < 1000000000)
    (ht : 1 ≤ timeout_ms) :
    0 ≤ (cond_wait_deadline env.clock_gettime (.term timeout_ms)).tv_nsec ∧
    (cond_wait_deadline env.clock_gettime (.term timeout_ms)).tv_nsec < 1000000000 ∧
    (cond_wait_deadline env.clock_gettime (.term timeout_ms)).tv_sec * 1000000000
        + (cond_wait_deadline env.clock_gettime (.term timeout_ms)).tv_nsec
      = env.clock_gettime.tv_sec * 1000000000 + env.clock_gettime.tv_nsec
        + (timeout_ms : Int) * 1000000 ∧
    NVGPU_COND_WAIT env (.term timeout_ms) fuel
      = cond_wait_loop env (cond_wait_deadline env.clock_gettime (.term timeout_ms))
          fuel 0 0 := by
  have hne : (timeout_ms : Int) ≠ 0 := by omega
  refine ⟨?_, ?_, ?_, by simp [NVGPU_COND_WAIT, cond_wait_arg.value, hne]⟩
  all_goals
    unfold cond_wait_deadline
    simp only [cond_wait_arg.div_1000, cond_wait_arg.mod_1000]
    split_ifs with hc
    all_goals simp only
    all_goals push_cast
    all_goals omega

/-- C40: with the current time `(100, 999000000)` and the argument text `500 + 600`,
a timeout of `1100` milliseconds, the macro computes the deadline
`(601, 99000000)`: `timeout_ms / 1000` is pasted as `500 + 600 / 1000` and
`timeout_ms % 1000` as `500 + 600 % 1000`.  The result is normalised but is not the
current time plus `1100 * 10^6` nanoseconds, which is `(102, 99000000)`, the deadline
computed when the same timeout is written as the single term `1100`. -/
theorem cond_wait_deadline_pasted_sum :
    (cond_wait_arg.plus 500 600).value = 1100 ∧
    cond_wait_env_timeout.clock_gettime = ⟨100, 999000000⟩ ∧
    cond_wait_deadline cond_wait_env_timeout.clock_gettime (.plus 500 600)
      = ⟨601, 99000000⟩ ∧
    (601 : Int) * 1000000000 + 99000000
      ≠ 100 * 1000000000 + 999000000 + 1100 * 1000000 ∧
    cond_wait_deadline cond_wait_env_timeout.clock_gettime (.term 1100)
      = ⟨102, 99000000⟩ ∧
    (102 : Int) * 1000000000 + 99000000
      = 100 * 1000000000 + 999000000 + 1100 * 1000000 ∧
    NVGPU_COND_WAIT cond_wait_env_timeout (.plus 500 600) 4
      = cond_wait_loop cond_wait_env_timeout ⟨601, 99000000⟩ 4 0 0 := by
  decide

end Nvgpu
